import Mathlib

/-! # opendnp3 link layer: primary state machine and facade

A shallow embedding of `LinkLayer.cpp` and `PriLinkLayerStates.cpp`.

* The mutable `LinkLayer` object is a record that every method takes and returns.
* Calls made on collaborators (router, listener, upper layer, executor, timers) and the
  frames handed to `QueueTransmit` are appended, in program order, to the `trace` field.
* `ctx.pSegments->...` on a null pointer is undefined in the source; handlers that
  dereference `pSegments` return `Option`, with `none` standing for that case.
* The clock (`pExecutor->GetTime()`) is an input of the methods that read it.  Timestamps
  and durations are integers (milliseconds) taken without overflow; the retry counter and
  the addresses are naturals, the counter being decremented only when positive.
* A transmit buffer is represented by the frame formatted into it; `pendingPriTx` and
  `pendingSecTx` hold that frame.
* Logging is not modelled.  The router is assumed attached (`SetRouter`) and the upper
  layer pointer is the constructor argument, hence non-null.  What the upper layer and the
  listener do when called is outside the layer: their calls are recorded, and whatever
  they call back arrives as a later event.
-/

namespace opendnp3

/-! ## Data model -/

/-- Link function codes switched on by `LinkLayer::OnFrame`; `INVALID` stands for every
value of the enumeration that is none of the nine handled codes. -/
inductive LinkFunction
  | PRI_RESET_LINK_STATES
  | PRI_TEST_LINK_STATES
  | PRI_CONFIRMED_USER_DATA
  | PRI_UNCONFIRMED_USER_DATA
  | PRI_REQUEST_LINK_STATUS
  | SEC_ACK
  | SEC_NACK
  | SEC_LINK_STATUS
  | SEC_NOT_SUPPORTED
  | INVALID
  deriving DecidableEq, Repr

/-- Status reported to `ILinkListener::OnStateChange`. -/
inductive LinkStatus
  | UNRESET
  | RESET
  deriving DecidableEq, Repr

/-- Owner of the wire (`LinkTransmitMode`). -/
inductive LinkTransmitMode
  | Idle
  | Primary
  | Secondary
  deriving DecidableEq, Repr

/-- Configuration of the link layer (`LinkConfig`): durations are in milliseconds. -/
structure LinkConfig where
  IsMaster : Bool
  LocalAddr : Nat
  RemoteAddr : Nat
  UseConfirms : Bool
  NumRetry : Nat
  Timeout : Int
  KeepAliveTimeout : Int
  deriving DecidableEq, Repr

/-- Header of a received frame (`LinkHeaderFields`). -/
structure LinkHeaderFields where
  func : LinkFunction
  isFromMaster : Bool
  fcb : Bool
  fcvdfc : Bool
  dest : Nat
  src : Nat
  deriving DecidableEq, Repr

/-- Modelled from the spec: the frame formatter `LinkFrame::Format*` is not among the
sources.  A frame is represented by the formatter call that produced it, with the
arguments the link layer passes: direction bit, frame count bit or receive-buffer-full
bit, destination, source and payload. -/
inductive Frame
  | Ack (isMaster isRxBuffFull : Bool) (dest src : Nat)
  | Nack (isMaster isRxBuffFull : Bool) (dest src : Nat)
  | LinkStatus (isMaster isRxBuffFull : Bool) (dest src : Nat)
  | ResetLinkStates (isMaster : Bool) (dest src : Nat)
  | RequestLinkStatus (isMaster : Bool) (dest src : Nat)
  | ConfirmedUserData (isMaster fcb : Bool) (dest src : Nat) (data : List Nat)
  | UnconfirmedUserData (isMaster : Bool) (dest src : Nat) (data : List Nat)
  deriving DecidableEq, Repr

/-- Modelled from the spec: `ITransportSegment` is an interface of the upper layer that
is not among the sources.  It "produces a byte slice for the current segment and advances
to the next; `advance()` returns true iff another segment is pending": the current
segment followed by the segments still to come. -/
structure TransportSegment where
  current : List Nat
  rest : List (List Nat)
  deriving DecidableEq, Repr

/-- The call `segments.GetSegment()`. -/
def TransportSegment.GetSegment (s : TransportSegment) : List Nat :=
  s.current

/-- The call `segments.Advance()`: the object after the call and the returned flag. -/
def TransportSegment.Advance (s : TransportSegment) : TransportSegment × Bool :=
  match s.rest with
  | [] => (s, false)
  | x :: xs => ({ current := x, rest := xs }, true)

/-- Nodes of the primary state machine (the singletons `PLLS_*`). -/
inductive PriState
  | Idle
  | SendUnconfirmedTransmitWait
  | LinkResetTransmitWait
  | ResetLinkWait
  | ConfUserDataTransmitWait
  | ConfDataWait
  | RequestLinkStatusTransmitWait
  | RequestLinkStatusWait
  deriving DecidableEq, Repr

/-- Modelled from the spec: the secondary state machine (`SecLinkLayerStates.cpp`) is not
among the sources; the spec names its two nodes. -/
inductive SecState
  | NotReset
  | Reset
  deriving DecidableEq, Repr

/-- One entry of the trace: a call the layer made.  `QueueTransmit` records the frame
passed to `LinkLayer::QueueTransmit`; the others are calls on the router, the listener,
the upper layer, the executor and the two timers. -/
inductive Action
  | QueueTransmit (buffer : Frame) (primary : Bool)
  | BeginTransmit (buffer : Frame)
  | OnStateChange (status : LinkStatus)
  | OnKeepAliveInitiated
  | OnKeepAliveSuccess
  | OnKeepAliveFailure
  | UpperOnLowerLayerUp
  | UpperOnLowerLayerDown
  | OnReceive (data : List Nat)
  | PostSendResult (success : Bool)
  | StartResponseTimer
  | CancelResponseTimer
  | StartKeepAliveTimer (expiration : Int)
  | CancelKeepAliveTimer
  deriving DecidableEq, Repr

/-- The members of `LinkLayer`, with the two timers reduced to what is observable
(`rspTimeoutTimer`: armed or not; `keepAliveTimer`: the expiration when armed) and the
trace of calls made so far, oldest first. -/
structure LinkLayer where
  config : LinkConfig
  pSegments : Option TransportSegment
  txMode : LinkTransmitMode
  numRetryRemaining : Nat
  nextReadFCB : Bool
  nextWriteFCB : Bool
  isOnline : Bool
  isRemoteReset : Bool
  keepAliveTimeout : Bool
  lastMessageTimestamp : Int
  pPriState : PriState
  pSecState : SecState
  pendingPriTx : Option Frame
  pendingSecTx : Option Frame
  rspTimeoutTimer : Bool
  keepAliveTimer : Option Int
  trace : List Action
  deriving DecidableEq, Repr

/-- The value an `int64_t` holds after an addition or subtraction whose exact result is
`x`: the result modulo 2^64, between -2^63 and 2^63 - 1.  The `milliseconds` of a
timestamp and the milliseconds of a duration, which `LinkLayer.cpp` adds and subtracts,
are 64-bit signed integers. -/
def wrapInt64 (x : Int) : Int :=
  (x + 9223372036854775808) % 18446744073709551616 - 9223372036854775808

namespace LinkLayer

/-- The constructor `LinkLayer::LinkLayer`, at executor time `now`. -/
def new (config : LinkConfig) (now : Int) : LinkLayer :=
  { config := config
    pSegments := none
    txMode := LinkTransmitMode.Idle
    numRetryRemaining := 0
    nextReadFCB := false
    nextWriteFCB := false
    isOnline := false
    isRemoteReset := false
    keepAliveTimeout := false
    lastMessageTimestamp := now
    pPriState := PriState.Idle
    pSecState := SecState.NotReset
    pendingPriTx := none
    pendingSecTx := none
    rspTimeoutTimer := false
    keepAliveTimer := none
    trace := [] }

/-- Record a call made by the layer. -/
def emit (ctx : LinkLayer) (a : Action) : LinkLayer :=
  { ctx with trace := ctx.trace ++ [a] }

/-- The method `LinkLayer::QueueTransmit`. -/
def QueueTransmit (ctx : LinkLayer) (buffer : Frame) (primary : Bool) : LinkLayer :=
  let ctx := ctx.emit (Action.QueueTransmit buffer primary)
  if ctx.txMode = LinkTransmitMode.Idle then
    let ctx := { ctx with
      txMode := if primary then LinkTransmitMode.Primary else LinkTransmitMode.Secondary }
    ctx.emit (Action.BeginTransmit buffer)
  else if primary then
    { ctx with pendingPriTx := some buffer }
  else
    { ctx with pendingSecTx := some buffer }

/-- The method `LinkLayer::FormatPrimaryBufferWithConfirmed`. -/
def FormatPrimaryBufferWithConfirmed (ctx : LinkLayer) (tpdu : List Nat) (FCB : Bool) : Frame :=
  Frame.ConfirmedUserData ctx.config.IsMaster FCB ctx.config.RemoteAddr ctx.config.LocalAddr tpdu

/-- The method `LinkLayer::FormatPrimaryBufferWithUnconfirmed`. -/
def FormatPrimaryBufferWithUnconfirmed (ctx : LinkLayer) (tpdu : List Nat) : Frame :=
  Frame.UnconfirmedUserData ctx.config.IsMaster ctx.config.RemoteAddr ctx.config.LocalAddr tpdu

/-- The method `LinkLayer::QueueAck`. -/
def QueueAck (ctx : LinkLayer) : LinkLayer :=
  ctx.QueueTransmit
    (Frame.Ack ctx.config.IsMaster false ctx.config.RemoteAddr ctx.config.LocalAddr) false

/-- The method `LinkLayer::QueueLinkStatus`. -/
def QueueLinkStatus (ctx : LinkLayer) : LinkLayer :=
  ctx.QueueTransmit
    (Frame.LinkStatus ctx.config.IsMaster false ctx.config.RemoteAddr ctx.config.LocalAddr) false

/-- Modelled from the spec: the secondary machine "queues NACK" as a secondary
transmission; the method doing so is not in `LinkLayer.cpp`, it is written after
`QueueAck`. -/
def QueueNack (ctx : LinkLayer) : LinkLayer :=
  ctx.QueueTransmit
    (Frame.Nack ctx.config.IsMaster false ctx.config.RemoteAddr ctx.config.LocalAddr) false

/-- The method `LinkLayer::QueueResetLinks`. -/
def QueueResetLinks (ctx : LinkLayer) : LinkLayer :=
  ctx.QueueTransmit
    (Frame.ResetLinkStates ctx.config.IsMaster ctx.config.RemoteAddr ctx.config.LocalAddr) true

/-- The method `LinkLayer::QueueRequestLinkStatus`. -/
def QueueRequestLinkStatus (ctx : LinkLayer) : LinkLayer :=
  ctx.QueueTransmit
    (Frame.RequestLinkStatus ctx.config.IsMaster ctx.config.RemoteAddr ctx.config.LocalAddr) true

/-- The method `LinkLayer::ResetRetry`. -/
def ResetRetry (ctx : LinkLayer) : LinkLayer :=
  { ctx with numRetryRemaining := ctx.config.NumRetry }

/-- The method `LinkLayer::Retry`: the object after the call and the returned flag. -/
def Retry (ctx : LinkLayer) : LinkLayer × Bool :=
  if ctx.numRetryRemaining > 0 then
    ({ ctx with numRetryRemaining := ctx.numRetryRemaining - 1 }, true)
  else
    (ctx, false)

/-- Modelled from the spec: `ResetWriteFCB` is defined in `LinkLayer.h`, which is not
among the sources; the spec has it "reset `next_write_fcb` to false". -/
def ResetWriteFCB (ctx : LinkLayer) : LinkLayer :=
  { ctx with nextWriteFCB := false }

/-- Modelled from the spec: `ToggleWriteFCB` is defined in `LinkLayer.h`, which is not
among the sources; the spec has it "toggle `next_write_fcb`". -/
def ToggleWriteFCB (ctx : LinkLayer) : LinkLayer :=
  { ctx with nextWriteFCB := !ctx.nextWriteFCB }

/-- Modelled from the spec: `ResetReadFCB` is defined in `LinkLayer.h`, which is not
among the sources; the spec has it "initialize `next_read_fcb = true`". -/
def ResetReadFCB (ctx : LinkLayer) : LinkLayer :=
  { ctx with nextReadFCB := true }

/-- Modelled from the spec: `ToggleReadFCB` is defined in `LinkLayer.h`, which is not
among the sources; the spec has it "toggle `next_read_fcb`". -/
def ToggleReadFCB (ctx : LinkLayer) : LinkLayer :=
  { ctx with nextReadFCB := !ctx.nextReadFCB }

/-- The method `LinkLayer::PushDataUp`. -/
def PushDataUp (ctx : LinkLayer) (data : List Nat) : LinkLayer :=
  ctx.emit (Action.OnReceive data)

/-- The method `LinkLayer::CompleteSendOperation`: the call of `OnSendResult` is posted
to the executor, not made. -/
def CompleteSendOperation (ctx : LinkLayer) (success : Bool) : LinkLayer :=
  let ctx := { ctx with pSegments := none }
  ctx.emit (Action.PostSendResult success)

/-- The method `LinkLayer::StartResponseTimer`. -/
def StartResponseTimer (ctx : LinkLayer) : LinkLayer :=
  ({ ctx with rspTimeoutTimer := true }).emit Action.StartResponseTimer

/-- The method `LinkLayer::StartKeepAliveTimer`. -/
def StartKeepAliveTimer (ctx : LinkLayer) (expiration : Int) : LinkLayer :=
  ({ ctx with keepAliveTimer := some expiration }).emit (Action.StartKeepAliveTimer expiration)

/-- The method `LinkLayer::CancelTimer`. -/
def CancelTimer (ctx : LinkLayer) : LinkLayer :=
  ({ ctx with rspTimeoutTimer := false }).emit Action.CancelResponseTimer

/-- The method `LinkLayer::FailKeepAlive`. -/
def FailKeepAlive (ctx : LinkLayer) (timeout : Bool) : LinkLayer :=
  if timeout then ctx.emit Action.OnKeepAliveFailure else ctx

/-- The method `LinkLayer::CompleteKeepAlive`. -/
def CompleteKeepAlive (ctx : LinkLayer) : LinkLayer :=
  ctx.emit Action.OnKeepAliveSuccess

/-- The method `LinkLayer::Validate`. -/
def Validate (ctx : LinkLayer) (isMaster : Bool) (src dest : Nat) : Bool :=
  if isMaster = ctx.config.IsMaster then
    false
  else if dest ≠ ctx.config.LocalAddr then
    false
  else if src ≠ ctx.config.RemoteAddr then
    false
  else
    true

/-- The method `LinkLayer::TryPendingTx`, on the slot selected by `primary`: the object
after the call and the returned flag. -/
def TryPendingTx (ctx : LinkLayer) (primary : Bool) : LinkLayer × Bool :=
  match (if primary then ctx.pendingPriTx else ctx.pendingSecTx) with
  | some buffer =>
    if ctx.txMode = LinkTransmitMode.Idle then
      let ctx := ctx.emit (Action.BeginTransmit buffer)
      let ctx := if primary then { ctx with pendingPriTx := none }
                 else { ctx with pendingSecTx := none }
      ({ ctx with
          txMode := if primary then LinkTransmitMode.Primary else LinkTransmitMode.Secondary },
       true)
    else
      (ctx, false)
  | none => (ctx, false)

end LinkLayer

/-! ## Primary state machine (`PriLinkLayerStates.cpp`)

Every handler takes the context and returns the context after the call together with the
state it returns a reference to. -/

/-- The handler `PLLS_Idle::TrySendUnconfirmed`. -/
def PLLS_Idle.TrySendUnconfirmed (ctx : LinkLayer) (segments : TransportSegment) :
    LinkLayer × PriState :=
  let first := segments.GetSegment
  let output := ctx.FormatPrimaryBufferWithUnconfirmed first
  let ctx := ctx.QueueTransmit output true
  (ctx, PriState.SendUnconfirmedTransmitWait)

/-- The handler `PLLS_Idle::TrySendConfirmed`. -/
def PLLS_Idle.TrySendConfirmed (ctx : LinkLayer) (segments : TransportSegment) :
    LinkLayer × PriState :=
  if ctx.isRemoteReset then
    let ctx := ctx.ResetRetry
    let buffer := ctx.FormatPrimaryBufferWithConfirmed segments.GetSegment ctx.nextWriteFCB
    let ctx := ctx.QueueTransmit buffer true
    (ctx, PriState.ConfUserDataTransmitWait)
  else
    let ctx := ctx.ResetRetry
    let ctx := ctx.QueueResetLinks
    (ctx, PriState.LinkResetTransmitWait)

/-- The handler `PLLS_Idle::TrySendRequestLinkStatus`. -/
def PLLS_Idle.TrySendRequestLinkStatus (ctx : LinkLayer) : LinkLayer × PriState :=
  let ctx := { ctx with keepAliveTimeout := false }
  let ctx := ctx.QueueRequestLinkStatus
  let ctx := ctx.emit Action.OnKeepAliveInitiated
  (ctx, PriState.RequestLinkStatusTransmitWait)

/-- The handler `PLLS_SendUnconfirmedTransmitWait::OnTransmitResult`; `none` when
`pSegments` is null. -/
def PLLS_SendUnconfirmedTransmitWait.OnTransmitResult (ctx : LinkLayer) (success : Bool) :
    Option (LinkLayer × PriState) :=
  match ctx.pSegments with
  | none => none
  | some segments =>
    let adv := segments.Advance
    let ctx := { ctx with pSegments := some adv.1 }
    if adv.2 then
      let output := ctx.FormatPrimaryBufferWithUnconfirmed adv.1.GetSegment
      let ctx := ctx.QueueTransmit output true
      some (ctx, PriState.SendUnconfirmedTransmitWait)
    else
      let ctx := ctx.CompleteSendOperation success
      some (ctx, PriState.Idle)

/-- The handler `PLLS_LinkResetTransmitWait::OnTransmitResult`. -/
def PLLS_LinkResetTransmitWait.OnTransmitResult (ctx : LinkLayer) (success : Bool) :
    LinkLayer × PriState :=
  if success then
    let ctx := ctx.StartResponseTimer
    (ctx, PriState.ResetLinkWait)
  else
    let ctx := ctx.CompleteSendOperation success
    (ctx, PriState.Idle)

/-- The handler `PLLS_ConfUserDataTransmitWait::OnTransmitResult`. -/
def PLLS_ConfUserDataTransmitWait.OnTransmitResult (ctx : LinkLayer) (success : Bool) :
    LinkLayer × PriState :=
  if success then
    let ctx := ctx.StartResponseTimer
    (ctx, PriState.ConfDataWait)
  else
    let ctx := ctx.CompleteSendOperation false
    (ctx, PriState.Idle)

/-- The handler `PLLS_RequestLinkStatusTransmitWait::OnTransmitResult`. -/
def PLLS_RequestLinkStatusTransmitWait.OnTransmitResult (ctx : LinkLayer) (success : Bool) :
    LinkLayer × PriState :=
  if success then
    let ctx := ctx.StartResponseTimer
    (ctx, PriState.RequestLinkStatusWait)
  else
    let ctx := ctx.FailKeepAlive false
    (ctx, PriState.Idle)

/-- The handler `PLLS_ResetLinkWait::OnAck`; `none` when `pSegments` is null. -/
def PLLS_ResetLinkWait.OnAck (ctx : LinkLayer) (_rxBuffFull : Bool) :
    Option (LinkLayer × PriState) :=
  let ctx := { ctx with isRemoteReset := true }
  let ctx := ctx.ResetWriteFCB
  let ctx := ctx.CancelTimer
  match ctx.pSegments with
  | none => none
  | some segments =>
    let buffer := ctx.FormatPrimaryBufferWithConfirmed segments.GetSegment ctx.nextWriteFCB
    let ctx := ctx.QueueTransmit buffer true
    let ctx := ctx.emit (Action.OnStateChange LinkStatus.RESET)
    some (ctx, PriState.ConfUserDataTransmitWait)

/-- The handler `PLLS_ResetLinkWait::OnTimeout`. -/
def PLLS_ResetLinkWait.OnTimeout (ctx : LinkLayer) : LinkLayer × PriState :=
  let r := ctx.Retry
  if r.2 then
    let ctx := r.1.QueueResetLinks
    (ctx, PriState.LinkResetTransmitWait)
  else
    let ctx := r.1.CompleteSendOperation false
    (ctx, PriState.Idle)

/-- The handler `PLLS_ResetLinkWait::Failure`. -/
def PLLS_ResetLinkWait.Failure (ctx : LinkLayer) : LinkLayer × PriState :=
  let ctx := ctx.CancelTimer
  let ctx := ctx.CompleteSendOperation false
  (ctx, PriState.Idle)

/-- The handler `PLLS_ConfDataWait::OnAck`; `none` when `pSegments` is null. -/
def PLLS_ConfDataWait.OnAck (ctx : LinkLayer) (_rxBuffFull : Bool) :
    Option (LinkLayer × PriState) :=
  let ctx := ctx.ToggleWriteFCB
  let ctx := ctx.CancelTimer
  match ctx.pSegments with
  | none => none
  | some segments =>
    let adv := segments.Advance
    let ctx := { ctx with pSegments := some adv.1 }
    if adv.2 then
      let buffer := ctx.FormatPrimaryBufferWithConfirmed adv.1.GetSegment ctx.nextWriteFCB
      let ctx := ctx.QueueTransmit buffer true
      some (ctx, PriState.ConfUserDataTransmitWait)
    else
      let ctx := ctx.CompleteSendOperation true
      some (ctx, PriState.Idle)

/-- The handler `PLLS_ConfDataWait::Failure`. -/
def PLLS_ConfDataWait.Failure (ctx : LinkLayer) : LinkLayer × PriState :=
  let ctx := ctx.CancelTimer
  let ctx := ctx.CompleteSendOperation false
  (ctx, PriState.Idle)

/-- The handler `PLLS_ConfDataWait::OnNack`. -/
def PLLS_ConfDataWait.OnNack (ctx : LinkLayer) (rxBuffFull : Bool) : LinkLayer × PriState :=
  let ctx := ctx.emit (Action.OnStateChange LinkStatus.UNRESET)
  if rxBuffFull then
    PLLS_ConfDataWait.Failure ctx
  else
    let ctx := ctx.ResetRetry
    let ctx := ctx.CancelTimer
    let ctx := ctx.QueueResetLinks
    (ctx, PriState.LinkResetTransmitWait)

/-- The handler `PLLS_ConfDataWait::OnTimeout`; `none` when a retry is due and
`pSegments` is null. -/
def PLLS_ConfDataWait.OnTimeout (ctx : LinkLayer) : Option (LinkLayer × PriState) :=
  let r := ctx.Retry
  if r.2 then
    match r.1.pSegments with
    | none => none
    | some segments =>
      let buffer := r.1.FormatPrimaryBufferWithConfirmed segments.GetSegment r.1.nextWriteFCB
      let ctx := r.1.QueueTransmit buffer true
      some (ctx, PriState.ConfUserDataTransmitWait)
  else
    let ctx := r.1.emit (Action.OnStateChange LinkStatus.UNRESET)
    let ctx := ctx.CompleteSendOperation false
    some (ctx, PriState.Idle)

/-- The handler `PLLS_RequestLinkStatusWait::OnNack`. -/
def PLLS_RequestLinkStatusWait.OnNack (ctx : LinkLayer) (_rxBuffFull : Bool) :
    LinkLayer × PriState :=
  let ctx := ctx.CancelTimer
  let ctx := ctx.FailKeepAlive false
  (ctx, PriState.Idle)

/-- The handler `PLLS_RequestLinkStatusWait::OnLinkStatus`. -/
def PLLS_RequestLinkStatusWait.OnLinkStatus (ctx : LinkLayer) (_rxBuffFull : Bool) :
    LinkLayer × PriState :=
  let ctx := ctx.CancelTimer
  let ctx := ctx.CompleteKeepAlive
  (ctx, PriState.Idle)

/-- The handler `PLLS_RequestLinkStatusWait::OnNotSupported`. -/
def PLLS_RequestLinkStatusWait.OnNotSupported (ctx : LinkLayer) (_rxBuffFull : Bool) :
    LinkLayer × PriState :=
  let ctx := ctx.CancelTimer
  let ctx := ctx.FailKeepAlive false
  (ctx, PriState.Idle)

/-- The handler `PLLS_RequestLinkStatusWait::OnTimeout`. -/
def PLLS_RequestLinkStatusWait.OnTimeout (ctx : LinkLayer) : LinkLayer × PriState :=
  let ctx := ctx.FailKeepAlive true
  (ctx, PriState.Idle)

namespace PriState

/-- Virtual dispatch of `OnAck`: the overrides, else `PriStateBase::OnAck`. -/
def OnAck (s : PriState) (ctx : LinkLayer) (rxBuffFull : Bool) : Option (LinkLayer × PriState) :=
  match s with
  | ResetLinkWait => PLLS_ResetLinkWait.OnAck ctx rxBuffFull
  | ConfDataWait => PLLS_ConfDataWait.OnAck ctx rxBuffFull
  | _ => some (ctx, s)

/-- Virtual dispatch of `OnNack`: the overrides, else `PriStateBase::OnNack`. -/
def OnNack (s : PriState) (ctx : LinkLayer) (rxBuffFull : Bool) : LinkLayer × PriState :=
  match s with
  | ConfDataWait => PLLS_ConfDataWait.OnNack ctx rxBuffFull
  | RequestLinkStatusWait => PLLS_RequestLinkStatusWait.OnNack ctx rxBuffFull
  | _ => (ctx, s)

/-- Virtual dispatch of `OnLinkStatus`: the override, else `PriStateBase::OnLinkStatus`. -/
def OnLinkStatus (s : PriState) (ctx : LinkLayer) (rxBuffFull : Bool) : LinkLayer × PriState :=
  match s with
  | RequestLinkStatusWait => PLLS_RequestLinkStatusWait.OnLinkStatus ctx rxBuffFull
  | _ => (ctx, s)

/-- Virtual dispatch of `OnNotSupported`: the override, else
`PriStateBase::OnNotSupported`. -/
def OnNotSupported (s : PriState) (ctx : LinkLayer) (rxBuffFull : Bool) : LinkLayer × PriState :=
  match s with
  | RequestLinkStatusWait => PLLS_RequestLinkStatusWait.OnNotSupported ctx rxBuffFull
  | _ => (ctx, s)

/-- Virtual dispatch of `OnTransmitResult`: the overrides, else
`PriStateBase::OnTransmitResult`. -/
def OnTransmitResult (s : PriState) (ctx : LinkLayer) (success : Bool) :
    Option (LinkLayer × PriState) :=
  match s with
  | SendUnconfirmedTransmitWait => PLLS_SendUnconfirmedTransmitWait.OnTransmitResult ctx success
  | LinkResetTransmitWait => some (PLLS_LinkResetTransmitWait.OnTransmitResult ctx success)
  | ConfUserDataTransmitWait => some (PLLS_ConfUserDataTransmitWait.OnTransmitResult ctx success)
  | RequestLinkStatusTransmitWait =>
    some (PLLS_RequestLinkStatusTransmitWait.OnTransmitResult ctx success)
  | _ => some (ctx, s)

/-- Virtual dispatch of `OnTimeout`: the overrides, else `PriStateBase::OnTimeout`. -/
def OnTimeout (s : PriState) (ctx : LinkLayer) : Option (LinkLayer × PriState) :=
  match s with
  | ResetLinkWait => some (PLLS_ResetLinkWait.OnTimeout ctx)
  | ConfDataWait => PLLS_ConfDataWait.OnTimeout ctx
  | RequestLinkStatusWait => some (PLLS_RequestLinkStatusWait.OnTimeout ctx)
  | _ => some (ctx, s)

/-- Virtual dispatch of `TrySendConfirmed`: `PLLS_Idle` overrides, else
`PriStateBase::TrySendConfirmed`. -/
def TrySendConfirmed (s : PriState) (ctx : LinkLayer) (segments : TransportSegment) :
    LinkLayer × PriState :=
  match s with
  | Idle => PLLS_Idle.TrySendConfirmed ctx segments
  | _ => (ctx, s)

/-- Virtual dispatch of `TrySendUnconfirmed`: `PLLS_Idle` overrides, else
`PriStateBase::TrySendUnconfirmed`. -/
def TrySendUnconfirmed (s : PriState) (ctx : LinkLayer) (segments : TransportSegment) :
    LinkLayer × PriState :=
  match s with
  | Idle => PLLS_Idle.TrySendUnconfirmed ctx segments
  | _ => (ctx, s)

/-- Virtual dispatch of `TrySendRequestLinkStatus`: `PLLS_Idle` overrides, else
`PriStateBase::TrySendRequestLinkStatus`. -/
def TrySendRequestLinkStatus (s : PriState) (ctx : LinkLayer) : LinkLayer × PriState :=
  match s with
  | Idle => PLLS_Idle.TrySendRequestLinkStatus ctx
  | _ => (ctx, s)

end PriState

/-! ## Secondary state machine -/

namespace SecState

/-- Modelled from the spec: `SecLinkLayerStates.cpp` is not among the sources.
"NotReset.on_reset_link_states → Reset (initialize `next_read_fcb = true`; queue ACK)";
"Reset.on_reset_link_states → self (queue ACK; reset `next_read_fcb = true`)". -/
def OnResetLinkStates (s : SecState) (ctx : LinkLayer) : LinkLayer × SecState :=
  match s with
  | NotReset => ((ctx.ResetReadFCB).QueueAck, Reset)
  | Reset => ((ctx.QueueAck).ResetReadFCB, Reset)

/-- Modelled from the spec: `SecLinkLayerStates.cpp` is not among the sources.
"on_request_link_status → self (queue LINK_STATUS)" in both states. -/
def OnRequestLinkStatus (s : SecState) (ctx : LinkLayer) : LinkLayer × SecState :=
  (ctx.QueueLinkStatus, s)

/-- Modelled from the spec: `SecLinkLayerStates.cpp` is not among the sources.
"NotReset.on_test_link_status(fcb) → self (queue NACK)";
"Reset.on_test_link_status(fcb) → self (queue ACK if fcb matches expected, else NACK)". -/
def OnTestLinkStatus (s : SecState) (ctx : LinkLayer) (fcb : Bool) : LinkLayer × SecState :=
  match s with
  | NotReset => (ctx.QueueNack, NotReset)
  | Reset => if fcb = ctx.nextReadFCB then (ctx.QueueAck, Reset) else (ctx.QueueNack, Reset)

/-- Modelled from the spec: `SecLinkLayerStates.cpp` is not among the sources.
"NotReset.on_confirmed_user_data(fcb, data) → self (queue NACK; drop data)";
"Reset.on_confirmed_user_data(fcb, data) → self (queue ACK; if `fcb == next_read_fcb`:
deliver data up, toggle `next_read_fcb`; else drop data)". -/
def OnConfirmedUserData (s : SecState) (ctx : LinkLayer) (fcb : Bool) (data : List Nat) :
    LinkLayer × SecState :=
  match s with
  | NotReset => (ctx.QueueNack, NotReset)
  | Reset =>
    let ctx := ctx.QueueAck
    if fcb = ctx.nextReadFCB then
      let ctx := ctx.PushDataUp data
      (ctx.ToggleReadFCB, Reset)
    else
      (ctx, Reset)

/-- Modelled from the spec: `SecLinkLayerStates.cpp` is not among the sources and the
spec gives the secondary machine no transition on a transmit completion: the state and
the context are kept. -/
def OnTransmitResult (s : SecState) (ctx : LinkLayer) (_success : Bool) : LinkLayer × SecState :=
  (ctx, s)

end SecState

/-! ## Facade (`LinkLayer.cpp`) -/

namespace LinkLayer

/-- The method `LinkLayer::TryStartTransmission`. -/
def TryStartTransmission (ctx : LinkLayer) : LinkLayer :=
  let ctx :=
    if ctx.keepAliveTimeout then
      let r := ctx.pPriState.TrySendRequestLinkStatus ctx
      { r.1 with pPriState := r.2 }
    else ctx
  match ctx.pSegments with
  | some segments =>
    let r :=
      if ctx.config.UseConfirms then ctx.pPriState.TrySendConfirmed ctx segments
      else ctx.pPriState.TrySendUnconfirmed ctx segments
    { r.1 with pPriState := r.2 }
  | none => ctx

/-- The method `LinkLayer::SetTxSegment`: the object after the call and the returned flag. -/
def SetTxSegment (ctx : LinkLayer) (segments : TransportSegment) : LinkLayer × Bool :=
  if !ctx.isOnline then
    (ctx, false)
  else if ctx.pSegments.isSome then
    (ctx, false)
  else
    ({ ctx with pSegments := some segments }, true)

/-- The method `LinkLayer::Send`. -/
def Send (ctx : LinkLayer) (segments : TransportSegment) : LinkLayer :=
  let r := ctx.SetTxSegment segments
  if r.2 then r.1.TryStartTransmission else r.1

/-- The method `LinkLayer::OnLowerLayerUp`, at executor time `now`: the object after the
call and the returned flag; the sum of milliseconds is that of `int64_t`. -/
def OnLowerLayerUp (ctx : LinkLayer) (now : Int) : LinkLayer × Bool :=
  if ctx.isOnline then
    (ctx, false)
  else
    let ctx := { ctx with isOnline := true }
    let ctx := { ctx with lastMessageTimestamp := now }
    let ctx := ctx.StartKeepAliveTimer (wrapInt64 (now + ctx.config.KeepAliveTimeout))
    let ctx := ctx.emit (Action.OnStateChange LinkStatus.UNRESET)
    let ctx := ctx.emit Action.UpperOnLowerLayerUp
    (ctx, true)

/-- The method `LinkLayer::OnLowerLayerDown`: the object after the call and the returned
flag. -/
def OnLowerLayerDown (ctx : LinkLayer) : LinkLayer × Bool :=
  if !ctx.isOnline then
    (ctx, false)
  else
    let ctx := { ctx with
      isOnline := false
      keepAliveTimeout := false
      isRemoteReset := false
      pSegments := none
      txMode := LinkTransmitMode.Idle
      pendingPriTx := none
      pendingSecTx := none }
    let ctx := ({ ctx with rspTimeoutTimer := false }).emit Action.CancelResponseTimer
    let ctx := ({ ctx with keepAliveTimer := none }).emit Action.CancelKeepAliveTimer
    let ctx := { ctx with pPriState := PriState.Idle, pSecState := SecState.NotReset }
    let ctx := ctx.emit (Action.OnStateChange LinkStatus.UNRESET)
    let ctx := ctx.emit Action.UpperOnLowerLayerDown
    (ctx, true)

/-- The method `LinkLayer::OnTransmitResult`: the object after the call and the returned
flag; `none` when the dispatched handler dereferences a null `pSegments`. -/
def OnTransmitResult (ctx : LinkLayer) (success : Bool) : Option (LinkLayer × Bool) :=
  if ctx.txMode = LinkTransmitMode.Idle then
    some (ctx, false)
  else
    let isPrimary := decide (ctx.txMode = LinkTransmitMode.Primary)
    let ctx := { ctx with txMode := LinkTransmitMode.Idle }
    let ctx := (ctx.TryPendingTx false).1
    let ctx := (ctx.TryPendingTx true).1
    if isPrimary then
      match ctx.pPriState.OnTransmitResult ctx success with
      | none => none
      | some r =>
        let ctx := { r.1 with pPriState := r.2 }
        some (ctx.TryStartTransmission, true)
    else
      let r := ctx.pSecState.OnTransmitResult ctx success
      let ctx := { r.1 with pSecState := r.2 }
      some (ctx.TryStartTransmission, true)

/-- The method `LinkLayer::OnKeepAliveTimeout`, at executor time `now`; the difference
and the sum of milliseconds are those of `int64_t`. -/
def OnKeepAliveTimeout (ctx : LinkLayer) (now : Int) : LinkLayer :=
  let elapsed := wrapInt64 (now - ctx.lastMessageTimestamp)
  let ctx :=
    if elapsed ≥ ctx.config.KeepAliveTimeout then
      { ctx with lastMessageTimestamp := now, keepAliveTimeout := true }
    else ctx
  let expiration := wrapInt64 (ctx.lastMessageTimestamp + ctx.config.KeepAliveTimeout)
  let ctx := ctx.StartKeepAliveTimer expiration
  ctx.TryStartTransmission

/-- The method `LinkLayer::OnResponseTimeout`; `none` when the dispatched handler
dereferences a null `pSegments`. -/
def OnResponseTimeout (ctx : LinkLayer) : Option LinkLayer :=
  match ctx.pPriState.OnTimeout ctx with
  | none => none
  | some r =>
    let ctx := { r.1 with pPriState := r.2 }
    some ctx.TryStartTransmission

/-- The `switch` of `LinkLayer::OnFrame`: the context after the selected handler, or the
`default` branch (`Sum.inl`, the method then returns false); `none` when the handler
dereferences a null `pSegments`. -/
def dispatchFrame (ctx : LinkLayer) (header : LinkHeaderFields) (userdata : List Nat) :
    Option (LinkLayer ⊕ LinkLayer) :=
  match header.func with
  | LinkFunction.SEC_ACK =>
    match ctx.pPriState.OnAck ctx header.fcvdfc with
    | none => none
    | some r => some (Sum.inr { r.1 with pPriState := r.2 })
  | LinkFunction.SEC_NACK =>
    let r := ctx.pPriState.OnNack ctx header.fcvdfc
    some (Sum.inr { r.1 with pPriState := r.2 })
  | LinkFunction.SEC_LINK_STATUS =>
    let r := ctx.pPriState.OnLinkStatus ctx header.fcvdfc
    some (Sum.inr { r.1 with pPriState := r.2 })
  | LinkFunction.SEC_NOT_SUPPORTED =>
    let r := ctx.pPriState.OnNotSupported ctx header.fcvdfc
    some (Sum.inr { r.1 with pPriState := r.2 })
  | LinkFunction.PRI_TEST_LINK_STATES =>
    let r := ctx.pSecState.OnTestLinkStatus ctx header.fcb
    some (Sum.inr { r.1 with pSecState := r.2 })
  | LinkFunction.PRI_RESET_LINK_STATES =>
    let r := ctx.pSecState.OnResetLinkStates ctx
    some (Sum.inr { r.1 with pSecState := r.2 })
  | LinkFunction.PRI_REQUEST_LINK_STATUS =>
    let r := ctx.pSecState.OnRequestLinkStatus ctx
    some (Sum.inr { r.1 with pSecState := r.2 })
  | LinkFunction.PRI_CONFIRMED_USER_DATA =>
    let r := ctx.pSecState.OnConfirmedUserData ctx header.fcb userdata
    some (Sum.inr { r.1 with pSecState := r.2 })
  | LinkFunction.PRI_UNCONFIRMED_USER_DATA =>
    some (Sum.inr (ctx.PushDataUp userdata))
  | LinkFunction.INVALID => some (Sum.inl ctx)

/-- The method `LinkLayer::OnFrame`, at executor time `now`: the object after the call
and the returned flag; `none` when the dispatched handler dereferences a null
`pSegments`. -/
def OnFrame (ctx : LinkLayer) (now : Int) (header : LinkHeaderFields) (userdata : List Nat) :
    Option (LinkLayer × Bool) :=
  if !ctx.isOnline then
    some (ctx, false)
  else if !ctx.Validate header.isFromMaster header.src header.dest then
    some (ctx, false)
  else
    let ctx := { ctx with lastMessageTimestamp := now }
    match ctx.dispatchFrame header userdata with
    | none => none
    | some (Sum.inl ctx) => some (ctx, false)
    | some (Sum.inr ctx) => some (ctx.TryStartTransmission, true)

end LinkLayer

/-! ## Event sequences -/

/-- The calls that drive the layer: from the upper layer (`Send`), from the router
(`OnLowerLayerUp`, `OnLowerLayerDown`, `OnTransmitResult`, `OnFrame`) and from the two
timers; `now` is the executor time read during the call. -/
inductive Event
  | Send (segments : TransportSegment)
  | OnLowerLayerUp (now : Int)
  | OnLowerLayerDown
  | OnTransmitResult (success : Bool)
  | OnFrame (now : Int) (header : LinkHeaderFields) (userdata : List Nat)
  | OnResponseTimeout
  | OnKeepAliveTimeout (now : Int)
  deriving DecidableEq, Repr

/-- One event: the context after the call, `none` when the call is undefined.  The
expiry that runs `OnResponseTimeout` leaves the response timer not armed. -/
def step (ctx : LinkLayer) (e : Event) : Option LinkLayer :=
  match e with
  | Event.Send segments => some (ctx.Send segments)
  | Event.OnLowerLayerUp now => some (ctx.OnLowerLayerUp now).1
  | Event.OnLowerLayerDown => some ctx.OnLowerLayerDown.1
  | Event.OnTransmitResult success => (ctx.OnTransmitResult success).map Prod.fst
  | Event.OnFrame now header userdata => (ctx.OnFrame now header userdata).map Prod.fst
  | Event.OnResponseTimeout => ({ ctx with rspTimeoutTimer := false }).OnResponseTimeout
  | Event.OnKeepAliveTimeout now => some (ctx.OnKeepAliveTimeout now)

/-- A sequence of events, oldest first; `none` as soon as one call is undefined. -/
def run (ctx : LinkLayer) : List Event → Option LinkLayer
  | [] => some ctx
  | e :: es =>
    match step ctx e with
    | none => none
    | some ctx => run ctx es

/-- The contexts the layer can be in between two events: those a sequence of events
leads to from a newly constructed layer. -/
def Reachable (ctx : LinkLayer) : Prop :=
  ∃ (config : LinkConfig) (now : Int) (es : List Event), run (LinkLayer.new config now) es = some ctx

/-! ## Vocabulary of the statements -/

/-- What holds of the context between two events: an idle primary machine has neither a
send nor a keep-alive waiting, the five states of a send have the segments of that send,
and confirmed data is in flight only towards a peer recorded as reset. -/
def WellFormed (ctx : LinkLayer) : Prop :=
  match ctx.pPriState with
  | PriState.Idle => ctx.pSegments = none ∧ ctx.keepAliveTimeout = false
  | PriState.SendUnconfirmedTransmitWait => ctx.pSegments ≠ none
  | PriState.LinkResetTransmitWait => ctx.pSegments ≠ none
  | PriState.ResetLinkWait => ctx.pSegments ≠ none
  | PriState.ConfUserDataTransmitWait => ctx.pSegments ≠ none ∧ ctx.isRemoteReset = true
  | PriState.ConfDataWait => ctx.pSegments ≠ none ∧ ctx.isRemoteReset = true
  | PriState.RequestLinkStatusTransmitWait => True
  | PriState.RequestLinkStatusWait => True

/-- The calls made between the context `ctx` and the later context `ctx'`. -/
def newActions (ctx ctx' : LinkLayer) : List Action :=
  ctx'.trace.drop ctx.trace.length

/-- The frames passed to `QueueTransmit` as primary frames, in order. -/
def queuedPrimary : List Action → List Frame
  | [] => []
  | Action.QueueTransmit buffer true :: as => buffer :: queuedPrimary as
  | _ :: as => queuedPrimary as

/-- The results posted to the upper layer (`OnSendResult`), in order. -/
def postedResults : List Action → List Bool
  | [] => []
  | Action.PostSendResult success :: as => success :: postedResults as
  | _ :: as => postedResults as

/-- The frame is CONFIRMED_USER_DATA. -/
def Frame.isConfirmedUserData : Frame → Bool
  | Frame.ConfirmedUserData _ _ _ _ _ => true
  | _ => false

/-- The frame is RESET_LINK_STATES. -/
def Frame.isResetLinkStates : Frame → Bool
  | Frame.ResetLinkStates _ _ _ => true
  | _ => false

/-- The call queues a CONFIRMED_USER_DATA frame. -/
def Action.queuesConfirmedUserData : Action → Bool
  | Action.QueueTransmit buffer _ => buffer.isConfirmedUserData
  | _ => false

/-- The call queues a RESET_LINK_STATES frame. -/
def Action.queuesResetLinkStates : Action → Bool
  | Action.QueueTransmit buffer _ => buffer.isResetLinkStates
  | _ => false

/-- The event is a frame with function code `func` that `OnFrame` lets through to the
`switch`: the layer is online and the header passes `Validate`. -/
def Event.isAccepted (ctx : LinkLayer) (func : LinkFunction) : Event → Bool
  | Event.OnFrame _ header _ =>
    ctx.isOnline && ctx.Validate header.isFromMaster header.src header.dest &&
      decide (header.func = func)
  | _ => false

/-- The event is an ACK that `OnFrame` lets through while the primary machine waits for
the answer to RESET_LINK_STATES. -/
def Event.isAckInResetLinkWait (ctx : LinkLayer) (e : Event) : Bool :=
  e.isAccepted ctx LinkFunction.SEC_ACK && decide (ctx.pPriState = PriState.ResetLinkWait)

/-- What a stretch of execution from `ctx` to `ctx'` does about confirmed data, `ack`
telling whether it handles an ACK in `ResetLinkWait`: no CONFIRMED_USER_DATA frame is
queued unless the peer is recorded as reset at the end, none is queued for a peer not
reset at the start unless the stretch handles that ACK, and the listener is told `RESET`
once by that ACK and never otherwise. -/
def ConfirmedGate (ctx ctx' : LinkLayer) (ack : Bool) : Prop :=
  (ctx'.isRemoteReset = false →
    ctx'.trace.countP Action.queuesConfirmedUserData =
      ctx.trace.countP Action.queuesConfirmedUserData) ∧
  (ctx.isRemoteReset = false →
    (ctx'.isRemoteReset = false ∧
      ctx'.trace.countP Action.queuesConfirmedUserData =
        ctx.trace.countP Action.queuesConfirmedUserData) ∨ ack = true) ∧
  ctx'.trace.count (Action.OnStateChange LinkStatus.RESET) =
    ctx.trace.count (Action.OnStateChange LinkStatus.RESET) + (if ack then 1 else 0)

/-! ## The scenario of the specification -/

/-- The configuration of the end-to-end scenarios: master, local address 1, remote
address 1024, confirmed sends, two retries, one second to answer, sixty seconds of
silence before a keep-alive. -/
def scenarioConfig : LinkConfig :=
  { IsMaster := true
    LocalAddr := 1
    RemoteAddr := 1024
    UseConfirms := true
    NumRetry := 2
    Timeout := 1000
    KeepAliveTimeout := 60000 }

/-- A header the scenario layer accepts: from the outstation 1024 to the master 1. -/
def scenarioHeader (func : LinkFunction) (fcvdfc : Bool) : LinkHeaderFields :=
  { func := func
    isFromMaster := false
    fcb := false
    fcvdfc := fcvdfc
    dest := 1
    src := 1024 }

/-- The scenario layer, constructed and brought online at time 0. -/
def scenarioOnline : LinkLayer :=
  ((LinkLayer.new scenarioConfig 0).OnLowerLayerUp 0).1

/-- The scenario layer with unconfirmed sends, constructed and brought online at time 0. -/
def scenarioUnconfirmed : LinkLayer :=
  ((LinkLayer.new { scenarioConfig with UseConfirms := false } 0).OnLowerLayerUp 0).1

/-- One round without an answer: the transmission completes, then the response timer
expires. -/
def timeoutRound : List Event :=
  [Event.OnTransmitResult true, Event.OnResponseTimeout]

/-- A number of rounds without an answer, one after the other. -/
def timeoutRounds : Nat → List Event
  | 0 => []
  | k + 1 => timeoutRounds k ++ timeoutRound

/-- The layer can start a confirmed send at once: online, primary machine idle with
nothing waiting, peer recorded as reset, confirms in use, and the wire free. -/
def ReadyForConfirmed (ctx : LinkLayer) : Prop :=
  ctx.isOnline = true ∧ ctx.pPriState = PriState.Idle ∧ ctx.pSegments = none ∧
  ctx.keepAliveTimeout = false ∧ ctx.isRemoteReset = true ∧ ctx.config.UseConfirms = true ∧
  ctx.txMode = LinkTransmitMode.Idle ∧ ctx.pendingPriTx = none ∧ ctx.pendingSecTx = none

/-- The context `c` is in the middle of a confirmed send started from `ctx`: the frame for
`segments` is on the wire with the write FCB of `ctx`, and `l` holds the calls made since
`ctx`. -/
def ConfirmedInFlight (ctx c : LinkLayer) (segments : TransportSegment) (l : List Action) :
    Prop :=
  c.pPriState = PriState.ConfUserDataTransmitWait ∧ c.txMode = LinkTransmitMode.Primary ∧
  c.pendingPriTx = none ∧ c.pendingSecTx = none ∧ c.pSegments = some segments ∧
  c.keepAliveTimeout = false ∧ c.config = ctx.config ∧ c.isOnline = true ∧
  c.trace = ctx.trace ++ l

/-- One acknowledged round: the transmission completes, then the frame `header` arrives
at time `now`. -/
def ackRound (now : Int) (header : LinkHeaderFields) : List Event :=
  [Event.OnTransmitResult true, Event.OnFrame now header []]

/-- A number of acknowledged rounds, one after the other. -/
def ackRounds (now : Int) (header : LinkHeaderFields) : Nat → List Event
  | 0 => []
  | k + 1 => ackRound now header ++ ackRounds now header k

/-- The CONFIRMED_USER_DATA frames of the layer for the segments `ds`, the first with the
frame count bit `fcb` and each next one with the bit flipped. -/
def alternatingFrames (config : LinkConfig) (fcb : Bool) : List (List Nat) → List Frame
  | [] => []
  | d :: ds =>
    Frame.ConfirmedUserData config.IsMaster fcb config.RemoteAddr config.LocalAddr d ::
      alternatingFrames config (!fcb) ds

/-- The scenario layer after a first confirmed send has gone through the reset handshake
and been acknowledged: idle, with the peer recorded as reset. -/
def scenarioReset : LinkLayer :=
  (run scenarioOnline
    [Event.Send ⟨[7], []⟩, Event.OnTransmitResult true,
      Event.OnFrame 5 (scenarioHeader LinkFunction.SEC_ACK false) [],
      Event.OnTransmitResult true,
      Event.OnFrame 6 (scenarioHeader LinkFunction.SEC_ACK false) []]).getD scenarioOnline

/-- The event is a NACK without receive-buffer-full that `OnFrame` lets through while the
primary machine waits for the answer to confirmed data: the NACK after which the link is
reset again. -/
def Event.isNackRetry (ctx : LinkLayer) : Event → Bool
  | Event.OnFrame _ header _ =>
    ctx.isOnline && ctx.Validate header.isFromMaster header.src header.dest &&
      decide (header.func = LinkFunction.SEC_NACK) && !header.fcvdfc &&
      decide (ctx.pPriState = PriState.ConfDataWait)
  | _ => false

/-- The number of events of the sequence that are such a NACK when they are handled. -/
def nackRetries (ctx : LinkLayer) : List Event → Nat
  | [] => 0
  | e :: es =>
    (if e.isNackRetry ctx then 1 else 0) +
      match step ctx e with
      | some c => nackRetries c es
      | none => 0

/-- The events of the sequence all take place during one send: each of them finds
`pSegments` set. -/
def sendPending (ctx : LinkLayer) : List Event → Bool
  | [] => true
  | e :: es =>
    ctx.pSegments.isSome &&
      match step ctx e with
      | some c => sendPending c es
      | none => false

/-- An upper bound on the RESET_LINK_STATES frames the pending send can still queue
without a NACK: none once the send is over or confirmed data is in flight, the retries
left during the reset handshake, a whole handshake while the send waits for a
keep-alive to finish. -/
def resetBudget (ctx : LinkLayer) : Nat :=
  match ctx.pSegments with
  | none => 0
  | some _ =>
    match ctx.pPriState with
    | PriState.LinkResetTransmitWait => ctx.numRetryRemaining
    | PriState.ResetLinkWait => ctx.numRetryRemaining
    | PriState.Idle => ctx.config.NumRetry + 1
    | PriState.RequestLinkStatusTransmitWait => ctx.config.NumRetry + 1
    | PriState.RequestLinkStatusWait => ctx.config.NumRetry + 1
    | _ => 0

/-- A stretch of execution from `ctx` to `ctx'` spends the budget: the frames queued and
the budget left do not exceed the budget at the start plus `bonus`; the configuration is
kept. -/
def SpendsBudget (ctx ctx' : LinkLayer) (bonus : Nat) : Prop :=
  ctx'.trace.countP Action.queuesResetLinkStates + resetBudget ctx' ≤
    ctx.trace.countP Action.queuesResetLinkStates + resetBudget ctx + bonus ∧
  ctx'.config = ctx.config

/-- The scenario layer without retries, constructed and brought online at time 0. -/
def scenarioNoRetry : LinkLayer :=
  ((LinkLayer.new { scenarioConfig with NumRetry := 0 } 0).OnLowerLayerUp 0).1

/-- The call is one of the three keep-alive notifications of the listener. -/
def Action.isKeepAliveNotice : Action → Bool
  | Action.OnKeepAliveInitiated => true
  | Action.OnKeepAliveSuccess => true
  | Action.OnKeepAliveFailure => true
  | _ => false

/-- The keep-alive notifications among the calls, in order. -/
def keepAliveNotices (l : List Action) : List Action :=
  l.filter Action.isKeepAliveNotice

/-- The scenario layer after its keep-alive timer expired at time 60000 and the upper
layer then called `Send`: the send waits for the keep-alive to finish. -/
def scenarioKeepAliveSend : LinkLayer :=
  (scenarioOnline.OnKeepAliveTimeout 60000).Send ⟨[7], []⟩

/-- The scenario layer after the reset handshake, with the confirmed data of a second
send on the wire and its transmission completed: the primary machine waits for the
answer in ConfDataWait. -/
def scenarioConfDataWait : LinkLayer :=
  (run scenarioReset [Event.Send ⟨[8], []⟩, Event.OnTransmitResult true]).getD scenarioReset

/-- The scenario layer in ConfDataWait after a NACK frame with the given
receive-buffer-full bit arrived at time 7. -/
def scenarioNacked (rxBuffFull : Bool) : LinkLayer :=
  (run scenarioConfDataWait
    [Event.OnFrame 7 (scenarioHeader LinkFunction.SEC_NACK rxBuffFull) []]).getD
      scenarioConfDataWait

/-- The scenario layer taken offline again at once. -/
def scenarioOffline : LinkLayer :=
  scenarioOnline.OnLowerLayerDown.1

/-- The frames handed to the router by `BeginTransmit`, in order. -/
def begunFrames : List Action → List Frame
  | [] => []
  | Action.BeginTransmit buffer :: as => buffer :: begunFrames as
  | _ :: as => begunFrames as

/-- The number of transmissions the layer itself counts as in progress: one unless
`txMode` is Idle. -/
def wireBusy (ctx : LinkLayer) : Nat :=
  if ctx.txMode = LinkTransmitMode.Idle then 0 else 1

/-- No buffer is stored while `txMode` is Idle. -/
def NothingStored (ctx : LinkLayer) : Prop :=
  ctx.txMode = LinkTransmitMode.Idle → ctx.pendingPriTx = none ∧ ctx.pendingSecTx = none

/-- A stretch of execution from `ctx` to `ctx'` in which no completion is accepted and
the layer does not go offline: it keeps `NothingStored`, and every frame it hands to
`BeginTransmit` takes `txMode` from Idle to not Idle. -/
def ArbiterKept (ctx ctx' : LinkLayer) : Prop :=
  (NothingStored ctx → NothingStored ctx') ∧
  (begunFrames ctx'.trace).length + wireBusy ctx =
    (begunFrames ctx.trace).length + wireBusy ctx'

/-- The event is a completion the layer accepts: `OnTransmitResult` while `txMode` is not
Idle. -/
def Event.isAcceptedResult (ctx : LinkLayer) : Event → Bool
  | Event.OnTransmitResult _ => decide (ctx.txMode ≠ LinkTransmitMode.Idle)
  | _ => false

/-- The event abandons a transmission: `OnLowerLayerDown` on an online layer whose
`txMode` is not Idle sets `txMode` to Idle without a completion. -/
def Event.abandonsTransmission (ctx : LinkLayer) : Event → Bool
  | Event.OnLowerLayerDown => ctx.isOnline && decide (ctx.txMode ≠ LinkTransmitMode.Idle)
  | _ => false

/-- The number of completions the layer accepts along the sequence. -/
def acceptedResults (ctx : LinkLayer) : List Event → Nat
  | [] => 0
  | e :: es =>
    (if e.isAcceptedResult ctx then 1 else 0) +
      match step ctx e with
      | some c => acceptedResults c es
      | none => 0

/-- The number of transmissions abandoned along the sequence. -/
def abandonedTransmissions (ctx : LinkLayer) : List Event → Nat
  | [] => 0
  | e :: es =>
    (if e.abandonsTransmission ctx then 1 else 0) +
      match step ctx e with
      | some c => abandonedTransmissions c es
      | none => 0

/-- The events of the counterexample to the wire invariant: the layer goes online,
starts a send and goes offline before the transmission completes. -/
def abandonedSend : List Event :=
  [Event.OnLowerLayerUp 0, Event.Send ⟨[7], []⟩, Event.OnLowerLayerDown]

/-- The context of `LinkLayer::OnTransmitResult` when it dispatches the completion: after
`txMode = Idle`, `TryPendingTx(pendingSecTx, false)` and `TryPendingTx(pendingPriTx, true)`. -/
def LinkLayer.drained (ctx : LinkLayer) : LinkLayer :=
  ((({ ctx with txMode := LinkTransmitMode.Idle }).TryPendingTx false).1.TryPendingTx true).1

/-- The scenario layer with unconfirmed sends, the first of two segments on the wire and
a LINK_STATUS response waiting for the wire. -/
def scenarioSecPending : LinkLayer :=
  (run scenarioUnconfirmed
    [Event.Send ⟨[7], [[8]]⟩,
      Event.OnFrame 3 (scenarioHeader LinkFunction.PRI_REQUEST_LINK_STATUS false) []]).getD
    scenarioUnconfirmed

/-- The scenario layer with a LINK_STATUS response on the wire and the
RESET_LINK_STATES frame of a send waiting for the wire. -/
def scenarioPriPending : LinkLayer :=
  (run scenarioOnline
    [Event.OnFrame 3 (scenarioHeader LinkFunction.PRI_REQUEST_LINK_STATUS false) [],
      Event.Send ⟨[7], []⟩]).getD scenarioOnline

/-- The primary state awaits a reply of the peer: ResetLinkWait, ConfDataWait or
RequestLinkStatusWait. -/
def PriState.awaitsReply : PriState → Bool
  | PriState.ResetLinkWait => true
  | PriState.ConfDataWait => true
  | PriState.RequestLinkStatusWait => true
  | _ => false

/-- The response timer is armed only while the primary state awaits a reply. -/
def ArmedOnlyWaiting (ctx : LinkLayer) : Prop :=
  ctx.rspTimeoutTimer = true → ctx.pPriState.awaitsReply = true

/-- A stretch of execution from `ctx` to `ctx'` that keeps the response timer in step
with the primary state: it keeps `ArmedOnlyWaiting`, and when it leaves a state that
awaits a reply the timer is not armed afterwards. -/
def TimerKept (ctx ctx' : LinkLayer) : Prop :=
  (ArmedOnlyWaiting ctx → ArmedOnlyWaiting ctx') ∧
  (ctx.pPriState.awaitsReply = true → ctx'.pPriState ≠ ctx.pPriState →
    ctx'.rspTimeoutTimer = false)

/-- The scenario layer with the RESET_LINK_STATES frame of a send transmitted: the
primary machine waits for the answer in ResetLinkWait. -/
def scenarioResetLinkWait : LinkLayer :=
  (run scenarioOnline [Event.Send ⟨[7], []⟩, Event.OnTransmitResult true]).getD scenarioOnline

/-- The context `c` is `m` with the pending keep-alive started: the primary state is
RequestLinkStatusTransmitWait, no keep-alive is pending any more, the segments of a
waiting send are where they were, and since `m` the one primary frame queued is
REQUEST_LINK_STATUS and the one keep-alive notification is `OnKeepAliveInitiated`. -/
def KeepAliveServiced (m c : LinkLayer) : Prop :=
  c.pPriState = PriState.RequestLinkStatusTransmitWait ∧ c.keepAliveTimeout = false ∧
  c.pSegments = m.pSegments ∧
  queuedPrimary (newActions m c) =
    [Frame.RequestLinkStatus m.config.IsMaster m.config.RemoteAddr m.config.LocalAddr] ∧
  keepAliveNotices (newActions m c) = [Action.OnKeepAliveInitiated]

/-- The scenario layer waiting for the answer to confirmed data when its keep-alive
timer expires at time 70000: the keep-alive is pending. -/
def scenarioKeepAliveDeferred : LinkLayer :=
  scenarioConfDataWait.OnKeepAliveTimeout 70000

/-- The scenario layer with confirmed data on the wire when its keep-alive timer expires
at time 70000. -/
def scenarioKeepAliveOnWire : LinkLayer :=
  (scenarioReset.Send ⟨[8], []⟩).OnKeepAliveTimeout 70000

/-- The scenario layer without retries, waiting for the answer to RESET_LINK_STATES when
its keep-alive timer expires at time 70000. -/
def scenarioKeepAliveNoRetry : LinkLayer :=
  (run scenarioNoRetry
    [Event.Send ⟨[7], []⟩, Event.OnTransmitResult true,
      Event.OnKeepAliveTimeout 70000]).getD scenarioNoRetry

/-- The event takes the layer offline: `OnLowerLayerDown` on an online layer. -/
def Event.goesOffline (ctx : LinkLayer) : Event → Bool
  | Event.OnLowerLayerDown => ctx.isOnline
  | _ => false

/-- The primary state waits for the completion of a primary transmission: one of the four
transmit-wait states. -/
def PriState.isTransmitWait : PriState → Bool
  | PriState.SendUnconfirmedTransmitWait => true
  | PriState.LinkResetTransmitWait => true
  | PriState.ConfUserDataTransmitWait => true
  | PriState.RequestLinkStatusTransmitWait => true
  | _ => false

/-- The primary machine and the transmit arbiter are in step: a primary buffer is on the
wire or stored exactly in the four transmit-wait states, and never both on the wire and
stored. -/
def InStep (ctx : LinkLayer) : Prop :=
  ((ctx.txMode = LinkTransmitMode.Primary ∨ ctx.pendingPriTx ≠ none) ↔
    ctx.pPriState.isTransmitWait = true) ∧
  (ctx.txMode = LinkTransmitMode.Primary → ctx.pendingPriTx = none)

/-- Between `c` and `m` at most one primary frame is queued, and if one is queued the
primary state of `m` is not Idle. -/
def QueuesAtMostOne (c m : LinkLayer) : Prop :=
  queuedPrimary (newActions c m) = [] ∨
    (m.pPriState ≠ PriState.Idle ∧ (queuedPrimary (newActions c m)).length = 1)

/-- The event is the completion of a primary transmission: `OnTransmitResult` while
`txMode` is Primary. -/
def Event.isPrimaryCompletion (ctx : LinkLayer) : Event → Bool
  | Event.OnTransmitResult _ => decide (ctx.txMode = LinkTransmitMode.Primary)
  | _ => false

namespace LinkLayer

@[simp] theorem QueueTransmit_config (ctx : LinkLayer) (buffer : Frame) (primary : Bool) :
    (ctx.QueueTransmit buffer primary).config = ctx.config := by
  unfold QueueTransmit emit; dsimp only; split_ifs <;> rfl

@[simp] theorem QueueTransmit_pSegments (ctx : LinkLayer) (buffer : Frame) (primary : Bool) :
    (ctx.QueueTransmit buffer primary).pSegments = ctx.pSegments := by
  unfold QueueTransmit emit; dsimp only; split_ifs <;> rfl

@[simp] theorem QueueTransmit_numRetryRemaining (ctx : LinkLayer) (buffer : Frame) (primary : Bool) :
    (ctx.QueueTransmit buffer primary).numRetryRemaining = ctx.numRetryRemaining := by
  unfold QueueTransmit emit; dsimp only; split_ifs <;> rfl

@[simp] theorem QueueTransmit_nextReadFCB (ctx : LinkLayer) (buffer : Frame) (primary : Bool) :
    (ctx.QueueTransmit buffer primary).nextReadFCB = ctx.nextReadFCB := by
  unfold QueueTransmit emit; dsimp only; split_ifs <;> rfl

@[simp] theorem QueueTransmit_nextWriteFCB (ctx : LinkLayer) (buffer : Frame) (primary : Bool) :
    (ctx.QueueTransmit buffer primary).nextWriteFCB = ctx.nextWriteFCB := by
  unfold QueueTransmit emit; dsimp only; split_ifs <;> rfl

@[simp] theorem QueueTransmit_isOnline (ctx : LinkLayer) (buffer : Frame) (primary : Bool) :
    (ctx.QueueTransmit buffer primary).isOnline = ctx.isOnline := by
  unfold QueueTransmit emit; dsimp only; split_ifs <;> rfl

@[simp] theorem QueueTransmit_isRemoteReset (ctx : LinkLayer) (buffer : Frame) (primary : Bool) :
    (ctx.QueueTransmit buffer primary).isRemoteReset = ctx.isRemoteReset := by
  unfold QueueTransmit emit; dsimp only; split_ifs <;> rfl

@[simp] theorem QueueTransmit_keepAliveTimeout (ctx : LinkLayer) (buffer : Frame) (primary : Bool) :
    (ctx.QueueTransmit buffer primary).keepAliveTimeout = ctx.keepAliveTimeout := by
  unfold QueueTransmit emit; dsimp only; split_ifs <;> rfl

@[simp] theorem QueueTransmit_lastMessageTimestamp (ctx : LinkLayer) (buffer : Frame) (primary : Bool) :
    (ctx.QueueTransmit buffer primary).lastMessageTimestamp = ctx.lastMessageTimestamp := by
  unfold QueueTransmit emit; dsimp only; split_ifs <;> rfl

@[simp] theorem QueueTransmit_pPriState (ctx : LinkLayer) (buffer : Frame) (primary : Bool) :
    (ctx.QueueTransmit buffer primary).pPriState = ctx.pPriState := by
  unfold QueueTransmit emit; dsimp only; split_ifs <;> rfl

@[simp] theorem QueueTransmit_pSecState (ctx : LinkLayer) (buffer : Frame) (primary : Bool) :
    (ctx.QueueTransmit buffer primary).pSecState = ctx.pSecState := by
  unfold QueueTransmit emit; dsimp only; split_ifs <;> rfl

@[simp] theorem QueueTransmit_rspTimeoutTimer (ctx : LinkLayer) (buffer : Frame) (primary : Bool) :
    (ctx.QueueTransmit buffer primary).rspTimeoutTimer = ctx.rspTimeoutTimer := by
  unfold QueueTransmit emit; dsimp only; split_ifs <;> rfl

@[simp] theorem QueueTransmit_keepAliveTimer (ctx : LinkLayer) (buffer : Frame) (primary : Bool) :
    (ctx.QueueTransmit buffer primary).keepAliveTimer = ctx.keepAliveTimer := by
  unfold QueueTransmit emit; dsimp only; split_ifs <;> rfl

@[simp] theorem QueueTransmit_txMode (ctx : LinkLayer) (buffer : Frame) (primary : Bool) :
    (ctx.QueueTransmit buffer primary).txMode =
      if ctx.txMode = LinkTransmitMode.Idle then
        (if primary then LinkTransmitMode.Primary else LinkTransmitMode.Secondary)
      else ctx.txMode := by
  unfold QueueTransmit emit; dsimp only; split_ifs <;> rfl

@[simp] theorem QueueTransmit_pendingPriTx (ctx : LinkLayer) (buffer : Frame) (primary : Bool) :
    (ctx.QueueTransmit buffer primary).pendingPriTx =
      if ctx.txMode = LinkTransmitMode.Idle then ctx.pendingPriTx
      else if primary then some buffer else ctx.pendingPriTx := by
  unfold QueueTransmit emit; dsimp only; split_ifs <;> rfl

@[simp] theorem QueueTransmit_pendingSecTx (ctx : LinkLayer) (buffer : Frame) (primary : Bool) :
    (ctx.QueueTransmit buffer primary).pendingSecTx =
      if ctx.txMode = LinkTransmitMode.Idle then ctx.pendingSecTx
      else if primary then ctx.pendingSecTx else some buffer := by
  unfold QueueTransmit emit; dsimp only; split_ifs <;> rfl

@[simp] theorem QueueTransmit_trace (ctx : LinkLayer) (buffer : Frame) (primary : Bool) :
    (ctx.QueueTransmit buffer primary).trace =
      ctx.trace ++ Action.QueueTransmit buffer primary ::
        (if ctx.txMode = LinkTransmitMode.Idle then [Action.BeginTransmit buffer] else []) := by
  unfold QueueTransmit emit; dsimp only; split_ifs <;> simp

@[simp] theorem TryPendingTx_config (ctx : LinkLayer) (primary : Bool) :
    (ctx.TryPendingTx primary).1.config = ctx.config := by
  unfold TryPendingTx emit; dsimp only; split <;> (try split_ifs) <;> rfl

@[simp] theorem TryPendingTx_pSegments (ctx : LinkLayer) (primary : Bool) :
    (ctx.TryPendingTx primary).1.pSegments = ctx.pSegments := by
  unfold TryPendingTx emit; dsimp only; split <;> (try split_ifs) <;> rfl

@[simp] theorem TryPendingTx_numRetryRemaining (ctx : LinkLayer) (primary : Bool) :
    (ctx.TryPendingTx primary).1.numRetryRemaining = ctx.numRetryRemaining := by
  unfold TryPendingTx emit; dsimp only; split <;> (try split_ifs) <;> rfl

@[simp] theorem TryPendingTx_nextReadFCB (ctx : LinkLayer) (primary : Bool) :
    (ctx.TryPendingTx primary).1.nextReadFCB = ctx.nextReadFCB := by
  unfold TryPendingTx emit; dsimp only; split <;> (try split_ifs) <;> rfl

@[simp] theorem TryPendingTx_nextWriteFCB (ctx : LinkLayer) (primary : Bool) :
    (ctx.TryPendingTx primary).1.nextWriteFCB = ctx.nextWriteFCB := by
  unfold TryPendingTx emit; dsimp only; split <;> (try split_ifs) <;> rfl

@[simp] theorem TryPendingTx_isOnline (ctx : LinkLayer) (primary : Bool) :
    (ctx.TryPendingTx primary).1.isOnline = ctx.isOnline := by
  unfold TryPendingTx emit; dsimp only; split <;> (try split_ifs) <;> rfl

@[simp] theorem TryPendingTx_isRemoteReset (ctx : LinkLayer) (primary : Bool) :
    (ctx.TryPendingTx primary).1.isRemoteReset = ctx.isRemoteReset := by
  unfold TryPendingTx emit; dsimp only; split <;> (try split_ifs) <;> rfl

@[simp] theorem TryPendingTx_keepAliveTimeout (ctx : LinkLayer) (primary : Bool) :
    (ctx.TryPendingTx primary).1.keepAliveTimeout = ctx.keepAliveTimeout := by
  unfold TryPendingTx emit; dsimp only; split <;> (try split_ifs) <;> rfl

@[simp] theorem TryPendingTx_lastMessageTimestamp (ctx : LinkLayer) (primary : Bool) :
    (ctx.TryPendingTx primary).1.lastMessageTimestamp = ctx.lastMessageTimestamp := by
  unfold TryPendingTx emit; dsimp only; split <;> (try split_ifs) <;> rfl

@[simp] theorem TryPendingTx_pPriState (ctx : LinkLayer) (primary : Bool) :
    (ctx.TryPendingTx primary).1.pPriState = ctx.pPriState := by
  unfold TryPendingTx emit; dsimp only; split <;> (try split_ifs) <;> rfl

@[simp] theorem TryPendingTx_pSecState (ctx : LinkLayer) (primary : Bool) :
    (ctx.TryPendingTx primary).1.pSecState = ctx.pSecState := by
  unfold TryPendingTx emit; dsimp only; split <;> (try split_ifs) <;> rfl

@[simp] theorem TryPendingTx_rspTimeoutTimer (ctx : LinkLayer) (primary : Bool) :
    (ctx.TryPendingTx primary).1.rspTimeoutTimer = ctx.rspTimeoutTimer := by
  unfold TryPendingTx emit; dsimp only; split <;> (try split_ifs) <;> rfl

@[simp] theorem TryPendingTx_keepAliveTimer (ctx : LinkLayer) (primary : Bool) :
    (ctx.TryPendingTx primary).1.keepAliveTimer = ctx.keepAliveTimer := by
  unfold TryPendingTx emit; dsimp only; split <;> (try split_ifs) <;> rfl

@[simp] theorem TryPendingTx_trace (ctx : LinkLayer) (primary : Bool) :
    (ctx.TryPendingTx primary).1.trace =
      ctx.trace ++
        (if ctx.txMode = LinkTransmitMode.Idle then
          ((if primary then ctx.pendingPriTx else ctx.pendingSecTx).map Action.BeginTransmit).toList
        else []) := by
  unfold TryPendingTx emit
  cases primary <;> cases h : ctx.txMode <;> cases hp : ctx.pendingPriTx <;>
    cases hs : ctx.pendingSecTx <;> simp

end LinkLayer

attribute [simp] LinkLayer.emit LinkLayer.FormatPrimaryBufferWithConfirmed
  LinkLayer.FormatPrimaryBufferWithUnconfirmed LinkLayer.QueueAck LinkLayer.QueueLinkStatus
  LinkLayer.QueueNack LinkLayer.QueueResetLinks LinkLayer.QueueRequestLinkStatus
  LinkLayer.ResetRetry LinkLayer.Retry LinkLayer.ResetWriteFCB LinkLayer.ToggleWriteFCB
  LinkLayer.ResetReadFCB LinkLayer.ToggleReadFCB LinkLayer.PushDataUp
  LinkLayer.CompleteSendOperation LinkLayer.StartResponseTimer LinkLayer.StartKeepAliveTimer
  LinkLayer.CancelTimer LinkLayer.FailKeepAlive LinkLayer.CompleteKeepAlive
  PLLS_Idle.TrySendUnconfirmed PLLS_Idle.TrySendConfirmed PLLS_Idle.TrySendRequestLinkStatus
  PLLS_SendUnconfirmedTransmitWait.OnTransmitResult PLLS_LinkResetTransmitWait.OnTransmitResult
  PLLS_ConfUserDataTransmitWait.OnTransmitResult
  PLLS_RequestLinkStatusTransmitWait.OnTransmitResult PLLS_ResetLinkWait.OnAck
  PLLS_ResetLinkWait.OnTimeout PLLS_ConfDataWait.OnAck PLLS_ConfDataWait.Failure
  PLLS_ConfDataWait.OnNack PLLS_ConfDataWait.OnTimeout PLLS_RequestLinkStatusWait.OnNack
  PLLS_RequestLinkStatusWait.OnLinkStatus PLLS_RequestLinkStatusWait.OnNotSupported
  PLLS_RequestLinkStatusWait.OnTimeout PriState.OnAck PriState.OnNack PriState.OnLinkStatus
  PriState.OnNotSupported PriState.OnTransmitResult PriState.OnTimeout PriState.TrySendConfirmed
  PriState.TrySendUnconfirmed PriState.TrySendRequestLinkStatus SecState.OnResetLinkStates
  SecState.OnRequestLinkStatus SecState.OnTestLinkStatus SecState.OnConfirmedUserData
  SecState.OnTransmitResult

/-! ## The invariant -/

theorem wellFormed_new (config : LinkConfig) (now : Int) : WellFormed (LinkLayer.new config now) := by
  simp [WellFormed, LinkLayer.new]

theorem wellFormed_of_fields (ctx ctx' : LinkLayer) (h : WellFormed ctx)
    (h1 : ctx'.pPriState = ctx.pPriState) (h2 : ctx'.pSegments = ctx.pSegments)
    (h3 : ctx'.keepAliveTimeout = ctx.keepAliveTimeout)
    (h4 : ctx'.isRemoteReset = ctx.isRemoteReset) : WellFormed ctx' := by
  unfold WellFormed at h ⊢
  rw [h1, h2, h3, h4]
  exact h

theorem wellFormed_TryStartTransmission (ctx : LinkLayer)
    (h : ctx.pPriState ≠ PriState.Idle → WellFormed ctx) :
    WellFormed ctx.TryStartTransmission := by
  revert h
  obtain ⟨config, pSegments, txMode, numRetryRemaining, nextReadFCB, nextWriteFCB, isOnline,
    isRemoteReset, keepAliveTimeout, lastMessageTimestamp, pPriState, pSecState, pendingPriTx,
    pendingSecTx, rspTimeoutTimer, keepAliveTimer, trace⟩ := ctx
  cases pPriState <;> cases keepAliveTimeout <;> cases pSegments <;>
    simp [WellFormed, LinkLayer.TryStartTransmission] <;>
    (try split_ifs) <;> simp_all

theorem wellFormed_pri_OnTransmitResult (ctx : LinkLayer) (success : Bool)
    (r : LinkLayer × PriState) (h : WellFormed ctx)
    (hr : ctx.pPriState.OnTransmitResult ctx success = some r) (hne : r.2 ≠ PriState.Idle) :
    WellFormed { r.1 with pPriState := r.2 } := by
  revert r h
  obtain ⟨config, pSegments, txMode, numRetryRemaining, nextReadFCB, nextWriteFCB, isOnline,
    isRemoteReset, keepAliveTimeout, lastMessageTimestamp, pPriState, pSecState, pendingPriTx,
    pendingSecTx, rspTimeoutTimer, keepAliveTimer, trace⟩ := ctx
  cases pPriState <;> cases success <;> cases pSegments <;>
    simp [WellFormed] <;> (try split_ifs) <;> simp_all

theorem wellFormed_pri_OnTimeout (ctx : LinkLayer)
    (r : LinkLayer × PriState) (h : WellFormed ctx)
    (hr : ctx.pPriState.OnTimeout ctx = some r) (hne : r.2 ≠ PriState.Idle) :
    WellFormed { r.1 with pPriState := r.2 } := by
  revert r h
  obtain ⟨config, pSegments, txMode, numRetryRemaining, nextReadFCB, nextWriteFCB, isOnline,
    isRemoteReset, keepAliveTimeout, lastMessageTimestamp, pPriState, pSecState, pendingPriTx,
    pendingSecTx, rspTimeoutTimer, keepAliveTimer, trace⟩ := ctx
  cases pPriState <;> cases pSegments <;>
    simp [WellFormed] <;> (try split_ifs) <;> simp_all

theorem wellFormed_dispatchFrame (ctx c : LinkLayer) (header : LinkHeaderFields)
    (userdata : List Nat) (h : WellFormed ctx)
    (hr : ctx.dispatchFrame header userdata = some (Sum.inr c)) (hne : c.pPriState ≠ PriState.Idle) :
    WellFormed c := by
  revert c h
  obtain ⟨config, pSegments, txMode, numRetryRemaining, nextReadFCB, nextWriteFCB, isOnline,
    isRemoteReset, keepAliveTimeout, lastMessageTimestamp, pPriState, pSecState, pendingPriTx,
    pendingSecTx, rspTimeoutTimer, keepAliveTimer, trace⟩ := ctx
  obtain ⟨func, isFromMaster, fcb, fcvdfc, dest, src⟩ := header
  cases func
  iterate 5
    cases pSecState <;> simp [WellFormed, LinkLayer.dispatchFrame] <;> (try split_ifs) <;>
      simp_all
  all_goals
    cases pPriState <;> cases pSegments <;>
    simp [WellFormed, LinkLayer.dispatchFrame] <;> (try split_ifs) <;> simp_all

theorem dispatchFrame_inl (ctx c : LinkLayer) (header : LinkHeaderFields) (userdata : List Nat)
    (h : ctx.dispatchFrame header userdata = some (Sum.inl c)) :
    c = ctx ∧ header.func = LinkFunction.INVALID := by
  revert h
  obtain ⟨func, isFromMaster, fcb, fcvdfc, dest, src⟩ := header
  cases func <;> simp [LinkLayer.dispatchFrame] <;> first | (intro h; exact h.symm) | (split <;> simp)

theorem wellFormed_step (ctx ctx' : LinkLayer) (e : Event) (h : WellFormed ctx)
    (hs : step ctx e = some ctx') : WellFormed ctx' := by
  cases e with
  | Send segments =>
    simp only [step, Option.some.injEq] at hs
    subst hs
    unfold LinkLayer.Send LinkLayer.SetTxSegment
    split_ifs with h1 h2 <;> try (first | exact h | simp at *)
    apply wellFormed_TryStartTransmission
    intro hne
    revert h hne
    cases hp : ctx.pPriState <;> simp_all [WellFormed]
  | OnLowerLayerUp now =>
    simp only [step, Option.some.injEq] at hs
    subst hs
    unfold LinkLayer.OnLowerLayerUp
    split_ifs
    · exact h
    · exact wellFormed_of_fields ctx _ h rfl rfl rfl rfl
  | OnLowerLayerDown =>
    simp only [step, Option.some.injEq] at hs
    subst hs
    unfold LinkLayer.OnLowerLayerDown
    split_ifs
    · exact h
    · simp [WellFormed]
  | OnTransmitResult success =>
    simp only [step, LinkLayer.OnTransmitResult] at hs
    have hwf : WellFormed
        ((({ ctx with txMode := LinkTransmitMode.Idle }).TryPendingTx false).1.TryPendingTx true).1 :=
      wellFormed_of_fields ctx _ h (by simp) (by simp) (by simp) (by simp)
    split_ifs at hs with h1 h2
    · simp only [Option.map_some', Option.some.injEq] at hs; subst hs; exact h
    · split at hs
      · simp at hs
      · next r hr =>
        simp only [Option.map_some', Option.some.injEq] at hs
        subst hs
        apply wellFormed_TryStartTransmission
        exact wellFormed_pri_OnTransmitResult _ success r hwf hr
    · simp only [Option.map_some', Option.some.injEq] at hs
      subst hs
      apply wellFormed_TryStartTransmission
      intro _
      exact wellFormed_of_fields _ _ hwf (by simp) (by simp) (by simp) (by simp)
  | OnFrame now header userdata =>
    simp only [step, LinkLayer.OnFrame] at hs
    split_ifs at hs with h1 h2
    · simp only [Option.map_some', Option.some.injEq] at hs; subst hs; exact h
    · simp only [Option.map_some', Option.some.injEq] at hs; subst hs; exact h
    · have hwf : WellFormed { ctx with lastMessageTimestamp := now } :=
        wellFormed_of_fields ctx _ h rfl rfl rfl rfl
      split at hs
      · simp at hs
      · next c hc =>
        simp only [Option.map_some', Option.some.injEq] at hs
        subst hs
        rw [(dispatchFrame_inl _ c header userdata hc).1]
        exact hwf
      · next c hc =>
        simp only [Option.map_some', Option.some.injEq] at hs
        subst hs
        apply wellFormed_TryStartTransmission
        exact wellFormed_dispatchFrame _ c header userdata hwf hc
  | OnResponseTimeout =>
    simp only [step, LinkLayer.OnResponseTimeout] at hs
    have hwf : WellFormed { ctx with rspTimeoutTimer := false } :=
      wellFormed_of_fields ctx _ h rfl rfl rfl rfl
    split at hs
    · simp at hs
    · next r hr =>
      simp only [Option.some.injEq] at hs
      subst hs
      apply wellFormed_TryStartTransmission
      exact wellFormed_pri_OnTimeout _ r hwf hr
  | OnKeepAliveTimeout now =>
    simp only [step, Option.some.injEq] at hs
    subst hs
    unfold LinkLayer.OnKeepAliveTimeout
    apply wellFormed_TryStartTransmission
    intro hne
    revert h hne
    cases hp : ctx.pPriState <;> simp [WellFormed, hp] <;> split_ifs <;> simp_all

/-! ## The trace only grows -/

theorem TryStartTransmission_of_not_idle (ctx : LinkLayer) (h : ctx.pPriState ≠ PriState.Idle) :
    ctx.TryStartTransmission = ctx := by
  revert h
  obtain ⟨config, pSegments, txMode, numRetryRemaining, nextReadFCB, nextWriteFCB, isOnline,
    isRemoteReset, keepAliveTimeout, lastMessageTimestamp, pPriState, pSecState, pendingPriTx,
    pendingSecTx, rspTimeoutTimer, keepAliveTimer, trace⟩ := ctx
  cases pPriState <;> cases keepAliveTimeout <;> cases pSegments <;>
    simp [LinkLayer.TryStartTransmission]

theorem trace_TryStartTransmission (ctx : LinkLayer) :
    ctx.trace <+: ctx.TryStartTransmission.trace := by
  obtain ⟨config, pSegments, txMode, numRetryRemaining, nextReadFCB, nextWriteFCB, isOnline,
    isRemoteReset, keepAliveTimeout, lastMessageTimestamp, pPriState, pSecState, pendingPriTx,
    pendingSecTx, rspTimeoutTimer, keepAliveTimer, trace⟩ := ctx
  cases pPriState <;> cases keepAliveTimeout <;> cases pSegments <;>
    simp [LinkLayer.TryStartTransmission] <;> (try split_ifs) <;> simp

theorem trace_pri_OnTransmitResult (ctx : LinkLayer) (success : Bool) (r : LinkLayer × PriState)
    (hr : ctx.pPriState.OnTransmitResult ctx success = some r) : ctx.trace <+: r.1.trace := by
  revert r
  obtain ⟨config, pSegments, txMode, numRetryRemaining, nextReadFCB, nextWriteFCB, isOnline,
    isRemoteReset, keepAliveTimeout, lastMessageTimestamp, pPriState, pSecState, pendingPriTx,
    pendingSecTx, rspTimeoutTimer, keepAliveTimer, trace⟩ := ctx
  cases pPriState <;> cases success <;> cases pSegments <;>
    simp <;> (try split_ifs) <;> simp

theorem trace_pri_OnTimeout (ctx : LinkLayer) (r : LinkLayer × PriState)
    (hr : ctx.pPriState.OnTimeout ctx = some r) : ctx.trace <+: r.1.trace := by
  revert r
  obtain ⟨config, pSegments, txMode, numRetryRemaining, nextReadFCB, nextWriteFCB, isOnline,
    isRemoteReset, keepAliveTimeout, lastMessageTimestamp, pPriState, pSecState, pendingPriTx,
    pendingSecTx, rspTimeoutTimer, keepAliveTimer, trace⟩ := ctx
  cases pPriState <;> cases pSegments <;>
    simp <;> (try split_ifs) <;> simp

theorem trace_dispatchFrame (ctx c : LinkLayer) (header : LinkHeaderFields)
    (userdata : List Nat) (hr : ctx.dispatchFrame header userdata = some (Sum.inr c)) :
    ctx.trace <+: c.trace := by
  revert c
  obtain ⟨config, pSegments, txMode, numRetryRemaining, nextReadFCB, nextWriteFCB, isOnline,
    isRemoteReset, keepAliveTimeout, lastMessageTimestamp, pPriState, pSecState, pendingPriTx,
    pendingSecTx, rspTimeoutTimer, keepAliveTimer, trace⟩ := ctx
  obtain ⟨func, isFromMaster, fcb, fcvdfc, dest, src⟩ := header
  cases func
  iterate 5
    cases pSecState <;> simp [LinkLayer.dispatchFrame] <;> (try split_ifs) <;> simp_all
  all_goals
    cases pPriState <;> cases pSegments <;>
    simp [LinkLayer.dispatchFrame] <;> (try split_ifs) <;> simp_all

theorem trace_step (ctx ctx' : LinkLayer) (e : Event) (hs : step ctx e = some ctx') :
    ctx.trace <+: ctx'.trace := by
  cases e with
  | Send segments =>
    simp only [step, Option.some.injEq] at hs
    subst hs
    unfold LinkLayer.Send LinkLayer.SetTxSegment
    split_ifs with h1 h2 <;> try (first | exact List.prefix_rfl | simp at *)
    exact trace_TryStartTransmission { ctx with pSegments := some segments }
  | OnLowerLayerUp now =>
    simp only [step, Option.some.injEq] at hs
    subst hs
    unfold LinkLayer.OnLowerLayerUp
    split_ifs <;> simp
  | OnLowerLayerDown =>
    simp only [step, Option.some.injEq] at hs
    subst hs
    unfold LinkLayer.OnLowerLayerDown
    split_ifs <;> simp
  | OnTransmitResult success =>
    simp only [step, LinkLayer.OnTransmitResult] at hs
    have hp : ctx.trace <+:
        ((({ ctx with txMode := LinkTransmitMode.Idle }).TryPendingTx false).1.TryPendingTx true).1.trace := by
      simp [List.append_assoc]
    split_ifs at hs with h1 h2
    · simp only [Option.map_some', Option.some.injEq] at hs; subst hs; exact List.prefix_rfl
    · split at hs
      · simp at hs
      · next r hr =>
        simp only [Option.map_some', Option.some.injEq] at hs
        subst hs
        exact (hp.trans (trace_pri_OnTransmitResult _ success r hr)).trans
          (trace_TryStartTransmission { r.1 with pPriState := r.2 })
    · simp only [Option.map_some', Option.some.injEq] at hs
      subst hs
      refine hp.trans ?_
      generalize ((({ ctx with txMode := LinkTransmitMode.Idle }).TryPendingTx false).1.TryPendingTx
            true).1 = c
      exact trace_TryStartTransmission
        { (c.pSecState.OnTransmitResult c success).1 with
          pSecState := (c.pSecState.OnTransmitResult c success).2 }
  | OnFrame now header userdata =>
    simp only [step, LinkLayer.OnFrame] at hs
    split_ifs at hs with h1 h2
    · simp only [Option.map_some', Option.some.injEq] at hs; subst hs; exact List.prefix_rfl
    · simp only [Option.map_some', Option.some.injEq] at hs; subst hs; exact List.prefix_rfl
    · split at hs
      · simp at hs
      · next c hc =>
        simp only [Option.map_some', Option.some.injEq] at hs
        subst hs
        rw [(dispatchFrame_inl _ c header userdata hc).1]
      · next c hc =>
        simp only [Option.map_some', Option.some.injEq] at hs
        subst hs
        exact (trace_dispatchFrame _ c header userdata hc).trans (trace_TryStartTransmission _)
  | OnResponseTimeout =>
    simp only [step, LinkLayer.OnResponseTimeout] at hs
    split at hs
    · simp at hs
    · next r hr =>
      simp only [Option.some.injEq] at hs
      subst hs
      exact (trace_pri_OnTimeout { ctx with rspTimeoutTimer := false } r hr).trans
        (trace_TryStartTransmission { r.1 with pPriState := r.2 })
  | OnKeepAliveTimeout now =>
    simp only [step, Option.some.injEq] at hs
    subst hs
    unfold LinkLayer.OnKeepAliveTimeout
    refine List.IsPrefix.trans ?_ (trace_TryStartTransmission _)
    split_ifs <;> simp

theorem trace_eq_append_newActions (ctx ctx' : LinkLayer) (h : ctx.trace <+: ctx'.trace) :
    ctx'.trace = ctx.trace ++ newActions ctx ctx' := by
  obtain ⟨l, hl⟩ := h
  simp [newActions, ← hl]

theorem wellFormed_run (es : List Event) (ctx ctx' : LinkLayer) (h : WellFormed ctx)
    (hr : run ctx es = some ctx') : WellFormed ctx' := by
  induction es generalizing ctx with
  | nil => simp only [run, Option.some.injEq] at hr; subst hr; exact h
  | cons e es ih =>
    simp only [run] at hr
    split at hr
    · simp at hr
    · next c hc => exact ih c (wellFormed_step ctx c e h hc) hr

theorem wellFormed_of_reachable (ctx : LinkLayer) (h : Reachable ctx) : WellFormed ctx := by
  obtain ⟨config, now, es, hr⟩ := h
  exact wellFormed_run es _ ctx (wellFormed_new config now) hr

theorem run_append (es1 es2 : List Event) (ctx : LinkLayer) :
    run ctx (es1 ++ es2) = (run ctx es1).bind (fun c => run c es2) := by
  induction es1 generalizing ctx with
  | nil => simp [run]
  | cons e es ih =>
    simp only [run, List.cons_append]
    cases step ctx e with
    | none => simp
    | some c => exact ih c

theorem reachable_step (ctx ctx' : LinkLayer) (e : Event) (h : Reachable ctx)
    (hs : step ctx e = some ctx') : Reachable ctx' := by
  obtain ⟨config, now, es, hr⟩ := h
  refine ⟨config, now, es ++ [e], ?_⟩
  simp [run_append, hr, run, hs]

/-! ## No call is undefined on a well-formed context -/

theorem isSome_pri_OnTransmitResult (ctx : LinkLayer) (success : Bool) (h : WellFormed ctx) :
    ∃ r, ctx.pPriState.OnTransmitResult ctx success = some r := by
  revert h
  obtain ⟨config, pSegments, txMode, numRetryRemaining, nextReadFCB, nextWriteFCB, isOnline,
    isRemoteReset, keepAliveTimeout, lastMessageTimestamp, pPriState, pSecState, pendingPriTx,
    pendingSecTx, rspTimeoutTimer, keepAliveTimer, trace⟩ := ctx
  cases pPriState <;> cases pSegments <;> simp [WellFormed] <;> (try split_ifs) <;> simp

theorem isSome_pri_OnTimeout (ctx : LinkLayer) (h : WellFormed ctx) :
    ∃ r, ctx.pPriState.OnTimeout ctx = some r := by
  revert h
  obtain ⟨config, pSegments, txMode, numRetryRemaining, nextReadFCB, nextWriteFCB, isOnline,
    isRemoteReset, keepAliveTimeout, lastMessageTimestamp, pPriState, pSecState, pendingPriTx,
    pendingSecTx, rspTimeoutTimer, keepAliveTimer, trace⟩ := ctx
  cases pPriState <;> cases pSegments <;> simp [WellFormed] <;> (try split_ifs) <;> simp

theorem isSome_dispatchFrame (ctx : LinkLayer) (header : LinkHeaderFields) (userdata : List Nat)
    (h : WellFormed ctx) : ∃ r, ctx.dispatchFrame header userdata = some r := by
  revert h
  obtain ⟨config, pSegments, txMode, numRetryRemaining, nextReadFCB, nextWriteFCB, isOnline,
    isRemoteReset, keepAliveTimeout, lastMessageTimestamp, pPriState, pSecState, pendingPriTx,
    pendingSecTx, rspTimeoutTimer, keepAliveTimer, trace⟩ := ctx
  obtain ⟨func, isFromMaster, fcb, fcvdfc, dest, src⟩ := header
  cases func <;> simp [LinkLayer.dispatchFrame] <;>
    cases pPriState <;> cases pSegments <;> simp [WellFormed] <;> (try split_ifs) <;> simp

theorem isSome_OnTransmitResult (ctx : LinkLayer) (success : Bool) (h : WellFormed ctx) :
    ∃ r, ctx.OnTransmitResult success = some r := by
  unfold LinkLayer.OnTransmitResult
  have hwf : WellFormed
      ((({ ctx with txMode := LinkTransmitMode.Idle }).TryPendingTx false).1.TryPendingTx true).1 :=
    wellFormed_of_fields ctx _ h (by simp) (by simp) (by simp) (by simp)
  obtain ⟨r, hr⟩ := isSome_pri_OnTransmitResult _ success hwf
  simp only [hr]
  split_ifs <;> exact ⟨_, rfl⟩

theorem isSome_OnFrame (ctx : LinkLayer) (now : Int) (header : LinkHeaderFields)
    (userdata : List Nat) (h : WellFormed ctx) :
    ∃ r, ctx.OnFrame now header userdata = some r := by
  unfold LinkLayer.OnFrame
  have hwf : WellFormed { ctx with lastMessageTimestamp := now } :=
    wellFormed_of_fields ctx _ h rfl rfl rfl rfl
  obtain ⟨r, hr⟩ := isSome_dispatchFrame _ header userdata hwf
  simp only [hr]
  split_ifs <;> cases r <;> exact ⟨_, rfl⟩

theorem isSome_OnResponseTimeout (ctx : LinkLayer) (h : WellFormed ctx) :
    ∃ r, ctx.OnResponseTimeout = some r := by
  unfold LinkLayer.OnResponseTimeout
  obtain ⟨r, hr⟩ := isSome_pri_OnTimeout ctx h
  simp only [hr]
  exact ⟨_, rfl⟩

theorem isSome_step (ctx : LinkLayer) (e : Event) (h : WellFormed ctx) :
    ∃ ctx', step ctx e = some ctx' := by
  cases e with
  | Send segments => exact ⟨_, rfl⟩
  | OnLowerLayerUp now => exact ⟨_, rfl⟩
  | OnLowerLayerDown => exact ⟨_, rfl⟩
  | OnTransmitResult success =>
    obtain ⟨r, hr⟩ := isSome_OnTransmitResult ctx success h
    exact ⟨r.1, by simp [step, hr]⟩
  | OnFrame now header userdata =>
    obtain ⟨r, hr⟩ := isSome_OnFrame ctx now header userdata h
    exact ⟨r.1, by simp [step, hr]⟩
  | OnResponseTimeout =>
    exact isSome_OnResponseTimeout { ctx with rspTimeoutTimer := false }
      (wellFormed_of_fields ctx _ h rfl rfl rfl rfl)
  | OnKeepAliveTimeout now => exact ⟨_, rfl⟩

/-! ## Confirmed data and the reset flag -/

theorem countP_ite (p : Action → Bool) (c : Prop) [Decidable c] (l1 l2 : List Action) :
    (if c then l1 else l2).countP p = if c then l1.countP p else l2.countP p := by
  split_ifs <;> rfl

theorem count_ite (a : Action) (c : Prop) [Decidable c] (l1 l2 : List Action) :
    (if c then l1 else l2).count a = if c then l1.count a else l2.count a := by
  split_ifs <;> rfl

theorem confirmedGate_neutral (ctx c : LinkLayer) (h1 : c.isRemoteReset = ctx.isRemoteReset)
    (h2 : ctx.isRemoteReset = false →
      c.trace.countP Action.queuesConfirmedUserData =
        ctx.trace.countP Action.queuesConfirmedUserData)
    (h3 : c.trace.count (Action.OnStateChange LinkStatus.RESET) =
      ctx.trace.count (Action.OnStateChange LinkStatus.RESET)) :
    ConfirmedGate ctx c false := by
  refine ⟨fun h => h2 (h1 ▸ h), fun h => Or.inl ⟨h1.trans h, h2 h⟩, by simp [h3]⟩

theorem confirmedGate_trans (ctx c ctx' : LinkLayer) (ack : Bool)
    (h : ConfirmedGate ctx c ack) (h' : ConfirmedGate c ctx' false)
    (hr : ctx'.isRemoteReset = c.isRemoteReset) : ConfirmedGate ctx ctx' ack := by
  obtain ⟨a1, a2, a3⟩ := h
  obtain ⟨b1, b2, b3⟩ := h'
  refine ⟨fun h => ?_, fun h => ?_, ?_⟩
  · rw [b1 h, a1 (hr ▸ h)]
  · rcases a2 h with ⟨x, y⟩ | x
    · rcases b2 x with ⟨u, v⟩ | u
      · exact Or.inl ⟨u, v.trans y⟩
      · simp at u
    · exact Or.inr x
  · rw [b3, a3]; simp

theorem confirmedGate_of_eq (ctx c ctx' : LinkLayer) (ack : Bool)
    (h : ConfirmedGate c ctx' ack) (h1 : c.isRemoteReset = ctx.isRemoteReset)
    (h2 : c.trace.countP Action.queuesConfirmedUserData =
      ctx.trace.countP Action.queuesConfirmedUserData)
    (h3 : c.trace.count (Action.OnStateChange LinkStatus.RESET) =
      ctx.trace.count (Action.OnStateChange LinkStatus.RESET)) :
    ConfirmedGate ctx ctx' ack := by
  unfold ConfirmedGate at h ⊢
  rw [h1, h2, h3] at h
  exact h

theorem confirmedGate_TryStartTransmission (ctx : LinkLayer) :
    ConfirmedGate ctx ctx.TryStartTransmission false ∧
      ctx.TryStartTransmission.isRemoteReset = ctx.isRemoteReset := by
  refine ⟨confirmedGate_neutral _ _ ?_ ?_ ?_, ?_⟩ <;>
  · obtain ⟨config, pSegments, txMode, numRetryRemaining, nextReadFCB, nextWriteFCB, isOnline,
      isRemoteReset, keepAliveTimeout, lastMessageTimestamp, pPriState, pSecState, pendingPriTx,
      pendingSecTx, rspTimeoutTimer, keepAliveTimer, trace⟩ := ctx
    cases pPriState <;> cases keepAliveTimeout <;> cases pSegments <;>
      simp [LinkLayer.TryStartTransmission, Action.queuesConfirmedUserData, Frame.isConfirmedUserData,
        List.count_cons, countP_ite, count_ite] <;>
      (try split_ifs) <;>
      simp_all [Action.queuesConfirmedUserData, Frame.isConfirmedUserData, List.count_cons,
        countP_ite, count_ite]

theorem confirmedGate_pump (ctx c : LinkLayer) (ack : Bool) (h : ConfirmedGate ctx c ack) :
    ConfirmedGate ctx c.TryStartTransmission ack :=
  confirmedGate_trans ctx c _ ack h (confirmedGate_TryStartTransmission c).1
    (confirmedGate_TryStartTransmission c).2

theorem confirmedGate_pri_OnTransmitResult (ctx : LinkLayer) (success : Bool)
    (r : LinkLayer × PriState) (hr : ctx.pPriState.OnTransmitResult ctx success = some r) :
    ConfirmedGate ctx { r.1 with pPriState := r.2 } false := by
  apply confirmedGate_neutral <;>
  · revert r
    obtain ⟨config, pSegments, txMode, numRetryRemaining, nextReadFCB, nextWriteFCB, isOnline,
      isRemoteReset, keepAliveTimeout, lastMessageTimestamp, pPriState, pSecState, pendingPriTx,
      pendingSecTx, rspTimeoutTimer, keepAliveTimer, trace⟩ := ctx
    cases pPriState <;> cases success <;> cases pSegments <;>
      simp [Action.queuesConfirmedUserData, Frame.isConfirmedUserData,
        List.count_cons, countP_ite, count_ite] <;>
      (try split_ifs) <;>
      simp_all [Action.queuesConfirmedUserData, Frame.isConfirmedUserData, List.count_cons,
        countP_ite, count_ite]

theorem confirmedGate_pri_OnTimeout (ctx : LinkLayer) (r : LinkLayer × PriState)
    (h : WellFormed ctx) (hr : ctx.pPriState.OnTimeout ctx = some r) :
    ConfirmedGate ctx { r.1 with pPriState := r.2 } false := by
  apply confirmedGate_neutral <;>
  · revert r h
    obtain ⟨config, pSegments, txMode, numRetryRemaining, nextReadFCB, nextWriteFCB, isOnline,
      isRemoteReset, keepAliveTimeout, lastMessageTimestamp, pPriState, pSecState, pendingPriTx,
      pendingSecTx, rspTimeoutTimer, keepAliveTimer, trace⟩ := ctx
    cases pPriState <;> cases pSegments <;>
      simp [WellFormed, Action.queuesConfirmedUserData, Frame.isConfirmedUserData,
        List.count_cons, countP_ite, count_ite] <;>
      (try split_ifs) <;>
      simp_all [Action.queuesConfirmedUserData, Frame.isConfirmedUserData, List.count_cons,
        countP_ite, count_ite]

theorem confirmedGate_dispatchFrame (ctx c : LinkLayer) (header : LinkHeaderFields)
    (userdata : List Nat) (h : WellFormed ctx)
    (hr : ctx.dispatchFrame header userdata = some (Sum.inr c)) :
    ConfirmedGate ctx c
      (decide (header.func = LinkFunction.SEC_ACK) &&
        decide (ctx.pPriState = PriState.ResetLinkWait)) := by
  revert c h
  obtain ⟨config, pSegments, txMode, numRetryRemaining, nextReadFCB, nextWriteFCB, isOnline,
    isRemoteReset, keepAliveTimeout, lastMessageTimestamp, pPriState, pSecState, pendingPriTx,
    pendingSecTx, rspTimeoutTimer, keepAliveTimer, trace⟩ := ctx
  obtain ⟨func, isFromMaster, fcb, fcvdfc, dest, src⟩ := header
  cases func
  iterate 5
    cases pSecState <;>
      simp [ConfirmedGate, LinkLayer.dispatchFrame, Action.queuesConfirmedUserData,
        Frame.isConfirmedUserData, List.count_cons, countP_ite, count_ite] <;>
      (try split_ifs) <;>
      simp_all [Action.queuesConfirmedUserData, Frame.isConfirmedUserData, List.count_cons,
        countP_ite, count_ite]
  all_goals
    cases pPriState <;> cases pSegments <;>
    simp [WellFormed, ConfirmedGate, LinkLayer.dispatchFrame] <;> (try split_ifs) <;>
    simp_all [Action.queuesConfirmedUserData, Frame.isConfirmedUserData, List.count_cons,
      countP_ite, count_ite]

theorem confirmedGate_refl (ctx : LinkLayer) : ConfirmedGate ctx ctx false :=
  confirmedGate_neutral ctx ctx rfl (fun _ => rfl) rfl

theorem confirmedGate_step (ctx ctx' : LinkLayer) (e : Event) (h : WellFormed ctx)
    (hs : step ctx e = some ctx') : ConfirmedGate ctx ctx' (e.isAckInResetLinkWait ctx) := by
  cases e with
  | Send segments =>
    simp only [step, Option.some.injEq] at hs
    subst hs
    simp only [Event.isAckInResetLinkWait, Event.isAccepted, Bool.false_and]
    unfold LinkLayer.Send LinkLayer.SetTxSegment
    split_ifs with h1 h2
    · exact confirmedGate_refl ctx
    · exact confirmedGate_refl ctx
    · exact confirmedGate_of_eq ctx { ctx with pSegments := some segments } _ false
        (confirmedGate_TryStartTransmission _).1 rfl rfl rfl
  | OnLowerLayerUp now =>
    simp only [step, Option.some.injEq] at hs
    subst hs
    simp only [Event.isAckInResetLinkWait, Event.isAccepted, Bool.false_and]
    unfold LinkLayer.OnLowerLayerUp
    split_ifs
    · exact confirmedGate_refl ctx
    · apply confirmedGate_neutral <;>
        simp [Action.queuesConfirmedUserData, List.count_cons]
  | OnLowerLayerDown =>
    simp only [step, Option.some.injEq] at hs
    subst hs
    simp only [Event.isAckInResetLinkWait, Event.isAccepted, Bool.false_and]
    unfold LinkLayer.OnLowerLayerDown
    split_ifs
    · exact confirmedGate_refl ctx
    · simp [ConfirmedGate, Action.queuesConfirmedUserData, List.count_cons]
  | OnTransmitResult success =>
    simp only [step, LinkLayer.OnTransmitResult] at hs
    simp only [Event.isAckInResetLinkWait, Event.isAccepted, Bool.false_and]
    have hp : ∀ c : LinkLayer,
        c = ((({ ctx with txMode := LinkTransmitMode.Idle }).TryPendingTx false).1.TryPendingTx
          true).1 →
        c.isRemoteReset = ctx.isRemoteReset ∧
        c.trace.countP Action.queuesConfirmedUserData =
          ctx.trace.countP Action.queuesConfirmedUserData ∧
        c.trace.count (Action.OnStateChange LinkStatus.RESET) =
          ctx.trace.count (Action.OnStateChange LinkStatus.RESET) := by
      intro c hc
      subst hc
      obtain ⟨config, pSegments, txMode, numRetryRemaining, nextReadFCB, nextWriteFCB, isOnline,
        isRemoteReset, keepAliveTimeout, lastMessageTimestamp, pPriState, pSecState, pendingPriTx,
        pendingSecTx, rspTimeoutTimer, keepAliveTimer, trace⟩ := ctx
      cases pendingSecTx <;> cases pendingPriTx <;>
        simp [LinkLayer.TryPendingTx, countP_ite, count_ite, List.count_cons,
          Action.queuesConfirmedUserData]
    have hwf : WellFormed
        ((({ ctx with txMode := LinkTransmitMode.Idle }).TryPendingTx false).1.TryPendingTx true).1 :=
      wellFormed_of_fields ctx _ h (by simp) (by simp) (by simp) (by simp)
    generalize ((({ ctx with txMode := LinkTransmitMode.Idle }).TryPendingTx false).1.TryPendingTx
      true).1 = c at hp hs hwf
    obtain ⟨hp1, hp2, hp3⟩ := hp c rfl
    split_ifs at hs with h1 h2
    · simp only [Option.map_some', Option.some.injEq] at hs; subst hs
      exact confirmedGate_refl ctx
    · split at hs
      · simp at hs
      · next r hr =>
        simp only [Option.map_some', Option.some.injEq] at hs
        subst hs
        exact confirmedGate_of_eq ctx c _ false
          (confirmedGate_pump c _ false (confirmedGate_pri_OnTransmitResult c success r hr))
          hp1 hp2 hp3
    · simp only [Option.map_some', Option.some.injEq] at hs
      subst hs
      exact confirmedGate_of_eq ctx c _ false
        (confirmedGate_pump c
          { (c.pSecState.OnTransmitResult c success).1 with
            pSecState := (c.pSecState.OnTransmitResult c success).2 } false
          (confirmedGate_refl c))
        hp1 hp2 hp3
  | OnFrame now header userdata =>
    simp only [step, LinkLayer.OnFrame] at hs
    simp only [Event.isAckInResetLinkWait, Event.isAccepted]
    split_ifs at hs with h1 h2
    · simp only [Option.map_some', Option.some.injEq] at hs; subst hs
      simp only [Bool.not_eq_true'] at h1
      simp only [h1, Bool.false_and]
      exact confirmedGate_refl ctx
    · simp only [Option.map_some', Option.some.injEq] at hs; subst hs
      simp only [Bool.not_eq_true'] at h2
      simp only [h2, Bool.false_and, Bool.and_false]
      exact confirmedGate_refl ctx
    · have hwf : WellFormed { ctx with lastMessageTimestamp := now } :=
        wellFormed_of_fields ctx _ h rfl rfl rfl rfl
      simp only [Bool.not_eq_true', Bool.not_eq_false] at h1 h2
      simp only [h1, h2, Bool.true_and]
      split at hs
      · simp at hs
      · next c hc =>
        simp only [Option.map_some', Option.some.injEq] at hs
        subst hs
        obtain ⟨hc1, hc2⟩ := dispatchFrame_inl _ c header userdata hc
        subst hc1
        simp only [hc2]
        exact confirmedGate_of_eq ctx { ctx with lastMessageTimestamp := now } _ false
          (confirmedGate_refl _) rfl rfl rfl
      · next c hc =>
        simp only [Option.map_some', Option.some.injEq] at hs
        subst hs
        exact confirmedGate_of_eq ctx { ctx with lastMessageTimestamp := now } _ _
          (confirmedGate_pump _ c _ (confirmedGate_dispatchFrame _ c header userdata hwf hc))
          rfl rfl rfl
  | OnResponseTimeout =>
    simp only [step, LinkLayer.OnResponseTimeout] at hs
    simp only [Event.isAckInResetLinkWait, Event.isAccepted, Bool.false_and]
    have hwf : WellFormed { ctx with rspTimeoutTimer := false } :=
      wellFormed_of_fields ctx _ h rfl rfl rfl rfl
    split at hs
    · simp at hs
    · next r hr =>
      simp only [Option.some.injEq] at hs
      subst hs
      exact confirmedGate_of_eq ctx { ctx with rspTimeoutTimer := false } _ false
        (confirmedGate_pump _ _ false
          (confirmedGate_pri_OnTimeout { ctx with rspTimeoutTimer := false } r hwf hr))
        rfl rfl rfl
  | OnKeepAliveTimeout now =>
    simp only [step, Option.some.injEq] at hs
    subst hs
    simp only [Event.isAckInResetLinkWait, Event.isAccepted, Bool.false_and]
    unfold LinkLayer.OnKeepAliveTimeout
    apply confirmedGate_pump
    apply confirmedGate_neutral <;> split_ifs <;>
      simp [Action.queuesConfirmedUserData, List.count_cons]

theorem countP_newActions (p : Action → Bool) (ctx ctx' : LinkLayer)
    (h : ctx.trace <+: ctx'.trace) :
    ctx'.trace.countP p = ctx.trace.countP p + (newActions ctx ctx').countP p := by
  conv_lhs => rw [trace_eq_append_newActions ctx ctx' h]
  simp

theorem count_newActions (a : Action) (ctx ctx' : LinkLayer) (h : ctx.trace <+: ctx'.trace) :
    ctx'.trace.count a = ctx.trace.count a + (newActions ctx ctx').count a := by
  conv_lhs => rw [trace_eq_append_newActions ctx ctx' h]
  simp

theorem countP_eq_of_any_eq_false (p : Action → Bool) (l : List Action) :
    l.any p = true ↔ 0 < l.countP p := by
  rw [List.countP_pos_iff]
  simp

theorem send_cold (ctx : LinkLayer) (segments : TransportSegment) (h : WellFormed ctx)
    (h1 : ctx.isOnline = true) (h2 : ctx.pPriState = PriState.Idle)
    (h3 : ctx.config.UseConfirms = true) (h4 : ctx.isRemoteReset = false) :
    (ctx.Send segments).pPriState = PriState.LinkResetTransmitWait ∧
    (ctx.Send segments).isRemoteReset = false ∧
    queuedPrimary (newActions ctx (ctx.Send segments)) =
      [Frame.ResetLinkStates ctx.config.IsMaster ctx.config.RemoteAddr ctx.config.LocalAddr] := by
  revert h h1 h2 h3 h4
  obtain ⟨config, pSegments, txMode, numRetryRemaining, nextReadFCB, nextWriteFCB, isOnline,
    isRemoteReset, keepAliveTimeout, lastMessageTimestamp, pPriState, pSecState, pendingPriTx,
    pendingSecTx, rspTimeoutTimer, keepAliveTimer, trace⟩ := ctx
  intro h h1 h2 h3 h4
  simp only at h1 h2 h3 h4
  subst h1 h2 h4
  simp only [WellFormed] at h
  obtain ⟨h5, h6⟩ := h
  subst h5 h6
  simp [LinkLayer.Send, LinkLayer.SetTxSegment, LinkLayer.TryStartTransmission, h3, newActions]
  split_ifs <;> simp [queuedPrimary]

theorem ack_in_resetLinkWait (ctx : LinkLayer) (now : Int) (header : LinkHeaderFields)
    (userdata : List Nat) (h : WellFormed ctx)
    (ha : (Event.OnFrame now header userdata).isAckInResetLinkWait ctx = true) :
    ∃ ctx' segments, step ctx (Event.OnFrame now header userdata) = some ctx' ∧
      ctx.pSegments = some segments ∧ ctx'.isRemoteReset = true ∧
      ctx'.pPriState = PriState.ConfUserDataTransmitWait ∧
      queuedPrimary (newActions ctx ctx') =
        [Frame.ConfirmedUserData ctx.config.IsMaster ctx'.nextWriteFCB ctx.config.RemoteAddr
          ctx.config.LocalAddr segments.GetSegment] := by
  simp only [Event.isAckInResetLinkWait, Event.isAccepted, Bool.and_eq_true,
    decide_eq_true_eq] at ha
  obtain ⟨⟨⟨ha1, ha2⟩, ha3⟩, ha4⟩ := ha
  have hseg : ∃ segments, ctx.pSegments = some segments := by
    simp only [WellFormed, ha4] at h
    exact Option.ne_none_iff_exists'.mp h
  obtain ⟨segments, hseg⟩ := hseg
  obtain ⟨ctx', hs⟩ := isSome_step ctx (Event.OnFrame now header userdata) h
  refine ⟨ctx', segments, hs, hseg, ?_⟩
  simp [step, LinkLayer.OnFrame, ha1, ha2, ha3, ha4, hseg, LinkLayer.dispatchFrame,
    TryStartTransmission_of_not_idle] at hs
  subst hs
  simp [newActions]
  split_ifs <;> simp [queuedPrimary]

/-! ## C1 -/

/-- C1: confirmed user data is never sent to a peer that has not been reset.  From every
reachable context every event is defined, and (1) an event that queues a
CONFIRMED_USER_DATA frame ends with `isRemoteReset` true; (2) with `UseConfirms` and
`isRemoteReset` false, `Send` from `Idle` queues exactly RESET_LINK_STATES and moves to
`LinkResetTransmitWait`; (3) while `isRemoteReset` is false the only event that queues
CONFIRMED_USER_DATA is an accepted ACK in `ResetLinkWait`; (4) that ACK queues the frame
for the current segment, sets `isRemoteReset` and moves to `ConfUserDataTransmitWait`;
(5) every event notifies `OnStateChange(RESET)` exactly once if it is that ACK and never
otherwise. -/
theorem confirmed_data_requires_reset :
    (∀ ctx e, Reachable ctx → ∃ ctx', step ctx e = some ctx') ∧
    (∀ ctx e ctx', Reachable ctx → step ctx e = some ctx' →
      (newActions ctx ctx').any Action.queuesConfirmedUserData = true →
      ctx'.isRemoteReset = true) ∧
    (∀ ctx segments, Reachable ctx → ctx.isOnline = true → ctx.pPriState = PriState.Idle →
      ctx.config.UseConfirms = true → ctx.isRemoteReset = false →
      (ctx.Send segments).pPriState = PriState.LinkResetTransmitWait ∧
      (ctx.Send segments).isRemoteReset = false ∧
      queuedPrimary (newActions ctx (ctx.Send segments)) =
        [Frame.ResetLinkStates ctx.config.IsMaster ctx.config.RemoteAddr
          ctx.config.LocalAddr]) ∧
    (∀ ctx e ctx', Reachable ctx → ctx.isRemoteReset = false → step ctx e = some ctx' →
      (newActions ctx ctx').any Action.queuesConfirmedUserData = true →
      e.isAckInResetLinkWait ctx = true) ∧
    (∀ ctx now header userdata, Reachable ctx →
      (Event.OnFrame now header userdata).isAckInResetLinkWait ctx = true →
      ∃ ctx' segments, step ctx (Event.OnFrame now header userdata) = some ctx' ∧
        ctx.pSegments = some segments ∧ ctx'.isRemoteReset = true ∧
        ctx'.pPriState = PriState.ConfUserDataTransmitWait ∧
        queuedPrimary (newActions ctx ctx') =
          [Frame.ConfirmedUserData ctx.config.IsMaster ctx'.nextWriteFCB
            ctx.config.RemoteAddr ctx.config.LocalAddr segments.GetSegment]) ∧
    (∀ ctx e ctx', Reachable ctx → step ctx e = some ctx' →
      (newActions ctx ctx').count (Action.OnStateChange LinkStatus.RESET) =
        if e.isAckInResetLinkWait ctx then 1 else 0) := by
  refine ⟨?_, ?_, ?_, ?_, ?_, ?_⟩
  · intro ctx e hr
    exact isSome_step ctx e (wellFormed_of_reachable ctx hr)
  · intro ctx e ctx' hr hs hq
    obtain ⟨g1, -, -⟩ := confirmedGate_step ctx ctx' e (wellFormed_of_reachable ctx hr) hs
    have hc := countP_newActions Action.queuesConfirmedUserData ctx ctx' (trace_step ctx ctx' e hs)
    rw [countP_eq_of_any_eq_false] at hq
    cases hb : ctx'.isRemoteReset with
    | true => rfl
    | false => have := g1 hb; omega
  · intro ctx segments hr h1 h2 h3 h4
    exact send_cold ctx segments (wellFormed_of_reachable ctx hr) h1 h2 h3 h4
  · intro ctx e ctx' hr h0 hs hq
    obtain ⟨-, g2, -⟩ := confirmedGate_step ctx ctx' e (wellFormed_of_reachable ctx hr) hs
    have hc := countP_newActions Action.queuesConfirmedUserData ctx ctx' (trace_step ctx ctx' e hs)
    rw [countP_eq_of_any_eq_false] at hq
    rcases g2 h0 with ⟨-, g⟩ | g
    · omega
    · exact g
  · intro ctx now header userdata hr ha
    exact ack_in_resetLinkWait ctx now header userdata (wellFormed_of_reachable ctx hr) ha
  · intro ctx e ctx' hr hs
    obtain ⟨-, -, g3⟩ := confirmedGate_step ctx ctx' e (wellFormed_of_reachable ctx hr) hs
    have hc := count_newActions (Action.OnStateChange LinkStatus.RESET) ctx ctx'
      (trace_step ctx ctx' e hs)
    omega

theorem reachable_scenarioOnline : Reachable scenarioOnline :=
  ⟨scenarioConfig, 0, [Event.OnLowerLayerUp 0], rfl⟩

/-- Witness of C1: the scenario layer, online and never reset, answers a `Send` with
RESET_LINK_STATES. -/
theorem confirmed_data_requires_reset_witness :
    Reachable scenarioOnline ∧
    (scenarioOnline.Send ⟨[7], []⟩).pPriState = PriState.LinkResetTransmitWait ∧
    (scenarioOnline.Send ⟨[7], []⟩).isRemoteReset = false ∧
    queuedPrimary (newActions scenarioOnline (scenarioOnline.Send ⟨[7], []⟩)) =
      [Frame.ResetLinkStates true 1024 1] :=
  ⟨reachable_scenarioOnline,
    confirmed_data_requires_reset.2.2.1 scenarioOnline ⟨[7], []⟩ reachable_scenarioOnline
      rfl rfl rfl rfl⟩

/-! ## C5 -/

/-- C5: a NACK handled in `ConfDataWait` (`PLLS_ConfDataWait::OnNack`) first notifies
`OnStateChange(UNRESET)` and cancels the response timer.  With `rxBuffFull` it returns
`Idle`, clears `pSegments`, posts `OnSendResult(false)` and queues nothing; without, it
sets `numRetryRemaining` to `config.NumRetry`, queues one RESET_LINK_STATES frame, returns
`LinkResetTransmitWait`, keeps `pSegments` and posts no result. -/
theorem confDataWait_onNack (ctx : LinkLayer) :
    ((PLLS_ConfDataWait.OnNack ctx true).2 = PriState.Idle ∧
      (PLLS_ConfDataWait.OnNack ctx true).1 =
        { ctx with
          pSegments := none
          rspTimeoutTimer := false
          trace := ctx.trace ++ [Action.OnStateChange LinkStatus.UNRESET,
            Action.CancelResponseTimer, Action.PostSendResult false] }) ∧
    ((PLLS_ConfDataWait.OnNack ctx false).2 = PriState.LinkResetTransmitWait ∧
      (PLLS_ConfDataWait.OnNack ctx false).1.numRetryRemaining = ctx.config.NumRetry ∧
      (PLLS_ConfDataWait.OnNack ctx false).1.rspTimeoutTimer = false ∧
      (PLLS_ConfDataWait.OnNack ctx false).1.pSegments = ctx.pSegments ∧
      newActions ctx (PLLS_ConfDataWait.OnNack ctx false).1 =
        [Action.OnStateChange LinkStatus.UNRESET, Action.CancelResponseTimer,
          Action.QueueTransmit
            (Frame.ResetLinkStates ctx.config.IsMaster ctx.config.RemoteAddr
              ctx.config.LocalAddr) true] ++
          (if ctx.txMode = LinkTransmitMode.Idle then
            [Action.BeginTransmit
              (Frame.ResetLinkStates ctx.config.IsMaster ctx.config.RemoteAddr
                ctx.config.LocalAddr)]
          else []) ∧
      postedResults (newActions ctx (PLLS_ConfDataWait.OnNack ctx false).1) = []) := by
  refine ⟨⟨by simp, by simp⟩, by simp, by simp, by simp, by simp, ?_, ?_⟩
  · simp [newActions]
  · simp [newActions]
    split_ifs <;> simp [postedResults]

/-! ## C8 -/

/-- C8: `Validate` accepts a header exactly when the role bit differs from the layer's
own, the destination is the local address and the source is the remote address; its
result depends on the configuration only, and it returns nothing but the flag. -/
theorem validate_iff (ctx : LinkLayer) (isFromMaster : Bool) (src dest : Nat) :
    (ctx.Validate isFromMaster src dest = true ↔
      isFromMaster ≠ ctx.config.IsMaster ∧ dest = ctx.config.LocalAddr ∧
        src = ctx.config.RemoteAddr) ∧
    ctx.Validate isFromMaster src dest =
      (LinkLayer.new ctx.config 0).Validate isFromMaster src dest := by
  constructor
  · unfold LinkLayer.Validate
    split_ifs <;> simp_all
  · rfl

/-! ## C9 -/

/-- C9: lifecycle violations are rejected and change nothing.  `OnLowerLayerUp` on an
online layer and `OnLowerLayerDown` on an offline layer return false with the context,
trace and timers included, as it was; `SetTxSegment` on an offline layer, or while
segments are pending, returns false and `Send` then leaves the context as it was. -/
theorem lifecycle_violations_rejected (ctx : LinkLayer) (now : Int)
    (segments : TransportSegment) :
    (ctx.isOnline = true → ctx.OnLowerLayerUp now = (ctx, false)) ∧
    (ctx.isOnline = false → ctx.OnLowerLayerDown = (ctx, false)) ∧
    (ctx.isOnline = false ∨ ctx.pSegments ≠ none →
      ctx.SetTxSegment segments = (ctx, false) ∧ ctx.Send segments = ctx) := by
  refine ⟨?_, ?_, ?_⟩
  · intro h
    simp [LinkLayer.OnLowerLayerUp, h]
  · intro h
    simp [LinkLayer.OnLowerLayerDown, h]
  · intro h
    have hs : ctx.SetTxSegment segments = (ctx, false) := by
      unfold LinkLayer.SetTxSegment
      rcases h with h | h
      · simp [h]
      · cases hp : ctx.pSegments with
        | none => exact absurd hp h
        | some s => simp
    exact ⟨hs, by simp [LinkLayer.Send, hs]⟩

/-- Witness of C9: the scenario layer rejects a second `OnLowerLayerUp` while online, and
before it is online it rejects `OnLowerLayerDown` and `Send`. -/
theorem lifecycle_violations_rejected_witness :
    scenarioOnline.OnLowerLayerUp 9 = (scenarioOnline, false) ∧
    (LinkLayer.new scenarioConfig 0).OnLowerLayerDown = (LinkLayer.new scenarioConfig 0, false) ∧
    (LinkLayer.new scenarioConfig 0).Send ⟨[7], []⟩ = LinkLayer.new scenarioConfig 0 :=
  ⟨(lifecycle_violations_rejected scenarioOnline 9 ⟨[7], []⟩).1 rfl,
    (lifecycle_violations_rejected (LinkLayer.new scenarioConfig 0) 9 ⟨[7], []⟩).2.1 rfl,
    ((lifecycle_violations_rejected (LinkLayer.new scenarioConfig 0) 9 ⟨[7], []⟩).2.2
      (Or.inl rfl)).2⟩

/-! ## C10 -/

/-- C10: `OnLowerLayerDown` on an online layer returns true and leaves the cleared
state whatever the state before: offline, `Idle`, `NotReset`, peer not reset, no
keep-alive pending, no segments, wire idle, both pending slots empty, both timers not
armed; the calls it makes are the two timer cancellations, `OnStateChange(UNRESET)` once
and then the upper layer's `OnLowerLayerDown` once. -/
theorem onLowerLayerDown_clears (ctx : LinkLayer) (h : ctx.isOnline = true) :
    ctx.OnLowerLayerDown.2 = true ∧
    ctx.OnLowerLayerDown.1.isOnline = false ∧
    ctx.OnLowerLayerDown.1.pPriState = PriState.Idle ∧
    ctx.OnLowerLayerDown.1.pSecState = SecState.NotReset ∧
    ctx.OnLowerLayerDown.1.isRemoteReset = false ∧
    ctx.OnLowerLayerDown.1.keepAliveTimeout = false ∧
    ctx.OnLowerLayerDown.1.pSegments = none ∧
    ctx.OnLowerLayerDown.1.txMode = LinkTransmitMode.Idle ∧
    ctx.OnLowerLayerDown.1.pendingPriTx = none ∧
    ctx.OnLowerLayerDown.1.pendingSecTx = none ∧
    ctx.OnLowerLayerDown.1.rspTimeoutTimer = false ∧
    ctx.OnLowerLayerDown.1.keepAliveTimer = none ∧
    newActions ctx ctx.OnLowerLayerDown.1 =
      [Action.CancelResponseTimer, Action.CancelKeepAliveTimer,
        Action.OnStateChange LinkStatus.UNRESET, Action.UpperOnLowerLayerDown] := by
  simp [LinkLayer.OnLowerLayerDown, h, newActions]

/-- Witness of C10: the scenario layer, taken down in the middle of a cold send. -/
theorem onLowerLayerDown_clears_witness :
    (scenarioOnline.Send ⟨[7], []⟩).isOnline = true ∧
    (scenarioOnline.Send ⟨[7], []⟩).pPriState = PriState.LinkResetTransmitWait ∧
    (scenarioOnline.Send ⟨[7], []⟩).OnLowerLayerDown.1.pPriState = PriState.Idle ∧
    (scenarioOnline.Send ⟨[7], []⟩).OnLowerLayerDown.1.pSegments = none ∧
    (scenarioOnline.Send ⟨[7], []⟩).OnLowerLayerDown.1.txMode = LinkTransmitMode.Idle :=
  ⟨rfl, rfl, (onLowerLayerDown_clears (scenarioOnline.Send ⟨[7], []⟩) rfl).2.2.1,
    (onLowerLayerDown_clears (scenarioOnline.Send ⟨[7], []⟩) rfl).2.2.2.2.2.2.1,
    (onLowerLayerDown_clears (scenarioOnline.Send ⟨[7], []⟩) rfl).2.2.2.2.2.2.2.1⟩

/-! ## C6 -/

/-- C6, as stated, fails: in `SendUnconfirmedTransmitWait` with a further segment
pending, `OnTransmitResult(false)` keeps the state, queues the next segment and posts no
result.  The layer here is the scenario layer without confirms, sending two segments. -/
theorem unconfirmed_failure_continues :
    ((scenarioUnconfirmed.Send ⟨[1], [[2]]⟩).pPriState = PriState.SendUnconfirmedTransmitWait ∧
      (scenarioUnconfirmed.Send ⟨[1], [[2]]⟩).txMode = LinkTransmitMode.Primary) ∧
    ((scenarioUnconfirmed.Send ⟨[1], [[2]]⟩).OnTransmitResult false).map
      (fun r => (r.1.pPriState, r.1.pSegments,
        newActions (scenarioUnconfirmed.Send ⟨[1], [[2]]⟩) r.1)) =
      some (PriState.SendUnconfirmedTransmitWait, some ⟨[2], []⟩,
        [Action.QueueTransmit (Frame.UnconfirmedUserData true 1024 1 [2]) true,
          Action.BeginTransmit (Frame.UnconfirmedUserData true 1024 1 [2])]) := by
  decide

/-- C6, amended: `OnTransmitResult(false)` ends the operation in `LinkResetTransmitWait`,
`ConfUserDataTransmitWait` and `RequestLinkStatusTransmitWait`, and in
`SendUnconfirmedTransmitWait` when no further segment is pending: the handler returns
`Idle` and queues nothing, and in the three send states it clears `pSegments` and posts
`OnSendResult(false)`.  In `SendUnconfirmedTransmitWait` with a further segment pending
the result is not looked at: the next segment is queued and the state is kept. -/
theorem transmit_failure_ends_operation (ctx : LinkLayer) :
    PLLS_LinkResetTransmitWait.OnTransmitResult ctx false =
      ({ ctx with pSegments := none, trace := ctx.trace ++ [Action.PostSendResult false] },
        PriState.Idle) ∧
    PLLS_ConfUserDataTransmitWait.OnTransmitResult ctx false =
      ({ ctx with pSegments := none, trace := ctx.trace ++ [Action.PostSendResult false] },
        PriState.Idle) ∧
    PLLS_RequestLinkStatusTransmitWait.OnTransmitResult ctx false = (ctx, PriState.Idle) ∧
    (∀ segments, ctx.pSegments = some segments → segments.rest = [] →
      PLLS_SendUnconfirmedTransmitWait.OnTransmitResult ctx false =
        some ({ ctx with pSegments := none,
                         trace := ctx.trace ++ [Action.PostSendResult false] },
          PriState.Idle)) ∧
    (∀ segments x xs success, ctx.pSegments = some segments → segments.rest = x :: xs →
      ∃ ctx', PLLS_SendUnconfirmedTransmitWait.OnTransmitResult ctx success =
          some (ctx', PriState.SendUnconfirmedTransmitWait) ∧
        ctx'.pSegments = some ⟨x, xs⟩ ∧
        queuedPrimary (newActions ctx ctx') =
          [Frame.UnconfirmedUserData ctx.config.IsMaster ctx.config.RemoteAddr
            ctx.config.LocalAddr x] ∧
        postedResults (newActions ctx ctx') = []) := by
  refine ⟨by simp, by simp, by simp, ?_, ?_⟩
  · intro segments h1 h2
    simp [h1, TransportSegment.Advance, h2]
  · intro segments x xs success h1 h2
    refine ⟨_, by simp [h1, TransportSegment.Advance, h2]; rfl, ?_⟩
    simp [newActions, TransportSegment.GetSegment]
    split_ifs <;> simp [queuedPrimary, postedResults]

/-- Witness of C6, amended: the scenario layer without confirms, a failed transmission
of the only segment, and of the first of two. -/
theorem transmit_failure_ends_operation_witness :
    PLLS_SendUnconfirmedTransmitWait.OnTransmitResult (scenarioUnconfirmed.Send ⟨[1], []⟩) false =
      some ({ scenarioUnconfirmed.Send ⟨[1], []⟩ with
                pSegments := none
                trace := (scenarioUnconfirmed.Send ⟨[1], []⟩).trace ++
                  [Action.PostSendResult false] },
        PriState.Idle) :=
  (transmit_failure_ends_operation (scenarioUnconfirmed.Send ⟨[1], []⟩)).2.2.2.1 ⟨[1], []⟩
    rfl rfl

/-! ## C7 -/

/-- C7, as stated, fails: a frame with a function code outside the nine handled codes,
from the right peer, makes `OnFrame` return false and yet moves `lastMessageTimestamp`
(here from 0 to 5). -/
theorem onFrame_unknown_function_moves_timestamp :
    scenarioOnline.lastMessageTimestamp = 0 ∧
    scenarioOnline.OnFrame 5 (scenarioHeader LinkFunction.INVALID false) [] =
      some ({ scenarioOnline with lastMessageTimestamp := 5 }, false) := by
  decide

/-- C7, amended: from every reachable context `OnFrame` returns, and it returns true
exactly when the layer is online, `Validate` accepts the header and the function code is
one of the nine handled codes.  When it returns false because the layer is offline or
`Validate` rejects the header, the context is unchanged; when it returns false because
of the function code, the context is unchanged except that `lastMessageTimestamp` is the
time of the call. -/
theorem onFrame_accepts_iff (ctx : LinkLayer) (now : Int) (header : LinkHeaderFields)
    (userdata : List Nat) (h : Reachable ctx) :
    ∃ ctx' accepted, ctx.OnFrame now header userdata = some (ctx', accepted) ∧
      (accepted = true ↔
        ctx.isOnline = true ∧ ctx.Validate header.isFromMaster header.src header.dest = true ∧
          header.func ∈ [LinkFunction.SEC_ACK, LinkFunction.SEC_NACK,
            LinkFunction.SEC_LINK_STATUS, LinkFunction.SEC_NOT_SUPPORTED,
            LinkFunction.PRI_TEST_LINK_STATES, LinkFunction.PRI_RESET_LINK_STATES,
            LinkFunction.PRI_REQUEST_LINK_STATUS, LinkFunction.PRI_CONFIRMED_USER_DATA,
            LinkFunction.PRI_UNCONFIRMED_USER_DATA]) ∧
      (accepted = false →
        ctx' = if ctx.isOnline = true ∧
            ctx.Validate header.isFromMaster header.src header.dest = true
          then { ctx with lastMessageTimestamp := now } else ctx) := by
  have hwf := wellFormed_of_reachable ctx h
  have hwf' : WellFormed { ctx with lastMessageTimestamp := now } :=
    wellFormed_of_fields ctx _ hwf rfl rfl rfl rfl
  obtain ⟨r, hr⟩ := isSome_dispatchFrame { ctx with lastMessageTimestamp := now } header
    userdata hwf'
  unfold LinkLayer.OnFrame
  simp only [hr]
  by_cases h1 : ctx.isOnline = true
  · by_cases h2 : ctx.Validate header.isFromMaster header.src header.dest = true
    · simp only [h1, h2, Bool.not_true, Bool.false_eq_true, if_false, and_self, if_true,
        true_and]
      cases r with
      | inl c =>
        obtain ⟨hc1, hc2⟩ := dispatchFrame_inl _ c header userdata hr
        exact ⟨c, false, rfl, by simp [hc2], fun _ => by simp [hc1, h1]⟩
      | inr c =>
        refine ⟨_, true, rfl, ?_, by simp⟩
        simp only [true_iff]
        revert hr
        cases hf : header.func <;> simp [LinkLayer.dispatchFrame, hf]
    · simp only [Bool.not_eq_true] at h2
      simp [h1, h2]
  · simp only [Bool.not_eq_true] at h1
    simp [h1]

/-- Witness of C7, amended: the scenario layer, online, returns from an ACK sent by its
peer. -/
theorem onFrame_accepts_iff_witness :
    Reachable scenarioOnline ∧
    (scenarioOnline.OnFrame 5 (scenarioHeader LinkFunction.SEC_ACK false) []).isSome = true :=
  ⟨reachable_scenarioOnline, by
    obtain ⟨ctx', accepted, h, -⟩ := onFrame_accepts_iff scenarioOnline 5
      (scenarioHeader LinkFunction.SEC_ACK false) [] reachable_scenarioOnline
    rw [h]
    rfl⟩

/-! ## Rounds of a confirmed send -/

theorem queuedPrimary_append (l1 l2 : List Action) :
    queuedPrimary (l1 ++ l2) = queuedPrimary l1 ++ queuedPrimary l2 := by
  induction l1 with
  | nil => rfl
  | cons a l ih =>
    cases a with
    | QueueTransmit buffer primary => cases primary <;> simp [queuedPrimary, ih]
    | _ => simp [queuedPrimary, ih]

theorem postedResults_append (l1 l2 : List Action) :
    postedResults (l1 ++ l2) = postedResults l1 ++ postedResults l2 := by
  induction l1 with
  | nil => rfl
  | cons a l ih => cases a <;> simp [postedResults, ih]

theorem newActions_of_trace (ctx c : LinkLayer) (l : List Action) (h : c.trace = ctx.trace ++ l) :
    newActions ctx c = l := by
  simp [newActions, h]

theorem step_transmitted (c : LinkLayer) (h1 : c.pPriState = PriState.ConfUserDataTransmitWait)
    (h2 : c.txMode = LinkTransmitMode.Primary) (h3 : c.pendingPriTx = none)
    (h4 : c.pendingSecTx = none) :
    step c (Event.OnTransmitResult true) =
      some { c with
        txMode := LinkTransmitMode.Idle
        rspTimeoutTimer := true
        pPriState := PriState.ConfDataWait
        trace := c.trace ++ [Action.StartResponseTimer] } := by
  simp [step, LinkLayer.OnTransmitResult, LinkLayer.TryPendingTx, h1, h2, h3, h4,
    TryStartTransmission_of_not_idle]

theorem step_timeout_retry (c : LinkLayer) (segments : TransportSegment) (m : Nat)
    (h1 : c.pPriState = PriState.ConfDataWait) (h2 : c.txMode = LinkTransmitMode.Idle)
    (h5 : c.pSegments = some segments) (h7 : c.numRetryRemaining = m + 1) :
    step c Event.OnResponseTimeout =
      some { c with
        numRetryRemaining := m
        txMode := LinkTransmitMode.Primary
        rspTimeoutTimer := false
        pPriState := PriState.ConfUserDataTransmitWait
        trace := c.trace ++
          [Action.QueueTransmit
              (Frame.ConfirmedUserData c.config.IsMaster c.nextWriteFCB c.config.RemoteAddr
                c.config.LocalAddr segments.current) true,
            Action.BeginTransmit
              (Frame.ConfirmedUserData c.config.IsMaster c.nextWriteFCB c.config.RemoteAddr
                c.config.LocalAddr segments.current)] } := by
  simp [step, LinkLayer.OnResponseTimeout, h1, h2, h5, h7, TryStartTransmission_of_not_idle,
    LinkLayer.QueueTransmit, TransportSegment.GetSegment]

theorem step_timeout_final (c : LinkLayer)
    (h1 : c.pPriState = PriState.ConfDataWait) (h6 : c.keepAliveTimeout = false)
    (h7 : c.numRetryRemaining = 0) :
    step c Event.OnResponseTimeout =
      some { c with
        pSegments := none
        rspTimeoutTimer := false
        pPriState := PriState.Idle
        trace := c.trace ++
          [Action.OnStateChange LinkStatus.UNRESET, Action.PostSendResult false] } := by
  simp [step, LinkLayer.OnResponseTimeout, h1, h6, h7, LinkLayer.TryStartTransmission]

theorem send_ready (ctx : LinkLayer) (segments : TransportSegment) (h : ReadyForConfirmed ctx) :
    ctx.Send segments =
      { ctx with
        pSegments := some segments
        numRetryRemaining := ctx.config.NumRetry
        txMode := LinkTransmitMode.Primary
        pPriState := PriState.ConfUserDataTransmitWait
        trace := ctx.trace ++
          [Action.QueueTransmit
              (Frame.ConfirmedUserData ctx.config.IsMaster ctx.nextWriteFCB
                ctx.config.RemoteAddr ctx.config.LocalAddr segments.current) true,
            Action.BeginTransmit
              (Frame.ConfirmedUserData ctx.config.IsMaster ctx.nextWriteFCB
                ctx.config.RemoteAddr ctx.config.LocalAddr segments.current)] } := by
  obtain ⟨h1, h2, h3, h4, h5, h6, h7, h8, h9⟩ := h
  simp [LinkLayer.Send, LinkLayer.SetTxSegment, LinkLayer.TryStartTransmission, h1, h2, h3, h4,
    h5, h6, h7, LinkLayer.QueueTransmit, TransportSegment.GetSegment]

theorem run_timeoutRound (c : LinkLayer) (c1 c2 : LinkLayer)
    (h1 : step c (Event.OnTransmitResult true) = some c1)
    (h2 : step c1 Event.OnResponseTimeout = some c2) :
    run c timeoutRound = some c2 := by
  simp [timeoutRound, run, h1, h2]

theorem retry_rounds (ctx : LinkLayer) (data : List Nat) (h : ReadyForConfirmed ctx) (k : Nat)
    (hk : k ≤ ctx.config.NumRetry) :
    ∃ c l, run ctx (Event.Send ⟨data, []⟩ :: timeoutRounds k) = some c ∧
      ConfirmedInFlight ctx c ⟨data, []⟩ l ∧
      c.numRetryRemaining = ctx.config.NumRetry - k ∧ c.nextWriteFCB = ctx.nextWriteFCB ∧
      queuedPrimary l =
        List.replicate (k + 1)
          (Frame.ConfirmedUserData ctx.config.IsMaster ctx.nextWriteFCB ctx.config.RemoteAddr
            ctx.config.LocalAddr data) ∧
      postedResults l = [] ∧ l.count (Action.OnStateChange LinkStatus.UNRESET) = 0 := by
  induction k with
  | zero =>
    refine ⟨ctx.Send ⟨data, []⟩,
      [Action.QueueTransmit
          (Frame.ConfirmedUserData ctx.config.IsMaster ctx.nextWriteFCB ctx.config.RemoteAddr
            ctx.config.LocalAddr data) true,
        Action.BeginTransmit
          (Frame.ConfirmedUserData ctx.config.IsMaster ctx.nextWriteFCB ctx.config.RemoteAddr
            ctx.config.LocalAddr data)], rfl, ?_⟩
    rw [send_ready ctx ⟨data, []⟩ h]
    · obtain ⟨h1, h2, h3, h4, h5, h6, h7, h8, h9⟩ := h
      simp [ConfirmedInFlight, h1, h4, h8, h9, queuedPrimary, postedResults, List.count_cons]
  | succ k ih =>
    obtain ⟨c, l, hrun, ⟨a1, a2, a3, a4, a5, a6, a7, a8, a9⟩, hn, hf, hq, hp, hu⟩ :=
      ih (Nat.le_of_succ_le hk)
    have hm : c.numRetryRemaining = (ctx.config.NumRetry - (k + 1)) + 1 := by omega
    have s1 := step_transmitted c a1 a2 a3 a4
    have s2 := step_timeout_retry
      { c with
        txMode := LinkTransmitMode.Idle
        rspTimeoutTimer := true
        pPriState := PriState.ConfDataWait
        trace := c.trace ++ [Action.StartResponseTimer] }
      ⟨data, []⟩ (ctx.config.NumRetry - (k + 1)) rfl rfl a5 hm
    refine ⟨{ c with
        numRetryRemaining := ctx.config.NumRetry - (k + 1)
        txMode := LinkTransmitMode.Primary
        rspTimeoutTimer := false
        pPriState := PriState.ConfUserDataTransmitWait
        trace := (c.trace ++ [Action.StartResponseTimer]) ++
          [Action.QueueTransmit
              (Frame.ConfirmedUserData c.config.IsMaster c.nextWriteFCB c.config.RemoteAddr
                c.config.LocalAddr data) true,
            Action.BeginTransmit
              (Frame.ConfirmedUserData c.config.IsMaster c.nextWriteFCB c.config.RemoteAddr
                c.config.LocalAddr data)] },
      l ++ [Action.StartResponseTimer,
        Action.QueueTransmit
          (Frame.ConfirmedUserData ctx.config.IsMaster ctx.nextWriteFCB ctx.config.RemoteAddr
            ctx.config.LocalAddr data) true,
        Action.BeginTransmit
          (Frame.ConfirmedUserData ctx.config.IsMaster ctx.nextWriteFCB ctx.config.RemoteAddr
            ctx.config.LocalAddr data)], ?_, ?_⟩
    · simp only [timeoutRounds, ← List.cons_append, run_append, hrun, Option.some_bind]
      exact run_timeoutRound c _ _ s1 s2
    · simp [ConfirmedInFlight, a3, a4, a5, a6, a7, a8, a9, hf, queuedPrimary_append,
        postedResults_append, hq, hp, hu, queuedPrimary, postedResults, List.count_cons,
        List.replicate_succ']

/-! ## C2 -/

/-- C2: a single-segment confirmed send to a peer already reset, started with the wire
free, in which every transmission completes and every response timer expires.  With
`n = config.NumRetry`: after the `Send` and `k ≤ n` rounds the primary state is
`ConfUserDataTransmitWait` again, `numRetryRemaining` is `n - k`, exactly `k + 1`
CONFIRMED_USER_DATA frames have been queued, all for the same segment with the same FCB,
and nothing has been reported; the round `n + 1` ends in `Idle` with `pSegments` cleared,
`n + 1` frames queued in all, `OnStateChange(UNRESET)` notified once and
`OnSendResult(false)` posted once. -/
theorem confirmed_retry_exhaustion (ctx : LinkLayer) (data : List Nat)
    (h : ReadyForConfirmed ctx) :
    (∀ k, k ≤ ctx.config.NumRetry →
      ∃ c, run ctx (Event.Send ⟨data, []⟩ :: timeoutRounds k) = some c ∧
        c.pPriState = PriState.ConfUserDataTransmitWait ∧
        c.numRetryRemaining = ctx.config.NumRetry - k ∧
        queuedPrimary (newActions ctx c) =
          List.replicate (k + 1)
            (Frame.ConfirmedUserData ctx.config.IsMaster ctx.nextWriteFCB
              ctx.config.RemoteAddr ctx.config.LocalAddr data) ∧
        postedResults (newActions ctx c) = [] ∧
        (newActions ctx c).count (Action.OnStateChange LinkStatus.UNRESET) = 0) ∧
    (∃ c, run ctx (Event.Send ⟨data, []⟩ :: timeoutRounds (ctx.config.NumRetry + 1)) = some c ∧
      c.pPriState = PriState.Idle ∧ c.pSegments = none ∧
      queuedPrimary (newActions ctx c) =
        List.replicate (ctx.config.NumRetry + 1)
          (Frame.ConfirmedUserData ctx.config.IsMaster ctx.nextWriteFCB
            ctx.config.RemoteAddr ctx.config.LocalAddr data) ∧
      postedResults (newActions ctx c) = [false] ∧
      (newActions ctx c).count (Action.OnStateChange LinkStatus.UNRESET) = 1) := by
  constructor
  · intro k hk
    obtain ⟨c, l, hrun, hfl, hn, -, hq, hp, hu⟩ := retry_rounds ctx data h k hk
    have hl := newActions_of_trace ctx c l hfl.2.2.2.2.2.2.2.2
    exact ⟨c, hrun, hfl.1, hn, by rw [hl, hq], by rw [hl, hp], by rw [hl, hu]⟩
  · obtain ⟨c, l, hrun, ⟨a1, a2, a3, a4, a5, a6, a7, a8, a9⟩, hn, hf, hq, hp, hu⟩ :=
      retry_rounds ctx data h ctx.config.NumRetry (Nat.le_refl _)
    have s1 := step_transmitted c a1 a2 a3 a4
    have s2 := step_timeout_final
      { c with
        txMode := LinkTransmitMode.Idle
        rspTimeoutTimer := true
        pPriState := PriState.ConfDataWait
        trace := c.trace ++ [Action.StartResponseTimer] }
      rfl a6 (by simp [hn])
    refine ⟨{ c with
        pSegments := none
        txMode := LinkTransmitMode.Idle
        rspTimeoutTimer := false
        pPriState := PriState.Idle
        trace := (c.trace ++ [Action.StartResponseTimer]) ++
          [Action.OnStateChange LinkStatus.UNRESET, Action.PostSendResult false] },
      ?_, rfl, rfl, ?_⟩
    · simp only [timeoutRounds, ← List.cons_append, run_append, hrun, Option.some_bind]
      exact run_timeoutRound c _ _ s1 s2
    · simp [newActions, a9, queuedPrimary_append, postedResults_append, hq, hp, hu,
        queuedPrimary, postedResults, List.count_cons]

/-! ## The write FCB -/

theorem fcb_TryStartTransmission (ctx : LinkLayer) :
    ctx.TryStartTransmission.nextWriteFCB = ctx.nextWriteFCB := by
  obtain ⟨config, pSegments, txMode, numRetryRemaining, nextReadFCB, nextWriteFCB, isOnline,
    isRemoteReset, keepAliveTimeout, lastMessageTimestamp, pPriState, pSecState, pendingPriTx,
    pendingSecTx, rspTimeoutTimer, keepAliveTimer, trace⟩ := ctx
  cases pPriState <;> cases keepAliveTimeout <;> cases pSegments <;>
    simp [LinkLayer.TryStartTransmission] <;> (try split_ifs) <;> simp

theorem fcb_pri_OnTransmitResult (ctx : LinkLayer) (success : Bool) (r : LinkLayer × PriState)
    (hr : ctx.pPriState.OnTransmitResult ctx success = some r) :
    r.1.nextWriteFCB = ctx.nextWriteFCB := by
  revert r
  obtain ⟨config, pSegments, txMode, numRetryRemaining, nextReadFCB, nextWriteFCB, isOnline,
    isRemoteReset, keepAliveTimeout, lastMessageTimestamp, pPriState, pSecState, pendingPriTx,
    pendingSecTx, rspTimeoutTimer, keepAliveTimer, trace⟩ := ctx
  cases pPriState <;> cases success <;> cases pSegments <;>
    simp <;> (try split_ifs) <;> simp

theorem fcb_pri_OnTimeout (ctx : LinkLayer) (r : LinkLayer × PriState)
    (hr : ctx.pPriState.OnTimeout ctx = some r) :
    r.1.nextWriteFCB = ctx.nextWriteFCB := by
  revert r
  obtain ⟨config, pSegments, txMode, numRetryRemaining, nextReadFCB, nextWriteFCB, isOnline,
    isRemoteReset, keepAliveTimeout, lastMessageTimestamp, pPriState, pSecState, pendingPriTx,
    pendingSecTx, rspTimeoutTimer, keepAliveTimer, trace⟩ := ctx
  cases pPriState <;> cases pSegments <;>
    simp <;> (try split_ifs) <;> simp

theorem fcb_dispatchFrame (ctx c : LinkLayer) (header : LinkHeaderFields)
    (userdata : List Nat) (hr : ctx.dispatchFrame header userdata = some (Sum.inr c)) :
    c.nextWriteFCB =
      if header.func = LinkFunction.SEC_ACK ∧ ctx.pPriState = PriState.ConfDataWait then
        !ctx.nextWriteFCB
      else if header.func = LinkFunction.SEC_ACK ∧ ctx.pPriState = PriState.ResetLinkWait then
        ctx.ResetWriteFCB.nextWriteFCB
      else ctx.nextWriteFCB := by
  revert c
  obtain ⟨config, pSegments, txMode, numRetryRemaining, nextReadFCB, nextWriteFCB, isOnline,
    isRemoteReset, keepAliveTimeout, lastMessageTimestamp, pPriState, pSecState, pendingPriTx,
    pendingSecTx, rspTimeoutTimer, keepAliveTimer, trace⟩ := ctx
  obtain ⟨func, isFromMaster, fcb, fcvdfc, dest, src⟩ := header
  cases func
  iterate 5
    cases pSecState <;> simp [LinkLayer.dispatchFrame] <;> (try split_ifs) <;> simp_all
  all_goals
    cases pPriState <;> cases pSegments <;>
    simp [LinkLayer.dispatchFrame] <;> (try split_ifs) <;> simp_all

theorem fcb_step (ctx ctx' : LinkLayer) (e : Event) (hs : step ctx e = some ctx') :
    ctx'.nextWriteFCB =
      if e.isAccepted ctx LinkFunction.SEC_ACK = true ∧ ctx.pPriState = PriState.ConfDataWait
      then !ctx.nextWriteFCB
      else if e.isAckInResetLinkWait ctx = true then ctx.ResetWriteFCB.nextWriteFCB
      else ctx.nextWriteFCB := by
  cases e with
  | Send segments =>
    simp only [step, Option.some.injEq] at hs
    subst hs
    simp only [Event.isAckInResetLinkWait, Event.isAccepted, Bool.false_and,
      Bool.false_eq_true, false_and, if_false]
    unfold LinkLayer.Send LinkLayer.SetTxSegment
    split_ifs
    · rfl
    · rfl
    · exact fcb_TryStartTransmission { ctx with pSegments := some segments }
  | OnLowerLayerUp now =>
    simp only [step, Option.some.injEq] at hs
    subst hs
    simp only [Event.isAckInResetLinkWait, Event.isAccepted, Bool.false_and,
      Bool.false_eq_true, false_and, if_false]
    unfold LinkLayer.OnLowerLayerUp
    split_ifs <;> rfl
  | OnLowerLayerDown =>
    simp only [step, Option.some.injEq] at hs
    subst hs
    simp only [Event.isAckInResetLinkWait, Event.isAccepted, Bool.false_and,
      Bool.false_eq_true, false_and, if_false]
    unfold LinkLayer.OnLowerLayerDown
    split_ifs <;> rfl
  | OnTransmitResult success =>
    simp only [step, LinkLayer.OnTransmitResult] at hs
    simp only [Event.isAckInResetLinkWait, Event.isAccepted, Bool.false_and,
      Bool.false_eq_true, false_and, if_false]
    have hp : ((({ ctx with txMode := LinkTransmitMode.Idle }).TryPendingTx false).1.TryPendingTx
        true).1.nextWriteFCB = ctx.nextWriteFCB := by simp
    generalize ((({ ctx with txMode := LinkTransmitMode.Idle }).TryPendingTx false).1.TryPendingTx
      true).1 = c at hp hs
    split_ifs at hs with h1 h2
    · simp only [Option.map_some', Option.some.injEq] at hs; subst hs; rfl
    · split at hs
      · simp at hs
      · next r hr =>
        simp only [Option.map_some', Option.some.injEq] at hs
        subst hs
        rw [fcb_TryStartTransmission { r.1 with pPriState := r.2 }]
        exact (fcb_pri_OnTransmitResult c success r hr).trans hp
    · simp only [Option.map_some', Option.some.injEq] at hs
      subst hs
      rw [fcb_TryStartTransmission]
      exact hp
  | OnFrame now header userdata =>
    simp only [step, LinkLayer.OnFrame] at hs
    simp only [Event.isAckInResetLinkWait, Event.isAccepted]
    split_ifs at hs with h1 h2
    · simp only [Option.map_some', Option.some.injEq] at hs; subst hs
      simp only [Bool.not_eq_true'] at h1
      simp [h1]
    · simp only [Option.map_some', Option.some.injEq] at hs; subst hs
      simp only [Bool.not_eq_true'] at h2
      simp [h2]
    · simp only [Bool.not_eq_true', Bool.not_eq_false] at h1 h2
      simp only [h1, h2, Bool.true_and]
      split at hs
      · simp at hs
      · next c hc =>
        simp only [Option.map_some', Option.some.injEq] at hs
        subst hs
        obtain ⟨hc1, hc2⟩ := dispatchFrame_inl _ c header userdata hc
        subst hc1
        simp [hc2]
      · next c hc =>
        simp only [Option.map_some', Option.some.injEq] at hs
        subst hs
        rw [fcb_TryStartTransmission c,
          fcb_dispatchFrame { ctx with lastMessageTimestamp := now } c header userdata hc]
        simp [LinkLayer.ResetWriteFCB]
  | OnResponseTimeout =>
    simp only [step, LinkLayer.OnResponseTimeout] at hs
    simp only [Event.isAckInResetLinkWait, Event.isAccepted, Bool.false_and,
      Bool.false_eq_true, false_and, if_false]
    split at hs
    · simp at hs
    · next r hr =>
      simp only [Option.some.injEq] at hs
      subst hs
      rw [fcb_TryStartTransmission { r.1 with pPriState := r.2 }]
      exact fcb_pri_OnTimeout { ctx with rspTimeoutTimer := false } r hr
  | OnKeepAliveTimeout now =>
    simp only [step, Option.some.injEq] at hs
    subst hs
    simp only [Event.isAckInResetLinkWait, Event.isAccepted, Bool.false_and,
      Bool.false_eq_true, false_and, if_false]
    unfold LinkLayer.OnKeepAliveTimeout
    rw [fcb_TryStartTransmission]
    split_ifs <;> rfl

theorem readyForConfirmed_scenarioReset : ReadyForConfirmed scenarioReset := by
  unfold ReadyForConfirmed
  decide

/-- Witness of C2: the scenario layer (two retries) after its peer has been reset; the
third unanswered round ends the send in `Idle`. -/
theorem confirmed_retry_exhaustion_witness :
    ReadyForConfirmed scenarioReset ∧
    (run scenarioReset (Event.Send ⟨[9], []⟩ :: timeoutRounds 3)).map
      (fun c => (c.pPriState, postedResults (newActions scenarioReset c))) =
      some (PriState.Idle, [false]) :=
  ⟨readyForConfirmed_scenarioReset, by
    obtain ⟨c, h1, h2, -, -, h3, -⟩ :=
      (confirmed_retry_exhaustion scenarioReset [9] readyForConfirmed_scenarioReset).2
    have h0 : scenarioReset.config.NumRetry + 1 = 3 := rfl
    rw [h0] at h1
    rw [h1]
    simp [h2, h3]⟩

theorem step_ack_more (c : LinkLayer) (now : Int) (header : LinkHeaderFields) (d x : List Nat)
    (xs : List (List Nat)) (h1 : c.pPriState = PriState.ConfDataWait)
    (h2 : c.txMode = LinkTransmitMode.Idle) (h3 : c.isOnline = true)
    (h4 : c.Validate header.isFromMaster header.src header.dest = true)
    (h5 : header.func = LinkFunction.SEC_ACK) (h6 : c.pSegments = some ⟨d, x :: xs⟩) :
    step c (Event.OnFrame now header []) =
      some { c with
        pSegments := some ⟨x, xs⟩
        txMode := LinkTransmitMode.Primary
        nextWriteFCB := !c.nextWriteFCB
        lastMessageTimestamp := now
        rspTimeoutTimer := false
        pPriState := PriState.ConfUserDataTransmitWait
        trace := c.trace ++
          [Action.CancelResponseTimer,
            Action.QueueTransmit
              (Frame.ConfirmedUserData c.config.IsMaster (!c.nextWriteFCB) c.config.RemoteAddr
                c.config.LocalAddr x) true,
            Action.BeginTransmit
              (Frame.ConfirmedUserData c.config.IsMaster (!c.nextWriteFCB) c.config.RemoteAddr
                c.config.LocalAddr x)] } := by
  have h4' : ({ c with lastMessageTimestamp := now }).Validate header.isFromMaster header.src
      header.dest = true := h4
  simp [step, LinkLayer.OnFrame, LinkLayer.dispatchFrame, h1, h2, h3, h4, h5, h6,
    TryStartTransmission_of_not_idle, LinkLayer.QueueTransmit, TransportSegment.GetSegment,
    TransportSegment.Advance]

theorem step_ack_last (c : LinkLayer) (now : Int) (header : LinkHeaderFields) (d : List Nat)
    (h1 : c.pPriState = PriState.ConfDataWait) (h3 : c.isOnline = true)
    (h4 : c.Validate header.isFromMaster header.src header.dest = true)
    (h5 : header.func = LinkFunction.SEC_ACK) (h6 : c.pSegments = some ⟨d, []⟩)
    (h7 : c.keepAliveTimeout = false) :
    step c (Event.OnFrame now header []) =
      some { c with
        pSegments := none
        nextWriteFCB := !c.nextWriteFCB
        lastMessageTimestamp := now
        rspTimeoutTimer := false
        pPriState := PriState.Idle
        trace := c.trace ++ [Action.CancelResponseTimer, Action.PostSendResult true] } := by
  simp [step, LinkLayer.OnFrame, LinkLayer.dispatchFrame, h1, h3, h4, h5, h6, h7,
    LinkLayer.TryStartTransmission, TransportSegment.Advance]

theorem run_ackRound (c c1 c2 : LinkLayer) (now : Int) (header : LinkHeaderFields)
    (h1 : step c (Event.OnTransmitResult true) = some c1)
    (h2 : step c1 (Event.OnFrame now header []) = some c2) :
    run c (ackRound now header) = some c2 := by
  simp [ackRound, run, h1, h2]

theorem ack_rounds (now : Int) (header : LinkHeaderFields)
    (h5 : header.func = LinkFunction.SEC_ACK) (ds : List (List Nat)) :
    ∀ (c : LinkLayer) (d : List Nat),
      c.pPriState = PriState.ConfUserDataTransmitWait → c.txMode = LinkTransmitMode.Primary →
      c.pendingPriTx = none → c.pendingSecTx = none → c.pSegments = some ⟨d, ds⟩ →
      c.keepAliveTimeout = false → c.isOnline = true →
      c.Validate header.isFromMaster header.src header.dest = true →
      ∃ c' l, run c (ackRounds now header (ds.length + 1)) = some c' ∧
        c'.trace = c.trace ++ l ∧ c'.pPriState = PriState.Idle ∧ c'.pSegments = none ∧
        queuedPrimary l = alternatingFrames c.config (!c.nextWriteFCB) ds ∧
        postedResults l = [true] ∧
        c'.nextWriteFCB = (if ds.length % 2 = 0 then !c.nextWriteFCB else c.nextWriteFCB) := by
  induction ds with
  | nil =>
    intro c d a1 a2 a3 a4 a5 a6 a7 a8
    have s1 := step_transmitted c a1 a2 a3 a4
    have s2 := step_ack_last
      { c with
        txMode := LinkTransmitMode.Idle
        rspTimeoutTimer := true
        pPriState := PriState.ConfDataWait
        trace := c.trace ++ [Action.StartResponseTimer] }
      now header d rfl a7 a8 h5 a5 a6
    have hr := run_ackRound c _ _ now header s1 s2
    simp only [ackRounds, List.length_nil, List.append_nil]
    refine ⟨_, [Action.StartResponseTimer, Action.CancelResponseTimer,
      Action.PostSendResult true], hr, ?_⟩
    simp [queuedPrimary, postedResults, alternatingFrames]
  | cons x xs ih =>
    intro c d a1 a2 a3 a4 a5 a6 a7 a8
    have s1 := step_transmitted c a1 a2 a3 a4
    have s2 := step_ack_more
      { c with
        txMode := LinkTransmitMode.Idle
        rspTimeoutTimer := true
        pPriState := PriState.ConfDataWait
        trace := c.trace ++ [Action.StartResponseTimer] }
      now header d x xs rfl rfl a7 a8 h5 a5
    obtain ⟨c2, hs2, q1, q2, q3, q4, q5, q6, q7, q8, q9, q10, q11⟩ : ∃ c2,
        step { c with
            txMode := LinkTransmitMode.Idle
            rspTimeoutTimer := true
            pPriState := PriState.ConfDataWait
            trace := c.trace ++ [Action.StartResponseTimer] } (Event.OnFrame now header []) =
          some c2 ∧
        c2.pPriState = PriState.ConfUserDataTransmitWait ∧
        c2.txMode = LinkTransmitMode.Primary ∧ c2.pendingPriTx = none ∧
        c2.pendingSecTx = none ∧ c2.pSegments = some ⟨x, xs⟩ ∧ c2.keepAliveTimeout = false ∧
        c2.isOnline = true ∧ c2.Validate header.isFromMaster header.src header.dest = true ∧
        c2.trace = c.trace ++ [Action.StartResponseTimer, Action.CancelResponseTimer,
          Action.QueueTransmit
            (Frame.ConfirmedUserData c.config.IsMaster (!c.nextWriteFCB) c.config.RemoteAddr
              c.config.LocalAddr x) true,
          Action.BeginTransmit
            (Frame.ConfirmedUserData c.config.IsMaster (!c.nextWriteFCB) c.config.RemoteAddr
              c.config.LocalAddr x)] ∧
        c2.nextWriteFCB = (!c.nextWriteFCB) ∧ c2.config = c.config :=
      ⟨_, s2, rfl, rfl, a3, a4, rfl, a6, a7, a8, by simp, rfl, rfl⟩
    have hr := run_ackRound c _ c2 now header s1 hs2
    obtain ⟨c', l, b1, b2, b3, b4, b5, b6, b7⟩ := ih c2 x q1 q2 q3 q4 q5 q6 q7 q8
    refine ⟨c', [Action.StartResponseTimer, Action.CancelResponseTimer,
      Action.QueueTransmit
        (Frame.ConfirmedUserData c.config.IsMaster (!c.nextWriteFCB) c.config.RemoteAddr
          c.config.LocalAddr x) true,
      Action.BeginTransmit
        (Frame.ConfirmedUserData c.config.IsMaster (!c.nextWriteFCB) c.config.RemoteAddr
          c.config.LocalAddr x)] ++ l, ?_, ?_, b3, b4, ?_, ?_, ?_⟩
    · simp only [List.length_cons, ackRounds]
      rw [run_append, hr]
      exact b1
    · rw [b2, q9]; simp
    · simp [queuedPrimary_append, queuedPrimary, alternatingFrames, b5, q10, q11]
    · simp [postedResults_append, postedResults, b6]
    · rw [b7, q10]
      simp only [List.length_cons, Bool.not_not]
      rcases Nat.mod_two_eq_zero_or_one xs.length with h | h <;>
        simp [h, Nat.succ_mod_two_eq_zero_iff, Nat.add_mod]

theorem retransmission_same_fcb (ctx : LinkLayer) (segments : TransportSegment)
    (h1 : ctx.pPriState = PriState.ConfDataWait) (h2 : ctx.pSegments = some segments)
    (h3 : 0 < ctx.numRetryRemaining) :
    ∃ ctx', step ctx Event.OnResponseTimeout = some ctx' ∧
      ctx'.pPriState = PriState.ConfUserDataTransmitWait ∧
      queuedPrimary (newActions ctx ctx') =
        [Frame.ConfirmedUserData ctx.config.IsMaster ctx.nextWriteFCB ctx.config.RemoteAddr
          ctx.config.LocalAddr segments.GetSegment] ∧
      ctx'.nextWriteFCB = ctx.nextWriteFCB := by
  simp [step, LinkLayer.OnResponseTimeout, h1, h2, h3, TryStartTransmission_of_not_idle,
    newActions]
  split_ifs <;> simp [queuedPrimary]

/-! ## C3 -/

/-- C3: the write FCB toggles once per acknowledged confirmed segment and at no other
time.  From every reachable context every event is defined, and over any event the new
`nextWriteFCB` is the old one flipped if the event is an accepted ACK in `ConfDataWait`,
the value set by `ResetWriteFCB` if it is an accepted ACK in `ResetLinkWait`, and the old
one in every other case.  A timeout with a retry left re-queues the current segment with
the unchanged FCB.  A send of `k` segments in which every transmission completes and every
frame is acknowledged queues `k` frames with alternating FCB values and reports success. -/
theorem write_fcb_toggles_on_ack :
    (∀ ctx e, Reachable ctx → ∃ ctx', step ctx e = some ctx') ∧
    (∀ ctx e ctx', step ctx e = some ctx' →
      ctx'.nextWriteFCB =
        if e.isAccepted ctx LinkFunction.SEC_ACK = true ∧ ctx.pPriState = PriState.ConfDataWait
        then !ctx.nextWriteFCB
        else if e.isAckInResetLinkWait ctx = true then ctx.ResetWriteFCB.nextWriteFCB
        else ctx.nextWriteFCB) ∧
    (∀ ctx segments, ctx.pPriState = PriState.ConfDataWait → ctx.pSegments = some segments →
      0 < ctx.numRetryRemaining →
      ∃ ctx', step ctx Event.OnResponseTimeout = some ctx' ∧
        ctx'.pPriState = PriState.ConfUserDataTransmitWait ∧
        queuedPrimary (newActions ctx ctx') =
          [Frame.ConfirmedUserData ctx.config.IsMaster ctx.nextWriteFCB ctx.config.RemoteAddr
            ctx.config.LocalAddr segments.GetSegment] ∧
        ctx'.nextWriteFCB = ctx.nextWriteFCB) ∧
    (∀ ctx now header d ds, ReadyForConfirmed ctx →
      ctx.Validate header.isFromMaster header.src header.dest = true →
      header.func = LinkFunction.SEC_ACK →
      ∃ c, run ctx (Event.Send ⟨d, ds⟩ :: ackRounds now header (ds.length + 1)) = some c ∧
        c.pPriState = PriState.Idle ∧ c.pSegments = none ∧
        queuedPrimary (newActions ctx c) =
          alternatingFrames ctx.config ctx.nextWriteFCB (d :: ds) ∧
        postedResults (newActions ctx c) = [true]) := by
  refine ⟨?_, ?_, ?_, ?_⟩
  · intro ctx e hr
    exact isSome_step ctx e (wellFormed_of_reachable ctx hr)
  · intro ctx e ctx' hs
    exact fcb_step ctx ctx' e hs
  · intro ctx segments h1 h2 h3
    exact retransmission_same_fcb ctx segments h1 h2 h3
  · intro ctx now header d ds hready hv hf
    have hsend := send_ready ctx ⟨d, ds⟩ hready
    obtain ⟨h1, h2, h3, h4, h5, h6, h7, h8, h9⟩ := hready
    obtain ⟨c', l, b1, b2, b3, b4, b5, b6, -⟩ :=
      ack_rounds now header hf ds (ctx.Send ⟨d, ds⟩) d (by rw [hsend]) (by rw [hsend])
        (by rw [hsend]; exact h8) (by rw [hsend]; exact h9) (by rw [hsend])
        (by rw [hsend]; exact h4) (by rw [hsend]; exact h1) (by rw [hsend]; exact hv)
    refine ⟨c', ?_, b3, b4, ?_, ?_⟩
    · simp only [run, step]
      exact b1
    · rw [hsend] at b2 b5
      simp only [List.append_assoc] at b2
      rw [newActions_of_trace ctx c' _ b2]
      simp [queuedPrimary_append, queuedPrimary, alternatingFrames, b5]
    · rw [hsend] at b2
      simp only [List.append_assoc] at b2
      rw [newActions_of_trace ctx c' _ b2]
      simp [postedResults_append, postedResults, b6]

/-- Witness of C3: the scenario layer, its peer reset, sends three segments that are all
acknowledged; the frames carry the FCB values true, false, true. -/
theorem write_fcb_toggles_on_ack_witness :
    ReadyForConfirmed scenarioReset ∧ scenarioReset.nextWriteFCB = true ∧
    (run scenarioReset
        (Event.Send ⟨[1], [[2], [3]]⟩ ::
          ackRounds 9 (scenarioHeader LinkFunction.SEC_ACK false) 3)).map
      (fun c => queuedPrimary (newActions scenarioReset c)) =
      some [Frame.ConfirmedUserData true true 1024 1 [1],
        Frame.ConfirmedUserData true false 1024 1 [2],
        Frame.ConfirmedUserData true true 1024 1 [3]] :=
  ⟨readyForConfirmed_scenarioReset, rfl, by
    obtain ⟨c, h1, -, -, h2, -⟩ :=
      write_fcb_toggles_on_ack.2.2.2 scenarioReset 9
        (scenarioHeader LinkFunction.SEC_ACK false) [1] [[2], [3]]
        readyForConfirmed_scenarioReset rfl rfl
    have h0 : ([[2], [3]] : List (List Nat)).length + 1 = 3 := rfl
    rw [h0] at h1
    rw [h1]
    simp only [Option.map_some', h2]
    rfl⟩

/-! ## The budget of RESET_LINK_STATES frames -/

theorem spendsBudget_refl (ctx : LinkLayer) : SpendsBudget ctx ctx 0 :=
  ⟨Nat.le_refl _, rfl⟩

theorem spendsBudget_trans (ctx c ctx' : LinkLayer) (b1 b2 : Nat) (h1 : SpendsBudget ctx c b1)
    (h2 : SpendsBudget c ctx' b2) : SpendsBudget ctx ctx' (b1 + b2) := by
  obtain ⟨a1, a2⟩ := h1
  obtain ⟨c1, c2⟩ := h2
  exact ⟨by omega, c2.trans a2⟩

theorem spendsBudget_of_fields (ctx ctx' : LinkLayer) (h1 : ctx'.pPriState = ctx.pPriState)
    (h2 : ctx'.pSegments = ctx.pSegments) (h3 : ctx'.numRetryRemaining = ctx.numRetryRemaining)
    (h4 : ctx'.config = ctx.config)
    (h5 : ctx'.trace.countP Action.queuesResetLinkStates =
      ctx.trace.countP Action.queuesResetLinkStates) : SpendsBudget ctx ctx' 0 := by
  unfold SpendsBudget resetBudget
  rw [h1, h2, h3, h4, h5]
  exact ⟨Nat.le_refl _, rfl⟩

theorem spendsBudget_TryStartTransmission (ctx : LinkLayer) :
    SpendsBudget ctx ctx.TryStartTransmission 0 := by
  obtain ⟨config, pSegments, txMode, numRetryRemaining, nextReadFCB, nextWriteFCB, isOnline,
    isRemoteReset, keepAliveTimeout, lastMessageTimestamp, pPriState, pSecState, pendingPriTx,
    pendingSecTx, rspTimeoutTimer, keepAliveTimer, trace⟩ := ctx
  cases pPriState <;> cases keepAliveTimeout <;> cases pSegments <;>
    simp [SpendsBudget, resetBudget, LinkLayer.TryStartTransmission, countP_ite,
      Action.queuesResetLinkStates, Frame.isResetLinkStates] <;>
    (try split_ifs) <;>
    simp_all [Action.queuesResetLinkStates, Frame.isResetLinkStates, countP_ite] <;> omega

theorem spendsBudget_pri_OnTransmitResult (ctx : LinkLayer) (success : Bool)
    (r : LinkLayer × PriState) (hr : ctx.pPriState.OnTransmitResult ctx success = some r) :
    SpendsBudget ctx { r.1 with pPriState := r.2 } 0 := by
  revert r
  obtain ⟨config, pSegments, txMode, numRetryRemaining, nextReadFCB, nextWriteFCB, isOnline,
    isRemoteReset, keepAliveTimeout, lastMessageTimestamp, pPriState, pSecState, pendingPriTx,
    pendingSecTx, rspTimeoutTimer, keepAliveTimer, trace⟩ := ctx
  cases pPriState <;> cases success <;> cases pSegments <;>
    simp [SpendsBudget, resetBudget, countP_ite, Action.queuesResetLinkStates,
      Frame.isResetLinkStates] <;>
    (try split_ifs) <;>
    simp_all [Action.queuesResetLinkStates, Frame.isResetLinkStates, countP_ite]

theorem spendsBudget_pri_OnTimeout (ctx : LinkLayer) (r : LinkLayer × PriState)
    (h : WellFormed ctx) (hr : ctx.pPriState.OnTimeout ctx = some r) :
    SpendsBudget ctx { r.1 with pPriState := r.2 } 0 := by
  revert r h
  obtain ⟨config, pSegments, txMode, numRetryRemaining, nextReadFCB, nextWriteFCB, isOnline,
    isRemoteReset, keepAliveTimeout, lastMessageTimestamp, pPriState, pSecState, pendingPriTx,
    pendingSecTx, rspTimeoutTimer, keepAliveTimer, trace⟩ := ctx
  cases pPriState <;> cases pSegments <;>
    simp [WellFormed, SpendsBudget, resetBudget, countP_ite, Action.queuesResetLinkStates,
      Frame.isResetLinkStates] <;>
    (try split_ifs) <;>
    simp_all [Action.queuesResetLinkStates, Frame.isResetLinkStates, countP_ite] <;> omega

theorem spendsBudget_dispatchFrame (ctx c : LinkLayer) (header : LinkHeaderFields)
    (userdata : List Nat) (hr : ctx.dispatchFrame header userdata = some (Sum.inr c)) :
    SpendsBudget ctx c
      (if header.func = LinkFunction.SEC_NACK ∧ header.fcvdfc = false ∧
          ctx.pPriState = PriState.ConfDataWait
        then ctx.config.NumRetry + 1 else 0) := by
  revert c
  obtain ⟨config, pSegments, txMode, numRetryRemaining, nextReadFCB, nextWriteFCB, isOnline,
    isRemoteReset, keepAliveTimeout, lastMessageTimestamp, pPriState, pSecState, pendingPriTx,
    pendingSecTx, rspTimeoutTimer, keepAliveTimer, trace⟩ := ctx
  obtain ⟨func, isFromMaster, fcb, fcvdfc, dest, src⟩ := header
  cases func
  iterate 5
    cases pSecState <;>
      simp [SpendsBudget, resetBudget, LinkLayer.dispatchFrame, countP_ite,
        Action.queuesResetLinkStates, Frame.isResetLinkStates] <;>
      (try split_ifs) <;>
      simp_all [Action.queuesResetLinkStates, Frame.isResetLinkStates, countP_ite]
  all_goals
    cases pPriState <;> cases pSegments <;>
    simp [SpendsBudget, resetBudget, LinkLayer.dispatchFrame, countP_ite,
      Action.queuesResetLinkStates, Frame.isResetLinkStates] <;>
    (try cases fcvdfc) <;> (try simp) <;> (try split_ifs) <;>
    simp_all [Action.queuesResetLinkStates, Frame.isResetLinkStates, countP_ite] <;> omega

theorem spendsBudget_drain (ctx : LinkLayer) :
    SpendsBudget ctx
      ((({ ctx with txMode := LinkTransmitMode.Idle }).TryPendingTx false).1.TryPendingTx true).1
      0 := by
  apply spendsBudget_of_fields <;> try simp
  obtain ⟨config, pSegments, txMode, numRetryRemaining, nextReadFCB, nextWriteFCB, isOnline,
    isRemoteReset, keepAliveTimeout, lastMessageTimestamp, pPriState, pSecState, pendingPriTx,
    pendingSecTx, rspTimeoutTimer, keepAliveTimer, trace⟩ := ctx
  cases pendingSecTx <;> cases pendingPriTx <;>
    simp [LinkLayer.TryPendingTx, countP_ite, Action.queuesResetLinkStates]

theorem spendsBudget_step (ctx ctx' : LinkLayer) (e : Event) (h : WellFormed ctx)
    (hseg : ctx.pSegments ≠ none) (hs : step ctx e = some ctx') :
    SpendsBudget ctx ctx' (if e.isNackRetry ctx = true then ctx.config.NumRetry + 1 else 0) := by
  cases e with
  | Send segments =>
    simp only [step, Option.some.injEq] at hs
    subst hs
    simp only [Event.isNackRetry, Bool.false_eq_true, if_false]
    have : ctx.SetTxSegment segments = (ctx, false) := by
      unfold LinkLayer.SetTxSegment
      cases hp : ctx.pSegments with
      | none => exact absurd hp hseg
      | some s => simp
    simp only [LinkLayer.Send, this, Bool.false_eq_true, if_false]
    exact spendsBudget_refl ctx
  | OnLowerLayerUp now =>
    simp only [step, Option.some.injEq] at hs
    subst hs
    simp only [Event.isNackRetry, Bool.false_eq_true, if_false]
    unfold LinkLayer.OnLowerLayerUp
    split_ifs
    · exact spendsBudget_refl ctx
    · apply spendsBudget_of_fields <;> simp [Action.queuesResetLinkStates]
  | OnLowerLayerDown =>
    simp only [step, Option.some.injEq] at hs
    subst hs
    simp only [Event.isNackRetry, Bool.false_eq_true, if_false]
    unfold LinkLayer.OnLowerLayerDown
    split_ifs
    · exact spendsBudget_refl ctx
    · simp [SpendsBudget, resetBudget, Action.queuesResetLinkStates]
  | OnTransmitResult success =>
    simp only [step, LinkLayer.OnTransmitResult] at hs
    simp only [Event.isNackRetry, Bool.false_eq_true, if_false]
    have hd := spendsBudget_drain ctx
    generalize ((({ ctx with txMode := LinkTransmitMode.Idle }).TryPendingTx false).1.TryPendingTx
      true).1 = c at hd hs
    split_ifs at hs with h1 h2
    · simp only [Option.map_some', Option.some.injEq] at hs; subst hs
      exact spendsBudget_refl ctx
    · split at hs
      · simp at hs
      · next r hr =>
        simp only [Option.map_some', Option.some.injEq] at hs
        subst hs
        exact spendsBudget_trans ctx c _ 0 0 hd
          (spendsBudget_trans c { r.1 with pPriState := r.2 } _ 0 0
            (spendsBudget_pri_OnTransmitResult c success r hr)
            (spendsBudget_TryStartTransmission _))
    · simp only [Option.map_some', Option.some.injEq] at hs
      subst hs
      exact spendsBudget_trans ctx c _ 0 0 hd
        (spendsBudget_TryStartTransmission
          { (c.pSecState.OnTransmitResult c success).1 with
            pSecState := (c.pSecState.OnTransmitResult c success).2 })
  | OnFrame now header userdata =>
    simp only [step, LinkLayer.OnFrame] at hs
    simp only [Event.isNackRetry]
    split_ifs at hs with h1 h2
    · simp only [Option.map_some', Option.some.injEq] at hs; subst hs
      simp only [Bool.not_eq_true'] at h1
      simp only [h1, Bool.false_and, Bool.false_eq_true, if_false]
      exact spendsBudget_refl ctx
    · simp only [Option.map_some', Option.some.injEq] at hs; subst hs
      simp only [Bool.not_eq_true'] at h2
      simp only [h2, Bool.false_and, Bool.and_false, Bool.false_eq_true, if_false]
      exact spendsBudget_refl ctx
    · simp only [Bool.not_eq_true', Bool.not_eq_false] at h1 h2
      have h0 : SpendsBudget ctx { ctx with lastMessageTimestamp := now } 0 :=
        spendsBudget_of_fields ctx _ rfl rfl rfl rfl rfl
      split at hs
      · simp at hs
      · next c hc =>
        simp only [Option.map_some', Option.some.injEq] at hs
        subst hs
        obtain ⟨hc1, hc2⟩ := dispatchFrame_inl _ c header userdata hc
        subst hc1
        simp only [hc2, h1, h2]
        exact h0
      · next c hc =>
        simp only [Option.map_some', Option.some.injEq] at hs
        subst hs
        have hd := spendsBudget_dispatchFrame { ctx with lastMessageTimestamp := now } c header
          userdata hc
        have ht := spendsBudget_TryStartTransmission c
        have := spendsBudget_trans _ _ _ _ _ (spendsBudget_trans _ _ _ _ _ h0 hd) ht
        simp only [Nat.zero_add, Nat.add_zero] at this
        simpa [h1, h2, and_assoc] using this
  | OnResponseTimeout =>
    simp only [step, LinkLayer.OnResponseTimeout] at hs
    simp only [Event.isNackRetry, Bool.false_eq_true, if_false]
    have hwf : WellFormed { ctx with rspTimeoutTimer := false } :=
      wellFormed_of_fields ctx _ h rfl rfl rfl rfl
    have h0 : SpendsBudget ctx { ctx with rspTimeoutTimer := false } 0 :=
      spendsBudget_of_fields ctx _ rfl rfl rfl rfl rfl
    split at hs
    · simp at hs
    · next r hr =>
      simp only [Option.some.injEq] at hs
      subst hs
      exact spendsBudget_trans ctx _ _ 0 0 h0
        (spendsBudget_trans _ { r.1 with pPriState := r.2 } _ 0 0
          (spendsBudget_pri_OnTimeout { ctx with rspTimeoutTimer := false } r hwf hr)
          (spendsBudget_TryStartTransmission _))
  | OnKeepAliveTimeout now =>
    simp only [step, Option.some.injEq] at hs
    subst hs
    simp only [Event.isNackRetry, Bool.false_eq_true, if_false]
    unfold LinkLayer.OnKeepAliveTimeout
    refine spendsBudget_trans ctx _ _ 0 0 ?_ (spendsBudget_TryStartTransmission _)
    apply spendsBudget_of_fields <;> split_ifs <;> simp [Action.queuesResetLinkStates]

theorem trace_run (es : List Event) (ctx ctx' : LinkLayer) (hr : run ctx es = some ctx') :
    ctx.trace <+: ctx'.trace := by
  induction es generalizing ctx with
  | nil => simp only [run, Option.some.injEq] at hr; subst hr; exact List.prefix_rfl
  | cons e es ih =>
    simp only [run] at hr
    split at hr
    · simp at hr
    · next c hc => exact (trace_step ctx c e hc).trans (ih c hr)

theorem spendsBudget_run (es : List Event) (ctx : LinkLayer) (h : WellFormed ctx)
    (hp : sendPending ctx es = true) :
    ∃ ctx', run ctx es = some ctx' ∧
      SpendsBudget ctx ctx' ((ctx.config.NumRetry + 1) * nackRetries ctx es) := by
  induction es generalizing ctx with
  | nil => exact ⟨ctx, rfl, by simpa [nackRetries] using spendsBudget_refl ctx⟩
  | cons e es ih =>
    obtain ⟨c, hc⟩ := isSome_step ctx e h
    simp only [sendPending, hc, Bool.and_eq_true] at hp
    obtain ⟨hp1, hp2⟩ := hp
    have hseg : ctx.pSegments ≠ none := by
      intro h0
      simp [h0] at hp1
    have h1 := spendsBudget_step ctx c e h hseg hc
    obtain ⟨ctx', hrun, h2⟩ := ih c (wellFormed_step ctx c e h hc) hp2
    refine ⟨ctx', by simp [run, hc, hrun], ?_⟩
    have h3 := spendsBudget_trans ctx c ctx' _ _ h1 h2
    rw [h1.2] at h3
    simp only [nackRetries, hc]
    split_ifs at h3 ⊢ with hn
    · rw [Nat.mul_add, Nat.mul_one]
      exact h3
    · simpa using h3

theorem spendsBudget_Send (ctx : LinkLayer) (segments : TransportSegment) (h : WellFormed ctx)
    (hnone : ctx.pSegments = none) :
    SpendsBudget ctx (ctx.Send segments) (ctx.config.NumRetry + 1) := by
  unfold LinkLayer.Send LinkLayer.SetTxSegment
  split_ifs with h1 h2
  · exact ⟨by simp only [Bool.false_eq_true, if_false]; omega, rfl⟩
  · exact ⟨by simp only [Bool.false_eq_true, if_false]; omega, rfl⟩
  · have h0 : SpendsBudget ctx { ctx with pSegments := some segments }
        (ctx.config.NumRetry + 1) := by
      revert h
      cases hp : ctx.pPriState <;>
        simp [WellFormed, SpendsBudget, resetBudget, hp, hnone]
    simpa using spendsBudget_trans ctx _ _ _ _ h0 (spendsBudget_TryStartTransmission _)

/-! ## C4 -/

/-- C4, as stated, fails: without retries (`NumRetry = 0`) a single send whose confirmed
data is answered by a NACK queues RESET_LINK_STATES twice, once at the start and once
after the NACK, while the send is still pending and nothing has been reported. -/
theorem reset_link_states_twice_without_retry :
    scenarioNoRetry.config.NumRetry + 1 = 1 ∧
    sendPending (scenarioNoRetry.Send ⟨[7], []⟩)
      [Event.OnTransmitResult true,
        Event.OnFrame 5 (scenarioHeader LinkFunction.SEC_ACK false) [],
        Event.OnTransmitResult true,
        Event.OnFrame 6 (scenarioHeader LinkFunction.SEC_NACK false) []] = true ∧
    (run scenarioNoRetry
      [Event.Send ⟨[7], []⟩, Event.OnTransmitResult true,
        Event.OnFrame 5 (scenarioHeader LinkFunction.SEC_ACK false) [],
        Event.OnTransmitResult true,
        Event.OnFrame 6 (scenarioHeader LinkFunction.SEC_NACK false) []]).map
      (fun c => ((newActions scenarioNoRetry c).countP Action.queuesResetLinkStates,
        postedResults (newActions scenarioNoRetry c), c.isOnline, c.pSegments.isSome)) =
      some (2, [], true, true) := by
  decide

/-- C4, amended: during a single send, from the `Send` that finds no segments pending
and for every sequence of events that all find the segments of that send pending, the
number of RESET_LINK_STATES frames queued is at most `config.NumRetry + 1` times one more
than the number of NACKs without receive-buffer-full handled in `ConfDataWait`: each such
NACK starts the reset handshake again with a full retry budget. -/
theorem reset_link_states_bound (ctx : LinkLayer) (segments : TransportSegment)
    (es : List Event) (hr : Reachable ctx) (hnone : ctx.pSegments = none)
    (hp : sendPending (ctx.Send segments) es = true) :
    ∃ c, run ctx (Event.Send segments :: es) = some c ∧
      (newActions ctx c).countP Action.queuesResetLinkStates ≤
        (ctx.config.NumRetry + 1) * (1 + nackRetries (ctx.Send segments) es) := by
  have hwf := wellFormed_of_reachable ctx hr
  have hwf' : WellFormed (ctx.Send segments) :=
    wellFormed_step ctx _ (Event.Send segments) hwf rfl
  obtain ⟨c, hrun, h2⟩ := spendsBudget_run es (ctx.Send segments) hwf' hp
  have hrun' : run ctx (Event.Send segments :: es) = some c := by
    simpa [run, step] using hrun
  refine ⟨c, hrun', ?_⟩
  have h1 := spendsBudget_Send ctx segments hwf hnone
  obtain ⟨h3, h4⟩ := spendsBudget_trans ctx _ c _ _ h1 h2
  rw [h1.2] at h3
  have hb : resetBudget ctx = 0 := by simp [resetBudget, hnone]
  have hc := countP_newActions Action.queuesResetLinkStates ctx c
    (trace_run _ ctx c hrun')
  rw [Nat.mul_add, Nat.mul_one]
  omega

/-- Witness of C4, amended: the scenario layer without retries and the send of the
counterexample, one NACK: at most two RESET_LINK_STATES frames. -/
theorem reset_link_states_bound_witness :
    Reachable scenarioNoRetry ∧ scenarioNoRetry.pSegments = none ∧
    (run scenarioNoRetry
      [Event.Send ⟨[7], []⟩, Event.OnTransmitResult true,
        Event.OnFrame 5 (scenarioHeader LinkFunction.SEC_ACK false) [],
        Event.OnTransmitResult true,
        Event.OnFrame 6 (scenarioHeader LinkFunction.SEC_NACK false) []]).isSome = true :=
  ⟨⟨{ scenarioConfig with NumRetry := 0 }, 0, [Event.OnLowerLayerUp 0], rfl⟩, rfl, by
    obtain ⟨c, h, -⟩ := reset_link_states_bound scenarioNoRetry ⟨[7], []⟩
      [Event.OnTransmitResult true,
        Event.OnFrame 5 (scenarioHeader LinkFunction.SEC_ACK false) [],
        Event.OnTransmitResult true,
        Event.OnFrame 6 (scenarioHeader LinkFunction.SEC_NACK false) []]
      ⟨{ scenarioConfig with NumRetry := 0 }, 0, [Event.OnLowerLayerUp 0], rfl⟩ rfl
      (by decide)
    rw [h]
    rfl⟩

/-! ## The pump -/

theorem TryStartTransmission_of_idle_after (ctx : LinkLayer)
    (h : ctx.TryStartTransmission.pPriState = PriState.Idle) : ctx.TryStartTransmission = ctx := by
  revert h
  obtain ⟨config, pSegments, txMode, numRetryRemaining, nextReadFCB, nextWriteFCB, isOnline,
    isRemoteReset, keepAliveTimeout, lastMessageTimestamp, pPriState, pSecState, pendingPriTx,
    pendingSecTx, rspTimeoutTimer, keepAliveTimer, trace⟩ := ctx
  cases pPriState <;> cases keepAliveTimeout <;> cases pSegments <;>
    simp [LinkLayer.TryStartTransmission] <;> (try split_ifs) <;> simp

/-! ## C20 -/

/-- C20: `TryStartTransmission` is idempotent, on every context: a second run right after
the first returns the context of the first, trace of calls included, so it queues no
further frame and notifies nobody; and on a context whose primary state is not Idle a run
returns the context itself. -/
theorem tryStartTransmission_idempotent (ctx : LinkLayer) :
    ctx.TryStartTransmission.TryStartTransmission = ctx.TryStartTransmission ∧
    (ctx.pPriState ≠ PriState.Idle → ctx.TryStartTransmission = ctx) := by
  refine ⟨?_, TryStartTransmission_of_not_idle ctx⟩
  by_cases h2 : ctx.TryStartTransmission.pPriState = PriState.Idle
  · rw [TryStartTransmission_of_idle_after ctx h2, TryStartTransmission_of_idle_after ctx h2]
  · exact TryStartTransmission_of_not_idle _ h2

/-- Witness of C20: the scenario layer with a send in flight, where the primary state is
not Idle. -/
theorem tryStartTransmission_idempotent_witness :
    (scenarioOnline.Send ⟨[7], []⟩).pPriState ≠ PriState.Idle ∧
    (scenarioOnline.Send ⟨[7], []⟩).TryStartTransmission = scenarioOnline.Send ⟨[7], []⟩ :=
  ⟨by decide, (tryStartTransmission_idempotent (scenarioOnline.Send ⟨[7], []⟩)).2 (by decide)⟩

/-! ## C13 -/

/-- Counterexample to C18: the scenario layer whose keep-alive timer expired and which
then accepted a `Send` is reachable, holds the segments of that send, and its primary
state is RequestLinkStatusTransmitWait, none of the five states of a send. -/
theorem segments_pending_during_keep_alive :
    Reachable scenarioKeepAliveSend ∧ scenarioKeepAliveSend.pSegments = some ⟨[7], []⟩ ∧
    scenarioKeepAliveSend.pPriState = PriState.RequestLinkStatusTransmitWait :=
  ⟨⟨scenarioConfig, 0,
    [Event.OnLowerLayerUp 0, Event.OnKeepAliveTimeout 60000, Event.Send ⟨[7], []⟩], rfl⟩,
    rfl, rfl⟩

/-- C18, amended: in every context reachable between events, `pSegments` is non-null only
if the primary state is not Idle: one of the five states of a send or one of the two
keep-alive states. -/
theorem segments_only_outside_idle (ctx : LinkLayer) (h : Reachable ctx)
    (hs : ctx.pSegments ≠ none) :
    ctx.pPriState ∈ [PriState.SendUnconfirmedTransmitWait, PriState.LinkResetTransmitWait,
      PriState.ResetLinkWait, PriState.ConfUserDataTransmitWait, PriState.ConfDataWait,
      PriState.RequestLinkStatusTransmitWait, PriState.RequestLinkStatusWait] := by
  have hwf := wellFormed_of_reachable ctx h
  revert hwf hs
  cases hp : ctx.pPriState <;> simp [WellFormed, hp]
  intro h1 h2
  exact absurd h2 h1

/-- Witness of C18, amended: the context of the counterexample. -/
theorem segments_only_outside_idle_witness :
    Reachable scenarioKeepAliveSend ∧ scenarioKeepAliveSend.pSegments ≠ none ∧
    scenarioKeepAliveSend.pPriState ∈
      [PriState.SendUnconfirmedTransmitWait, PriState.LinkResetTransmitWait,
        PriState.ResetLinkWait, PriState.ConfUserDataTransmitWait, PriState.ConfDataWait,
        PriState.RequestLinkStatusTransmitWait, PriState.RequestLinkStatusWait] :=
  ⟨⟨scenarioConfig, 0,
    [Event.OnLowerLayerUp 0, Event.OnKeepAliveTimeout 60000, Event.Send ⟨[7], []⟩], rfl⟩,
    by decide,
    segments_only_outside_idle scenarioKeepAliveSend
      ⟨scenarioConfig, 0,
        [Event.OnLowerLayerUp 0, Event.OnKeepAliveTimeout 60000, Event.Send ⟨[7], []⟩], rfl⟩
      (by decide)⟩

/-! ## C17 -/

/-- Counterexample to C17: the scenario layer waits for the answer to confirmed data with
the peer recorded as reset; a NACK arrives, with the receive-buffer-full bit or without
it: the listener is told UNRESET and `isRemoteReset` is still true. -/
theorem nack_keeps_remote_reset :
    Reachable scenarioConfDataWait ∧
    scenarioConfDataWait.pPriState = PriState.ConfDataWait ∧
    scenarioConfDataWait.isRemoteReset = true ∧
    step scenarioConfDataWait
      (Event.OnFrame 7 (scenarioHeader LinkFunction.SEC_NACK true) []) =
        some (scenarioNacked true) ∧
    step scenarioConfDataWait
      (Event.OnFrame 7 (scenarioHeader LinkFunction.SEC_NACK false) []) =
        some (scenarioNacked false) ∧
    (scenarioNacked true).isRemoteReset = true ∧
    (scenarioNacked false).isRemoteReset = true ∧
    Action.OnStateChange LinkStatus.UNRESET ∈ newActions scenarioConfDataWait (scenarioNacked true) ∧
    Action.OnStateChange LinkStatus.UNRESET ∈
      newActions scenarioConfDataWait (scenarioNacked false) :=
  ⟨⟨scenarioConfig, 0,
    [Event.OnLowerLayerUp 0, Event.Send ⟨[7], []⟩, Event.OnTransmitResult true,
      Event.OnFrame 5 (scenarioHeader LinkFunction.SEC_ACK false) [],
      Event.OnTransmitResult true,
      Event.OnFrame 6 (scenarioHeader LinkFunction.SEC_ACK false) [],
      Event.Send ⟨[8], []⟩, Event.OnTransmitResult true], rfl⟩,
    rfl, rfl, rfl, rfl, rfl, rfl, by decide, by decide⟩

/-! ## C12 -/

/-- Counterexample to C12: the scenario layer, offline after `OnLowerLayerDown`, runs
`OnKeepAliveTimeout` at time 60000: still offline, it moves `lastMessageTimestamp`,
re-arms the keep-alive timer, queues REQUEST_LINK_STATUS, hands it to `BeginTransmit`,
notifies `OnKeepAliveInitiated` and leaves Idle. -/
theorem stale_keep_alive_timeout_runs :
    Reachable scenarioOffline ∧ scenarioOffline.isOnline = false ∧
    scenarioOffline.pPriState = PriState.Idle ∧ scenarioOffline.lastMessageTimestamp = 0 ∧
    step scenarioOffline (Event.OnKeepAliveTimeout 60000) =
      some { scenarioOffline with
        pPriState := PriState.RequestLinkStatusTransmitWait
        txMode := LinkTransmitMode.Primary
        lastMessageTimestamp := 60000
        keepAliveTimer := some 120000
        trace := scenarioOffline.trace ++
          [Action.StartKeepAliveTimer 120000,
            Action.QueueTransmit (Frame.RequestLinkStatus true 1024 1) true,
            Action.BeginTransmit (Frame.RequestLinkStatus true 1024 1),
            Action.OnKeepAliveInitiated] } :=
  ⟨⟨scenarioConfig, 0, [Event.OnLowerLayerUp 0, Event.OnLowerLayerDown], rfl⟩,
    rfl, rfl, rfl, rfl⟩

/-- C12, amended: on the context left by `OnLowerLayerDown` of an online layer, a stale
`OnResponseTimeout` changes nothing; a stale `OnKeepAliveTimeout` at time `now` is not
ignored: when less than the keep-alive period has elapsed since `lastMessageTimestamp`
it re-arms the keep-alive timer and changes nothing else, and when the period has elapsed
it sets `lastMessageTimestamp` to `now`, re-arms the timer, queues REQUEST_LINK_STATUS,
hands it to `BeginTransmit`, notifies `OnKeepAliveInitiated` and enters
RequestLinkStatusTransmitWait with `txMode` Primary, the layer still offline. -/
theorem stale_timers_after_down (ctx : LinkLayer) (now : Int) (h : ctx.isOnline = true) :
    step ctx.OnLowerLayerDown.1 Event.OnResponseTimeout = some ctx.OnLowerLayerDown.1 ∧
    (wrapInt64 (now - ctx.lastMessageTimestamp) < ctx.config.KeepAliveTimeout →
      step ctx.OnLowerLayerDown.1 (Event.OnKeepAliveTimeout now) =
        some (ctx.OnLowerLayerDown.1.StartKeepAliveTimer
          (wrapInt64 (ctx.lastMessageTimestamp + ctx.config.KeepAliveTimeout)))) ∧
    (ctx.config.KeepAliveTimeout ≤ wrapInt64 (now - ctx.lastMessageTimestamp) →
      step ctx.OnLowerLayerDown.1 (Event.OnKeepAliveTimeout now) =
        some { ctx.OnLowerLayerDown.1 with
          pPriState := PriState.RequestLinkStatusTransmitWait
          txMode := LinkTransmitMode.Primary
          lastMessageTimestamp := now
          keepAliveTimer := some (wrapInt64 (now + ctx.config.KeepAliveTimeout))
          trace := ctx.OnLowerLayerDown.1.trace ++
            [Action.StartKeepAliveTimer (wrapInt64 (now + ctx.config.KeepAliveTimeout)),
              Action.QueueTransmit
                (Frame.RequestLinkStatus ctx.config.IsMaster ctx.config.RemoteAddr
                  ctx.config.LocalAddr) true,
              Action.BeginTransmit
                (Frame.RequestLinkStatus ctx.config.IsMaster ctx.config.RemoteAddr
                  ctx.config.LocalAddr),
              Action.OnKeepAliveInitiated] }) := by
  refine ⟨?_, ?_, ?_⟩
  · simp [step, LinkLayer.OnLowerLayerDown, h, LinkLayer.OnResponseTimeout,
      LinkLayer.TryStartTransmission]
  · intro h1
    have h2 : ¬ ctx.config.KeepAliveTimeout ≤ wrapInt64 (now - ctx.lastMessageTimestamp) :=
      not_le.mpr h1
    simp [step, LinkLayer.OnLowerLayerDown, h, LinkLayer.OnKeepAliveTimeout,
      LinkLayer.TryStartTransmission, h2]
  · intro h1
    simp [step, LinkLayer.OnLowerLayerDown, h, LinkLayer.OnKeepAliveTimeout,
      LinkLayer.TryStartTransmission, h1, LinkLayer.QueueTransmit]

/-- Witness of C12, amended: the scenario layer, taken offline, at the times 5 and
60000. -/
theorem stale_timers_after_down_witness :
    scenarioOnline.isOnline = true ∧
    step scenarioOnline.OnLowerLayerDown.1 Event.OnResponseTimeout =
      some scenarioOnline.OnLowerLayerDown.1 ∧
    (step scenarioOnline.OnLowerLayerDown.1 (Event.OnKeepAliveTimeout 5)).map
      LinkLayer.pPriState = some PriState.Idle ∧
    (step scenarioOnline.OnLowerLayerDown.1 (Event.OnKeepAliveTimeout 60000)).map
      LinkLayer.pPriState = some PriState.RequestLinkStatusTransmitWait := by
  have h := stale_timers_after_down scenarioOnline 5 rfl
  have h2 := stale_timers_after_down scenarioOnline 60000 rfl
  refine ⟨rfl, h.1, ?_, ?_⟩
  · rw [h.2.1 (by decide)]; rfl
  · rw [h2.2.2 (by decide)]; rfl

/-! ## The transmit arbiter -/

theorem begunFrames_append (l1 l2 : List Action) :
    begunFrames (l1 ++ l2) = begunFrames l1 ++ begunFrames l2 := by
  induction l1 with
  | nil => rfl
  | cons a l ih => cases a <;> simp [begunFrames, ih]

theorem begunFrames_ite (c : Prop) [Decidable c] (l1 l2 : List Action) :
    begunFrames (if c then l1 else l2) = if c then begunFrames l1 else begunFrames l2 := by
  split_ifs <;> rfl

theorem length_ite (c : Prop) [Decidable c] (l1 l2 : List Frame) :
    (if c then l1 else l2).length = if c then l1.length else l2.length := by
  split_ifs <;> rfl

theorem arbiterKept_refl (ctx : LinkLayer) : ArbiterKept ctx ctx :=
  ⟨id, rfl⟩

theorem arbiterKept_trans (c1 c2 c3 : LinkLayer) (h1 : ArbiterKept c1 c2)
    (h2 : ArbiterKept c2 c3) : ArbiterKept c1 c3 := by
  obtain ⟨a1, b1⟩ := h1
  obtain ⟨a2, b2⟩ := h2
  exact ⟨fun h => a2 (a1 h), by omega⟩

theorem arbiterKept_of_fields (ctx ctx' : LinkLayer) (h1 : ctx'.txMode = ctx.txMode)
    (h2 : ctx'.pendingPriTx = ctx.pendingPriTx) (h3 : ctx'.pendingSecTx = ctx.pendingSecTx)
    (h4 : begunFrames ctx'.trace = begunFrames ctx.trace) : ArbiterKept ctx ctx' := by
  simp [ArbiterKept, NothingStored, wireBusy, h1, h2, h3, h4]

theorem arbiterKept_TryStartTransmission (ctx : LinkLayer) :
    ArbiterKept ctx ctx.TryStartTransmission := by
  obtain ⟨config, pSegments, txMode, numRetryRemaining, nextReadFCB, nextWriteFCB, isOnline,
    isRemoteReset, keepAliveTimeout, lastMessageTimestamp, pPriState, pSecState, pendingPriTx,
    pendingSecTx, rspTimeoutTimer, keepAliveTimer, trace⟩ := ctx
  cases pPriState <;> cases keepAliveTimeout <;> cases pSegments <;> cases txMode <;>
    simp [ArbiterKept, NothingStored, wireBusy, LinkLayer.TryStartTransmission,
      begunFrames_append, begunFrames] <;>
    (try split_ifs) <;> simp_all [begunFrames_append, begunFrames]

theorem arbiterKept_pri_OnTransmitResult (ctx : LinkLayer) (success : Bool)
    (r : LinkLayer × PriState) (hr : ctx.pPriState.OnTransmitResult ctx success = some r) :
    ArbiterKept ctx { r.1 with pPriState := r.2 } := by
  revert r
  obtain ⟨config, pSegments, txMode, numRetryRemaining, nextReadFCB, nextWriteFCB, isOnline,
    isRemoteReset, keepAliveTimeout, lastMessageTimestamp, pPriState, pSecState, pendingPriTx,
    pendingSecTx, rspTimeoutTimer, keepAliveTimer, trace⟩ := ctx
  cases pPriState <;> cases success <;> cases pSegments <;> cases txMode <;>
    simp [ArbiterKept, NothingStored, wireBusy, begunFrames_append, begunFrames] <;>
    (try split_ifs) <;> simp_all [begunFrames_append, begunFrames]

theorem arbiterKept_pri_OnTimeout (ctx : LinkLayer)
    (r : LinkLayer × PriState) (hr : ctx.pPriState.OnTimeout ctx = some r) :
    ArbiterKept ctx { r.1 with pPriState := r.2 } := by
  revert r
  obtain ⟨config, pSegments, txMode, numRetryRemaining, nextReadFCB, nextWriteFCB, isOnline,
    isRemoteReset, keepAliveTimeout, lastMessageTimestamp, pPriState, pSecState, pendingPriTx,
    pendingSecTx, rspTimeoutTimer, keepAliveTimer, trace⟩ := ctx
  cases pPriState <;> cases pSegments <;> cases txMode <;>
    simp [ArbiterKept, NothingStored, wireBusy, begunFrames_append, begunFrames] <;>
    (try split_ifs) <;> simp_all [begunFrames_append, begunFrames]

theorem arbiterKept_dispatchFrame (ctx c : LinkLayer) (header : LinkHeaderFields)
    (userdata : List Nat) (hr : ctx.dispatchFrame header userdata = some (Sum.inr c)) :
    ArbiterKept ctx c := by
  revert c
  obtain ⟨config, pSegments, txMode, numRetryRemaining, nextReadFCB, nextWriteFCB, isOnline,
    isRemoteReset, keepAliveTimeout, lastMessageTimestamp, pPriState, pSecState, pendingPriTx,
    pendingSecTx, rspTimeoutTimer, keepAliveTimer, trace⟩ := ctx
  obtain ⟨func, isFromMaster, fcb, fcvdfc, dest, src⟩ := header
  cases func
  iterate 5
    cases pSecState <;> cases txMode <;>
      simp [ArbiterKept, NothingStored, wireBusy, LinkLayer.dispatchFrame, begunFrames_append,
        begunFrames] <;>
      (try split_ifs) <;> simp_all [begunFrames_append, begunFrames]
  all_goals
    cases pPriState <;> cases pSegments <;>
    simp [ArbiterKept, NothingStored, wireBusy, LinkLayer.dispatchFrame, begunFrames_append,
      begunFrames] <;>
    (try split_ifs) <;> simp_all [begunFrames_append, begunFrames]

theorem arbiter_drain (ctx : LinkLayer) (h : ctx.txMode ≠ LinkTransmitMode.Idle) :
    NothingStored
      ((({ ctx with txMode := LinkTransmitMode.Idle }).TryPendingTx false).1.TryPendingTx true).1 ∧
    (begunFrames ((({ ctx with txMode := LinkTransmitMode.Idle }).TryPendingTx
        false).1.TryPendingTx true).1.trace).length + wireBusy ctx =
      (begunFrames ctx.trace).length +
        wireBusy ((({ ctx with txMode := LinkTransmitMode.Idle }).TryPendingTx
          false).1.TryPendingTx true).1 + 1 := by
  revert h
  obtain ⟨config, pSegments, txMode, numRetryRemaining, nextReadFCB, nextWriteFCB, isOnline,
    isRemoteReset, keepAliveTimeout, lastMessageTimestamp, pPriState, pSecState, pendingPriTx,
    pendingSecTx, rspTimeoutTimer, keepAliveTimer, trace⟩ := ctx
  cases pendingSecTx <;> cases pendingPriTx <;> cases txMode <;>
    simp [LinkLayer.TryPendingTx, NothingStored, wireBusy, begunFrames_append, begunFrames]

theorem arbiter_step (ctx ctx' : LinkLayer) (e : Event) (hs : step ctx e = some ctx') :
    (NothingStored ctx → NothingStored ctx') ∧
    (begunFrames ctx'.trace).length + wireBusy ctx =
      (begunFrames ctx.trace).length + wireBusy ctx' +
        (if e.isAcceptedResult ctx = true then 1 else 0) +
        (if e.abandonsTransmission ctx = true then 1 else 0) := by
  have key : ∀ c : LinkLayer, ArbiterKept ctx c →
      (NothingStored ctx → NothingStored c) ∧
      (begunFrames c.trace).length + wireBusy ctx =
        (begunFrames ctx.trace).length + wireBusy c + 0 + 0 := fun c h => ⟨h.1, by
      have := h.2; omega⟩
  cases e with
  | Send segments =>
    simp only [step, Option.some.injEq] at hs
    subst hs
    simp only [Event.isAcceptedResult, Event.abandonsTransmission, Bool.false_eq_true, if_false]
    apply key
    unfold LinkLayer.Send LinkLayer.SetTxSegment
    split_ifs with h1 h2 <;> try (first | exact arbiterKept_refl ctx | simp at *)
    exact arbiterKept_trans ctx { ctx with pSegments := some segments } _
      (arbiterKept_of_fields _ _ rfl rfl rfl rfl) (arbiterKept_TryStartTransmission _)
  | OnLowerLayerUp now =>
    simp only [step, Option.some.injEq] at hs
    subst hs
    simp only [Event.isAcceptedResult, Event.abandonsTransmission, Bool.false_eq_true, if_false]
    apply key
    unfold LinkLayer.OnLowerLayerUp
    split_ifs
    · exact arbiterKept_refl ctx
    · apply arbiterKept_of_fields <;> simp [begunFrames_append, begunFrames]
  | OnLowerLayerDown =>
    simp only [step, Option.some.injEq] at hs
    subst hs
    simp only [Event.isAcceptedResult, Event.abandonsTransmission, Bool.false_eq_true, if_false]
    unfold LinkLayer.OnLowerLayerDown
    by_cases ho : ctx.isOnline = true <;> by_cases hm : ctx.txMode = LinkTransmitMode.Idle <;>
      simp [NothingStored, wireBusy, begunFrames_append, begunFrames, ho, hm]
  | OnTransmitResult success =>
    simp only [step, LinkLayer.OnTransmitResult] at hs
    simp only [Event.isAcceptedResult, Event.abandonsTransmission, Bool.false_eq_true, if_false]
    by_cases h1 : ctx.txMode = LinkTransmitMode.Idle
    · simp only [h1, if_true, Option.map_some', Option.some.injEq] at hs
      subst hs
      simp [h1]
    · have hd := arbiter_drain ctx h1
      simp only [h1, if_false] at hs
      generalize ((({ ctx with txMode := LinkTransmitMode.Idle }).TryPendingTx false).1.TryPendingTx
        true).1 = c at hd hs
      have fin : ∀ c2 : LinkLayer, ArbiterKept c c2 →
          (NothingStored ctx → NothingStored c2) ∧
          (begunFrames c2.trace).length + wireBusy ctx =
            (begunFrames ctx.trace).length + wireBusy c2 +
              (if decide (ctx.txMode ≠ LinkTransmitMode.Idle) = true then 1 else 0) + 0 := by
        intro c2 h2
        refine ⟨fun _ => h2.1 hd.1, ?_⟩
        have := h2.2
        have := hd.2
        simp only [ne_eq, h1, not_false_eq_true, decide_True, if_true]
        omega
      split_ifs at hs with h2
      · split at hs
        · simp at hs
        · next r hr =>
          simp only [Option.map_some', Option.some.injEq] at hs
          subst hs
          exact fin _ (arbiterKept_trans c { r.1 with pPriState := r.2 } _
            (arbiterKept_pri_OnTransmitResult c success r hr)
            (arbiterKept_TryStartTransmission _))
      · simp only [Option.map_some', Option.some.injEq] at hs
        subst hs
        exact fin _ (arbiterKept_trans c
          { (c.pSecState.OnTransmitResult c success).1 with
            pSecState := (c.pSecState.OnTransmitResult c success).2 } _
          (arbiterKept_of_fields _ _ (by simp) (by simp) (by simp) (by simp))
          (arbiterKept_TryStartTransmission _))
  | OnFrame now header userdata =>
    simp only [step, LinkLayer.OnFrame] at hs
    simp only [Event.isAcceptedResult, Event.abandonsTransmission, Bool.false_eq_true, if_false]
    apply key
    split_ifs at hs with h1 h2
    · simp only [Option.map_some', Option.some.injEq] at hs; subst hs
      exact arbiterKept_refl ctx
    · simp only [Option.map_some', Option.some.injEq] at hs; subst hs
      exact arbiterKept_refl ctx
    · have h0 : ArbiterKept ctx { ctx with lastMessageTimestamp := now } :=
        arbiterKept_of_fields ctx _ rfl rfl rfl rfl
      split at hs
      · simp at hs
      · next c hc =>
        simp only [Option.map_some', Option.some.injEq] at hs
        subst hs
        rw [(dispatchFrame_inl _ c header userdata hc).1]
        exact h0
      · next c hc =>
        simp only [Option.map_some', Option.some.injEq] at hs
        subst hs
        exact arbiterKept_trans ctx _ _ h0
          (arbiterKept_trans _ c _ (arbiterKept_dispatchFrame _ c header userdata hc)
            (arbiterKept_TryStartTransmission c))
  | OnResponseTimeout =>
    simp only [step, LinkLayer.OnResponseTimeout] at hs
    simp only [Event.isAcceptedResult, Event.abandonsTransmission, Bool.false_eq_true, if_false]
    apply key
    have h0 : ArbiterKept ctx { ctx with rspTimeoutTimer := false } :=
      arbiterKept_of_fields ctx _ rfl rfl rfl rfl
    split at hs
    · simp at hs
    · next r hr =>
      simp only [Option.some.injEq] at hs
      subst hs
      exact arbiterKept_trans ctx _ _ h0
        (arbiterKept_trans _ { r.1 with pPriState := r.2 } _
          (arbiterKept_pri_OnTimeout _ r hr) (arbiterKept_TryStartTransmission _))
  | OnKeepAliveTimeout now =>
    simp only [step, Option.some.injEq] at hs
    subst hs
    simp only [Event.isAcceptedResult, Event.abandonsTransmission, Bool.false_eq_true, if_false]
    apply key
    unfold LinkLayer.OnKeepAliveTimeout
    refine arbiterKept_trans ctx _ _ ?_ (arbiterKept_TryStartTransmission _)
    apply arbiterKept_of_fields <;> simp only [LinkLayer.StartKeepAliveTimer, LinkLayer.emit] <;>
      split_ifs <;> simp [begunFrames_append, begunFrames]

theorem nothingStored_new (config : LinkConfig) (now : Int) :
    NothingStored (LinkLayer.new config now) := by
  simp [NothingStored, LinkLayer.new]

theorem nothingStored_run (es : List Event) (ctx ctx' : LinkLayer) (h : NothingStored ctx)
    (hr : run ctx es = some ctx') : NothingStored ctx' := by
  induction es generalizing ctx with
  | nil => simp only [run, Option.some.injEq] at hr; subst hr; exact h
  | cons e es ih =>
    simp only [run] at hr
    split at hr
    · simp at hr
    · next c hc => exact ih c ((arbiter_step ctx c e hc).1 h) hr

theorem nothingStored_of_reachable (ctx : LinkLayer) (h : Reachable ctx) : NothingStored ctx := by
  obtain ⟨config, now, es, hr⟩ := h
  exact nothingStored_run es _ ctx (nothingStored_new config now) hr

theorem isSome_run (es : List Event) (ctx : LinkLayer) (h : WellFormed ctx) :
    ∃ ctx', run ctx es = some ctx' := by
  induction es generalizing ctx with
  | nil => exact ⟨ctx, rfl⟩
  | cons e es ih =>
    obtain ⟨c, hc⟩ := isSome_step ctx e h
    obtain ⟨c2, hc2⟩ := ih c (wellFormed_step ctx c e h hc)
    exact ⟨c2, by simp [run, hc, hc2]⟩

theorem arbiter_run (es : List Event) (ctx ctx' : LinkLayer) (hr : run ctx es = some ctx') :
    (begunFrames ctx'.trace).length + wireBusy ctx =
      (begunFrames ctx.trace).length + wireBusy ctx' + acceptedResults ctx es +
        abandonedTransmissions ctx es := by
  induction es generalizing ctx with
  | nil =>
    simp only [run, Option.some.injEq] at hr
    subst hr
    simp [acceptedResults, abandonedTransmissions]
  | cons e es ih =>
    simp only [run] at hr
    split at hr
    · simp at hr
    · next c hc =>
      have h1 := (arbiter_step ctx c e hc).2
      have h2 := ih c hr
      simp only [acceptedResults, abandonedTransmissions, hc]
      omega

theorem begunFrames_newActions (ctx ctx' : LinkLayer) (h : ctx.trace <+: ctx'.trace) :
    (begunFrames ctx'.trace).length =
      (begunFrames ctx.trace).length + (begunFrames (newActions ctx ctx')).length := by
  conv_lhs => rw [trace_eq_append_newActions ctx ctx' h]
  rw [begunFrames_append, List.length_append]

/-! ## C16 -/

/-- C16: `QueueTransmit` with `txMode` Idle hands the buffer to `BeginTransmit`, sets
`txMode` to Primary or Secondary by its flag and stores nothing; with `txMode` not Idle
it makes no call of `BeginTransmit`, leaves `txMode` alone and writes the pending slot of
its own role only.  In every reachable context, `txMode` Idle implies that both pending
slots are empty. -/
theorem buffer_stored_only_when_busy (ctx : LinkLayer) (buffer : Frame) (primary : Bool) :
    (ctx.txMode = LinkTransmitMode.Idle →
      ctx.QueueTransmit buffer primary =
        { ctx with
          txMode := if primary then LinkTransmitMode.Primary else LinkTransmitMode.Secondary
          trace := ctx.trace ++
            [Action.QueueTransmit buffer primary, Action.BeginTransmit buffer] }) ∧
    (ctx.txMode ≠ LinkTransmitMode.Idle →
      ctx.QueueTransmit buffer primary =
        if primary then
          { ctx with
            pendingPriTx := some buffer
            trace := ctx.trace ++ [Action.QueueTransmit buffer primary] }
        else
          { ctx with
            pendingSecTx := some buffer
            trace := ctx.trace ++ [Action.QueueTransmit buffer primary] }) ∧
    (Reachable ctx → ctx.txMode = LinkTransmitMode.Idle →
      ctx.pendingPriTx = none ∧ ctx.pendingSecTx = none) := by
  refine ⟨?_, ?_, fun h => nothingStored_of_reachable ctx h⟩
  · intro h
    simp [LinkLayer.QueueTransmit, h]
  · intro h
    cases primary <;> simp [LinkLayer.QueueTransmit, h]

/-- Witness of C16: the scenario layer, online with the wire free, and the same layer
with a send on the wire. -/
theorem buffer_stored_only_when_busy_witness :
    scenarioOnline.txMode = LinkTransmitMode.Idle ∧
    (scenarioOnline.QueueTransmit (Frame.Ack true false 1024 1) false).txMode =
      LinkTransmitMode.Secondary ∧
    (scenarioOnline.Send ⟨[7], []⟩).txMode ≠ LinkTransmitMode.Idle ∧
    ((scenarioOnline.Send ⟨[7], []⟩).QueueTransmit (Frame.Ack true false 1024 1)
      false).pendingSecTx = some (Frame.Ack true false 1024 1) ∧
    Reachable scenarioOnline ∧
    (scenarioOnline.pendingPriTx = none ∧ scenarioOnline.pendingSecTx = none) := by
  have h1 := (buffer_stored_only_when_busy scenarioOnline (Frame.Ack true false 1024 1) false).1
    rfl
  have h2 := (buffer_stored_only_when_busy (scenarioOnline.Send ⟨[7], []⟩)
    (Frame.Ack true false 1024 1) false).2.1 (by decide)
  have h3 := (buffer_stored_only_when_busy scenarioOnline (Frame.Ack true false 1024 1)
    false).2.2 reachable_scenarioOnline rfl
  refine ⟨rfl, ?_, by decide, ?_, reachable_scenarioOnline, h3⟩
  · rw [h1]; rfl
  · rw [h2]; rfl

/-! ## C11 -/

/-- Counterexample to C11: the scenario layer goes online, starts a send and goes offline
before the transmission completes.  `txMode` is Idle again although the one frame handed
to `BeginTransmit` never had a completion accepted; after the layer goes online again,
a second send hands a second frame to `BeginTransmit`, still with no completion
accepted. -/
theorem transmission_outstanding_after_down :
    (run (LinkLayer.new scenarioConfig 0) abandonedSend).map LinkLayer.txMode =
      some LinkTransmitMode.Idle ∧
    (run (LinkLayer.new scenarioConfig 0) abandonedSend).map (fun c => begunFrames c.trace) =
      some [Frame.ResetLinkStates true 1024 1] ∧
    acceptedResults (LinkLayer.new scenarioConfig 0) abandonedSend = 0 ∧
    (run (LinkLayer.new scenarioConfig 0)
      (abandonedSend ++ [Event.OnLowerLayerUp 1, Event.Send ⟨[8], []⟩])).map
        (fun c => begunFrames c.trace) =
      some [Frame.ResetLinkStates true 1024 1, Frame.ResetLinkStates true 1024 1] ∧
    acceptedResults (LinkLayer.new scenarioConfig 0)
      (abandonedSend ++ [Event.OnLowerLayerUp 1, Event.Send ⟨[8], []⟩]) = 0 :=
  ⟨rfl, rfl, rfl, rfl, rfl⟩

/-- C11, amended: every event sequence from a newly constructed layer is defined, and in
the context it leads to, the number of frames handed to `BeginTransmit` is the number of
completions accepted, plus the number of transmissions abandoned by `OnLowerLayerDown`,
plus one if `txMode` is not Idle.  So when no transmission was abandoned, `txMode` is
Idle if and only if as many completions were accepted as frames were handed over.  From
that context, every event hands at most one frame to `BeginTransmit`, and an event that
finds `txMode` not Idle and is not an accepted completion hands over none. -/
theorem outstanding_transmissions (config : LinkConfig) (now : Int) (es : List Event) :
    ∃ ctx, run (LinkLayer.new config now) es = some ctx ∧
      (begunFrames ctx.trace).length =
        acceptedResults (LinkLayer.new config now) es +
          abandonedTransmissions (LinkLayer.new config now) es + wireBusy ctx ∧
      (abandonedTransmissions (LinkLayer.new config now) es = 0 →
        (ctx.txMode = LinkTransmitMode.Idle ↔
          (begunFrames ctx.trace).length = acceptedResults (LinkLayer.new config now) es)) ∧
      ∀ e ctx', step ctx e = some ctx' →
        (begunFrames (newActions ctx ctx')).length ≤ 1 ∧
        (ctx.txMode ≠ LinkTransmitMode.Idle → e.isAcceptedResult ctx = false →
          begunFrames (newActions ctx ctx') = []) := by
  obtain ⟨ctx, hr⟩ := isSome_run es _ (wellFormed_new config now)
  have ha := arbiter_run es _ ctx hr
  have h0 : wireBusy (LinkLayer.new config now) = 0 := rfl
  have h1 : (begunFrames (LinkLayer.new config now).trace).length = 0 := rfl
  refine ⟨ctx, hr, by omega, ?_, ?_⟩
  · intro hab
    have hb : wireBusy ctx = 0 ↔ ctx.txMode = LinkTransmitMode.Idle := by
      unfold wireBusy; split_ifs with h <;> simp [h]
    rw [← hb]
    omega
  · intro e ctx' hs
    have hb := begunFrames_newActions ctx ctx' (trace_step ctx ctx' e hs)
    have h := (arbiter_step ctx ctx' e hs).2
    have b1 : wireBusy ctx ≤ 1 := by unfold wireBusy; split_ifs <;> omega
    have b2 : wireBusy ctx' ≤ 1 := by unfold wireBusy; split_ifs <;> omega
    have b3 : ctx.txMode ≠ LinkTransmitMode.Idle → wireBusy ctx = 1 := by
      intro hne; unfold wireBusy; rw [if_neg hne]
    rw [← List.length_eq_zero]
    cases e with
    | OnLowerLayerDown =>
      simp only [step, Option.some.injEq] at hs
      subst hs
      unfold LinkLayer.OnLowerLayerDown
      split_ifs <;> simp [newActions, begunFrames]
    | OnTransmitResult success =>
      simp only [Event.isAcceptedResult, Event.abandonsTransmission, Bool.false_eq_true,
        if_false] at h ⊢
      by_cases hm : ctx.txMode = LinkTransmitMode.Idle
      · simp [hm] at h ⊢
        omega
      · have := b3 hm
        simp [hm] at h ⊢
        omega
    | _ =>
      simp only [Event.isAcceptedResult, Event.abandonsTransmission, Bool.false_eq_true,
        if_false] at h
      refine ⟨by omega, fun hne _ => ?_⟩
      have := b3 hne
      omega

/-- Witness of C11, amended: the scenario layer goes online and starts a send; no
transmission is abandoned, `txMode` is Primary and one frame awaits its completion. -/
theorem outstanding_transmissions_witness :
    abandonedTransmissions (LinkLayer.new scenarioConfig 0)
      [Event.OnLowerLayerUp 0, Event.Send ⟨[7], []⟩] = 0 ∧
    ((scenarioOnline.Send ⟨[7], []⟩).txMode = LinkTransmitMode.Idle ↔
      (begunFrames (scenarioOnline.Send ⟨[7], []⟩).trace).length =
        acceptedResults (LinkLayer.new scenarioConfig 0)
          [Event.OnLowerLayerUp 0, Event.Send ⟨[7], []⟩]) := by
  obtain ⟨c, h, -, h2, -⟩ := outstanding_transmissions scenarioConfig 0
    [Event.OnLowerLayerUp 0, Event.Send ⟨[7], []⟩]
  have hc : c = scenarioOnline.Send ⟨[7], []⟩ := Option.some.inj (h.symm.trans rfl)
  subst hc
  exact ⟨rfl, h2 rfl⟩

/-! ## C15 -/

/-- C15: `OnTransmitResult` with `txMode` Idle returns false and the context unchanged.
With `txMode` not Idle, on a reachable context, it returns true.  Before the dispatch the
pending buffers get the wire, the secondary one first: a pending secondary buffer is
handed to `BeginTransmit`, its slot emptied, `txMode` set to Secondary and the primary
slot kept; only with no secondary buffer pending is a pending primary buffer handed over,
with `txMode` Primary; with neither, `txMode` is Idle; at most one frame is handed over.
The completion goes to the primary machine when `txMode` was Primary and to the secondary
one when it was Secondary, on the drained context.  When the completion of a primary
transmission finds a secondary response pending, that response is the only frame handed
to `BeginTransmit` during the call, whatever the dispatched handler and the pump
queue. -/
theorem onTransmitResult_drains_first (ctx : LinkLayer) (success : Bool) :
    (ctx.txMode = LinkTransmitMode.Idle → ctx.OnTransmitResult success = some (ctx, false)) ∧
    (ctx.txMode ≠ LinkTransmitMode.Idle → Reachable ctx →
      ∃ c, ctx.OnTransmitResult success = some (c, true)) ∧
    (∀ b, ctx.pendingSecTx = some b →
      ctx.drained = { ctx with
        txMode := LinkTransmitMode.Secondary
        pendingSecTx := none
        trace := ctx.trace ++ [Action.BeginTransmit b] }) ∧
    (∀ b, ctx.pendingSecTx = none → ctx.pendingPriTx = some b →
      ctx.drained = { ctx with
        txMode := LinkTransmitMode.Primary
        pendingPriTx := none
        trace := ctx.trace ++ [Action.BeginTransmit b] }) ∧
    (ctx.pendingSecTx = none → ctx.pendingPriTx = none →
      ctx.drained = { ctx with txMode := LinkTransmitMode.Idle }) ∧
    (begunFrames (newActions ctx ctx.drained)).length ≤ 1 ∧
    (ctx.txMode = LinkTransmitMode.Primary →
      ctx.OnTransmitResult success =
        (ctx.drained.pPriState.OnTransmitResult ctx.drained success).map
          (fun r => (({ r.1 with pPriState := r.2 } : LinkLayer).TryStartTransmission, true))) ∧
    (ctx.txMode = LinkTransmitMode.Secondary →
      ctx.OnTransmitResult success =
        some (({ (ctx.drained.pSecState.OnTransmitResult ctx.drained success).1 with
          pSecState := (ctx.drained.pSecState.OnTransmitResult ctx.drained success).2 } :
            LinkLayer).TryStartTransmission, true)) ∧
    (∀ b c, ctx.txMode = LinkTransmitMode.Primary → ctx.pendingSecTx = some b →
      ctx.OnTransmitResult success = some (c, true) →
      begunFrames (newActions ctx c) = [b]) := by
  have hdrain : ∀ b, ctx.pendingSecTx = some b →
      ctx.drained = { ctx with
        txMode := LinkTransmitMode.Secondary
        pendingSecTx := none
        trace := ctx.trace ++ [Action.BeginTransmit b] } := by
    intro b h
    cases h2 : ctx.pendingPriTx <;> simp [LinkLayer.drained, LinkLayer.TryPendingTx, h, h2]
  refine ⟨?_, ?_, hdrain, ?_, ?_, ?_, ?_, ?_, ?_⟩
  · intro h
    simp [LinkLayer.OnTransmitResult, h]
  · intro h hreach
    have hwf : WellFormed ctx.drained :=
      wellFormed_of_fields ctx _ (wellFormed_of_reachable ctx hreach)
        (by simp [LinkLayer.drained]) (by simp [LinkLayer.drained])
        (by simp [LinkLayer.drained]) (by simp [LinkLayer.drained])
    obtain ⟨r, hr⟩ := isSome_pri_OnTransmitResult ctx.drained success hwf
    unfold LinkLayer.drained at hr
    simp only [LinkLayer.OnTransmitResult, h, if_false]
    split_ifs
    · simp only [hr]
      exact ⟨_, rfl⟩
    · exact ⟨_, rfl⟩
  · intro b h1 h2
    simp [LinkLayer.drained, LinkLayer.TryPendingTx, h1, h2]
  · intro h1 h2
    simp [LinkLayer.drained, LinkLayer.TryPendingTx, h1, h2]
  · cases h1 : ctx.pendingSecTx <;> cases h2 : ctx.pendingPriTx <;>
      simp [LinkLayer.drained, LinkLayer.TryPendingTx, h1, h2, newActions, begunFrames]
  · intro h
    simp only [LinkLayer.OnTransmitResult, LinkLayer.drained, h]
    simp only [reduceCtorEq, if_false, decide_True, if_true]
    split <;> simp_all
  · intro h
    simp [LinkLayer.OnTransmitResult, LinkLayer.drained, h]
  · intro b c hm hb hc
    have hs : step ctx (Event.OnTransmitResult success) = some c := by
      simp [step, hc]
    have ha := (arbiter_step ctx c _ hs).2
    have hbusy : wireBusy c ≤ 1 := by unfold wireBusy; split_ifs <;> omega
    have hb1 : wireBusy ctx = 1 := by simp [wireBusy, hm]
    simp only [Event.isAcceptedResult, Event.abandonsTransmission, hm, hb1] at ha
    simp only [reduceCtorEq, if_false, ne_eq, not_false_eq_true, decide_True, if_true,
      Bool.false_eq_true] at ha
    simp only [LinkLayer.OnTransmitResult, hm, reduceCtorEq, if_false, decide_True,
      if_true] at hc
    have hd := hdrain b hb
    unfold LinkLayer.drained at hd
    rw [hd] at hc
    split at hc
    · simp at hc
    · next r hr =>
      simp only [Option.some.injEq, Prod.mk.injEq, and_true] at hc
      have p1 := trace_pri_OnTransmitResult _ success r hr
      have p2 := trace_TryStartTransmission { r.1 with pPriState := r.2 }
      rw [hc] at p2
      obtain ⟨l, hl⟩ := p1.trans p2
      have hl2 : c.trace = ctx.trace ++ (Action.BeginTransmit b :: l) := by
        rw [← hl]; simp
      rw [newActions_of_trace ctx c _ hl2]
      rw [hl2, begunFrames_append] at ha
      simp only [begunFrames, List.length_append, List.length_cons] at ha ⊢
      have : (begunFrames l).length = 0 := by omega
      rw [List.length_eq_zero.mp this]

/-- Witness of C15: the scenario layer with the wire free; with the first segment of an
unconfirmed send on the wire and a LINK_STATUS response pending, where the completion
hands the response to `BeginTransmit` and the next segment has to wait; and with a
response on the wire and a RESET_LINK_STATES frame pending. -/
theorem onTransmitResult_drains_first_witness :
    scenarioOnline.txMode = LinkTransmitMode.Idle ∧
    scenarioOnline.OnTransmitResult true = some (scenarioOnline, false) ∧
    scenarioOnline.drained.txMode = LinkTransmitMode.Idle ∧
    Reachable scenarioSecPending ∧
    scenarioSecPending.txMode = LinkTransmitMode.Primary ∧
    scenarioSecPending.pendingSecTx = some (Frame.LinkStatus true false 1024 1) ∧
    scenarioSecPending.drained.txMode = LinkTransmitMode.Secondary ∧
    (∃ c, scenarioSecPending.OnTransmitResult true = some (c, true) ∧
      begunFrames (newActions scenarioSecPending c) = [Frame.LinkStatus true false 1024 1] ∧
      c.pendingPriTx = some (Frame.UnconfirmedUserData true 1024 1 [8])) ∧
    scenarioPriPending.txMode = LinkTransmitMode.Secondary ∧
    scenarioPriPending.pendingSecTx = none ∧
    scenarioPriPending.pendingPriTx = some (Frame.ResetLinkStates true 1024 1) ∧
    scenarioPriPending.drained.txMode = LinkTransmitMode.Primary ∧
    (scenarioPriPending.OnTransmitResult true).isSome = true := by
  have hreach : Reachable scenarioSecPending :=
    ⟨{ scenarioConfig with UseConfirms := false }, 0,
      [Event.OnLowerLayerUp 0, Event.Send ⟨[7], [[8]]⟩,
        Event.OnFrame 3 (scenarioHeader LinkFunction.PRI_REQUEST_LINK_STATUS false) []], rfl⟩
  obtain ⟨a1, -, -, -, a5, -, -, -, -⟩ := onTransmitResult_drains_first scenarioOnline true
  obtain ⟨-, b2, b3, -, -, -, b7, -, b9⟩ := onTransmitResult_drains_first scenarioSecPending true
  obtain ⟨-, -, -, c4, -, -, -, c8, -⟩ := onTransmitResult_drains_first scenarioPriPending true
  have e2 := a5 rfl rfl
  obtain ⟨c, hc⟩ := b2 (by decide) hreach
  have e3 := b3 _ rfl
  have e4 := b9 _ c rfl rfl hc
  have e5 := b7 rfl
  have e6 := c4 _ rfl rfl
  have e7 := c8 rfl
  refine ⟨rfl, a1 rfl, by rw [e2], hreach, rfl, rfl, by rw [e3], ⟨c, hc, e4, ?_⟩, rfl, rfl, rfl,
    by rw [e6], by rw [e7]; rfl⟩
  have : c = ((scenarioSecPending.OnTransmitResult true).getD (scenarioSecPending, false)).1 := by
    rw [hc]; rfl
  rw [this]
  rfl

/-! ## The response timer -/

theorem timerKept_refl (ctx : LinkLayer) : TimerKept ctx ctx :=
  ⟨id, fun _ h => absurd rfl h⟩

theorem timerKept_of_fields (ctx ctx' : LinkLayer) (h1 : ctx'.pPriState = ctx.pPriState)
    (h2 : ctx'.rspTimeoutTimer = ctx.rspTimeoutTimer) : TimerKept ctx ctx' := by
  simp [TimerKept, ArmedOnlyWaiting, h1, h2]

theorem timerKept_congr (c d x : LinkLayer) (h1 : d.pPriState = c.pPriState)
    (h2 : d.rspTimeoutTimer = c.rspTimeoutTimer) (h : TimerKept d x) : TimerKept c x := by
  simpa [TimerKept, ArmedOnlyWaiting, h1, h2] using h

theorem timerKept_of_disarmed (ctx ctx' : LinkLayer) (h : ctx'.rspTimeoutTimer = false) :
    TimerKept ctx ctx' := by
  simp [TimerKept, ArmedOnlyWaiting, h]

theorem rspTimeoutTimer_TryStartTransmission (ctx : LinkLayer) :
    ctx.TryStartTransmission.rspTimeoutTimer = ctx.rspTimeoutTimer := by
  obtain ⟨config, pSegments, txMode, numRetryRemaining, nextReadFCB, nextWriteFCB, isOnline,
    isRemoteReset, keepAliveTimeout, lastMessageTimestamp, pPriState, pSecState, pendingPriTx,
    pendingSecTx, rspTimeoutTimer, keepAliveTimer, trace⟩ := ctx
  cases pPriState <;> cases keepAliveTimeout <;> cases pSegments <;>
    simp [LinkLayer.TryStartTransmission] <;> (try split_ifs) <;> simp

theorem timerKept_pump (c m : LinkLayer) (h : TimerKept c m) :
    TimerKept c m.TryStartTransmission := by
  by_cases hm : m.pPriState = PriState.Idle
  · have ht := rspTimeoutTimer_TryStartTransmission m
    refine ⟨fun hc => ?_, fun hw _ => ?_⟩
    · have h1 := h.1 hc
      intro h2
      rw [ht] at h2
      have := h1 h2
      rw [hm] at this
      simp [PriState.awaitsReply] at this
    · rw [ht]
      apply h.2 hw
      rw [hm]
      intro h3
      rw [← h3] at hw
      simp [PriState.awaitsReply] at hw
  · rw [TryStartTransmission_of_not_idle m hm]
    exact h

theorem timerKept_pri_OnTransmitResult (ctx : LinkLayer) (success : Bool)
    (r : LinkLayer × PriState) (hr : ctx.pPriState.OnTransmitResult ctx success = some r) :
    TimerKept ctx { r.1 with pPriState := r.2 } := by
  revert r
  obtain ⟨config, pSegments, txMode, numRetryRemaining, nextReadFCB, nextWriteFCB, isOnline,
    isRemoteReset, keepAliveTimeout, lastMessageTimestamp, pPriState, pSecState, pendingPriTx,
    pendingSecTx, rspTimeoutTimer, keepAliveTimer, trace⟩ := ctx
  cases pPriState <;> cases success <;> cases pSegments <;>
    simp [TimerKept, ArmedOnlyWaiting, PriState.awaitsReply] <;>
    (try split_ifs) <;> simp_all [PriState.awaitsReply]

theorem rspTimeoutTimer_pri_OnTimeout (ctx : LinkLayer) (r : LinkLayer × PriState)
    (h : ctx.rspTimeoutTimer = false) (hr : ctx.pPriState.OnTimeout ctx = some r) :
    r.1.rspTimeoutTimer = false := by
  revert r h
  obtain ⟨config, pSegments, txMode, numRetryRemaining, nextReadFCB, nextWriteFCB, isOnline,
    isRemoteReset, keepAliveTimeout, lastMessageTimestamp, pPriState, pSecState, pendingPriTx,
    pendingSecTx, rspTimeoutTimer, keepAliveTimer, trace⟩ := ctx
  cases pPriState <;> cases pSegments <;>
    simp <;> (try split_ifs) <;> simp_all

theorem timerKept_dispatchFrame (ctx c : LinkLayer) (header : LinkHeaderFields)
    (userdata : List Nat) (hr : ctx.dispatchFrame header userdata = some (Sum.inr c)) :
    TimerKept ctx c := by
  revert c
  obtain ⟨config, pSegments, txMode, numRetryRemaining, nextReadFCB, nextWriteFCB, isOnline,
    isRemoteReset, keepAliveTimeout, lastMessageTimestamp, pPriState, pSecState, pendingPriTx,
    pendingSecTx, rspTimeoutTimer, keepAliveTimer, trace⟩ := ctx
  obtain ⟨func, isFromMaster, fcb, fcvdfc, dest, src⟩ := header
  cases func
  iterate 5
    cases pSecState <;>
      simp [TimerKept, ArmedOnlyWaiting, LinkLayer.dispatchFrame] <;>
      (try split_ifs) <;> simp_all
  all_goals
    cases pPriState <;> cases pSegments <;>
    simp [TimerKept, ArmedOnlyWaiting, PriState.awaitsReply, LinkLayer.dispatchFrame] <;>
    (try split_ifs) <;> simp_all [PriState.awaitsReply]

theorem timerKept_step (ctx ctx' : LinkLayer) (e : Event) (hs : step ctx e = some ctx') :
    TimerKept ctx ctx' := by
  cases e with
  | Send segments =>
    simp only [step, Option.some.injEq] at hs
    subst hs
    unfold LinkLayer.Send LinkLayer.SetTxSegment
    split_ifs with h1 h2 <;> try (first | exact timerKept_refl ctx | simp at *)
    exact timerKept_pump ctx _ (timerKept_of_fields _ _ rfl rfl)
  | OnLowerLayerUp now =>
    simp only [step, Option.some.injEq] at hs
    subst hs
    unfold LinkLayer.OnLowerLayerUp
    split_ifs
    · exact timerKept_refl ctx
    · exact timerKept_of_fields _ _ rfl rfl
  | OnLowerLayerDown =>
    simp only [step, Option.some.injEq] at hs
    subst hs
    unfold LinkLayer.OnLowerLayerDown
    split_ifs
    · exact timerKept_refl ctx
    · exact timerKept_of_disarmed _ _ rfl
  | OnTransmitResult success =>
    simp only [step, LinkLayer.OnTransmitResult] at hs
    have e1 : ((({ ctx with txMode := LinkTransmitMode.Idle }).TryPendingTx
        false).1.TryPendingTx true).1.pPriState = ctx.pPriState := by simp
    have e2 : ((({ ctx with txMode := LinkTransmitMode.Idle }).TryPendingTx
        false).1.TryPendingTx true).1.rspTimeoutTimer = ctx.rspTimeoutTimer := by simp
    generalize ((({ ctx with txMode := LinkTransmitMode.Idle }).TryPendingTx false).1.TryPendingTx
      true).1 = c at e1 e2 hs
    split_ifs at hs with h1 h2
    · simp only [Option.map_some', Option.some.injEq] at hs; subst hs
      exact timerKept_refl ctx
    · split at hs
      · simp at hs
      · next r hr =>
        simp only [Option.map_some', Option.some.injEq] at hs
        subst hs
        exact timerKept_pump ctx _
          (timerKept_congr ctx c _ e1 e2 (timerKept_pri_OnTransmitResult c success r hr))
    · simp only [Option.map_some', Option.some.injEq] at hs
      subst hs
      exact timerKept_pump ctx _ (timerKept_of_fields _ _ (by simp [e1]) (by simp [e2]))
  | OnFrame now header userdata =>
    simp only [step, LinkLayer.OnFrame] at hs
    split_ifs at hs with h1 h2
    · simp only [Option.map_some', Option.some.injEq] at hs; subst hs
      exact timerKept_refl ctx
    · simp only [Option.map_some', Option.some.injEq] at hs; subst hs
      exact timerKept_refl ctx
    · split at hs
      · simp at hs
      · next c hc =>
        simp only [Option.map_some', Option.some.injEq] at hs
        subst hs
        rw [(dispatchFrame_inl _ c header userdata hc).1]
        exact timerKept_of_fields _ _ rfl rfl
      · next c hc =>
        simp only [Option.map_some', Option.some.injEq] at hs
        subst hs
        exact timerKept_pump ctx _
          (timerKept_congr ctx { ctx with lastMessageTimestamp := now } c rfl rfl
            (timerKept_dispatchFrame _ c header userdata hc))
  | OnResponseTimeout =>
    simp only [step, LinkLayer.OnResponseTimeout] at hs
    split at hs
    · simp at hs
    · next r hr =>
      simp only [Option.some.injEq] at hs
      subst hs
      apply timerKept_of_disarmed
      rw [rspTimeoutTimer_TryStartTransmission]
      exact rspTimeoutTimer_pri_OnTimeout { ctx with rspTimeoutTimer := false } r rfl hr
  | OnKeepAliveTimeout now =>
    simp only [step, Option.some.injEq] at hs
    subst hs
    unfold LinkLayer.OnKeepAliveTimeout
    apply timerKept_pump
    apply timerKept_of_fields <;> simp only [LinkLayer.StartKeepAliveTimer, LinkLayer.emit] <;>
      split_ifs <;> rfl

theorem armedOnlyWaiting_run (es : List Event) (ctx ctx' : LinkLayer)
    (h : ArmedOnlyWaiting ctx) (hr : run ctx es = some ctx') : ArmedOnlyWaiting ctx' := by
  induction es generalizing ctx with
  | nil => simp only [run, Option.some.injEq] at hr; subst hr; exact h
  | cons e es ih =>
    simp only [run] at hr
    split at hr
    · simp at hr
    · next c hc => exact ih c ((timerKept_step ctx c e hc).1 h) hr

theorem armedOnlyWaiting_of_reachable (ctx : LinkLayer) (h : Reachable ctx) :
    ArmedOnlyWaiting ctx := by
  obtain ⟨config, now, es, hr⟩ := h
  refine armedOnlyWaiting_run es _ ctx ?_ hr
  simp [ArmedOnlyWaiting, LinkLayer.new]

/-! ## C19 -/

/-- C19: with the response timer as an armed flag, in every reachable context the timer
is armed only if the primary state is ResetLinkWait, ConfDataWait or
RequestLinkStatusWait; and every event from such a context is defined, and if it leaves
one of these three states, or ends in Idle, it leaves the timer not armed. -/
theorem response_timer_armed_only_waiting (ctx : LinkLayer) (h : Reachable ctx) :
    (ctx.rspTimeoutTimer = true →
      ctx.pPriState ∈
        [PriState.ResetLinkWait, PriState.ConfDataWait, PriState.RequestLinkStatusWait]) ∧
    ∀ e, ∃ ctx', step ctx e = some ctx' ∧
      (ctx.pPriState ∈
          [PriState.ResetLinkWait, PriState.ConfDataWait, PriState.RequestLinkStatusWait] →
        ctx'.pPriState ≠ ctx.pPriState → ctx'.rspTimeoutTimer = false) ∧
      (ctx'.pPriState = PriState.Idle → ctx'.rspTimeoutTimer = false) := by
  have key : ∀ s : PriState, s.awaitsReply = true ↔
      s ∈ [PriState.ResetLinkWait, PriState.ConfDataWait, PriState.RequestLinkStatusWait] := by
    intro s; cases s <;> simp [PriState.awaitsReply]
  refine ⟨fun ht => (key _).mp (armedOnlyWaiting_of_reachable ctx h ht), fun e => ?_⟩
  obtain ⟨ctx', hs⟩ := isSome_step ctx e (wellFormed_of_reachable ctx h)
  have hk := timerKept_step ctx ctx' e hs
  refine ⟨ctx', hs, fun hw hne => hk.2 ((key _).mpr hw) hne, fun hi => ?_⟩
  have ha := armedOnlyWaiting_of_reachable ctx' (reachable_step ctx ctx' e h hs)
  cases ht : ctx'.rspTimeoutTimer with
  | false => rfl
  | true =>
    have := ha ht
    rw [hi] at this
    simp [PriState.awaitsReply] at this

/-- Witness of C19: the scenario layer waiting for the answer to RESET_LINK_STATES, with
the timer armed; the ACK leaves ResetLinkWait and the timer is not armed afterwards. -/
theorem response_timer_armed_only_waiting_witness :
    Reachable scenarioResetLinkWait ∧ scenarioResetLinkWait.rspTimeoutTimer = true ∧
    scenarioResetLinkWait.pPriState ∈
      [PriState.ResetLinkWait, PriState.ConfDataWait, PriState.RequestLinkStatusWait] ∧
    ∃ ctx', step scenarioResetLinkWait
        (Event.OnFrame 5 (scenarioHeader LinkFunction.SEC_ACK false) []) = some ctx' ∧
      ctx'.pPriState ≠ scenarioResetLinkWait.pPriState ∧ ctx'.rspTimeoutTimer = false := by
  have hreach : Reachable scenarioResetLinkWait :=
    ⟨scenarioConfig, 0,
      [Event.OnLowerLayerUp 0, Event.Send ⟨[7], []⟩, Event.OnTransmitResult true], rfl⟩
  obtain ⟨h1, h2⟩ := response_timer_armed_only_waiting scenarioResetLinkWait hreach
  obtain ⟨c, hs, h3, -⟩ := h2 (Event.OnFrame 5 (scenarioHeader LinkFunction.SEC_ACK false) [])
  have hc : c.pPriState = PriState.ConfUserDataTransmitWait := by
    have : some c.pPriState = some PriState.ConfUserDataTransmitWait := by
      rw [← Option.map_some', ← hs]; rfl
    exact Option.some.inj this
  have hne : c.pPriState ≠ scenarioResetLinkWait.pPriState := by rw [hc]; decide
  exact ⟨hreach, rfl, h1 rfl, c, hs, hne, h3 (h1 rfl) hne⟩

/-! ## C14 -/

theorem keepAliveServiced_pump (m : LinkLayer) (h1 : m.pPriState = PriState.Idle)
    (h2 : m.keepAliveTimeout = true) : KeepAliveServiced m m.TryStartTransmission := by
  revert h1 h2
  obtain ⟨config, pSegments, txMode, numRetryRemaining, nextReadFCB, nextWriteFCB, isOnline,
    isRemoteReset, keepAliveTimeout, lastMessageTimestamp, pPriState, pSecState, pendingPriTx,
    pendingSecTx, rspTimeoutTimer, keepAliveTimer, trace⟩ := m
  cases pSegments <;> cases txMode <;>
    simp [KeepAliveServiced, LinkLayer.TryStartTransmission, newActions, queuedPrimary,
      keepAliveNotices, Action.isKeepAliveNotice] <;>
    intro h1 h2 <;> subst h1 <;> subst h2 <;>
    simp [KeepAliveServiced, LinkLayer.TryStartTransmission, newActions, queuedPrimary,
      keepAliveNotices, Action.isKeepAliveNotice]

theorem keepAliveServiced_congr (m m2 c : LinkLayer) (h1 : m2.pSegments = m.pSegments)
    (h2 : m2.config = m.config) (h3 : m2.trace = m.trace) (h : KeepAliveServiced m2 c) :
    KeepAliveServiced m c := by
  simpa [KeepAliveServiced, newActions, h1, h2, h3] using h

/-- C14: a keep-alive that becomes due during a send is deferred and then serviced.
While the primary state is not Idle, `TryStartTransmission` returns the context itself,
so it queues nothing and leaves a pending keep-alive pending.  When the handler that
`OnResponseTimeout`, `OnTransmitResult` or `OnFrame` dispatches to returns the primary
state to Idle with a keep-alive pending, the call is defined and ends with the
keep-alive started: primary state RequestLinkStatusTransmitWait, no keep-alive pending,
REQUEST_LINK_STATUS the one primary frame queued after the handler,
`OnKeepAliveInitiated` the one keep-alive notification, and the segments of a waiting
send left waiting. -/
theorem keep_alive_deferred_then_serviced (ctx : LinkLayer) :
    (ctx.pPriState ≠ PriState.Idle → ctx.TryStartTransmission = ctx) ∧
    (ctx.pPriState = PriState.Idle → ctx.keepAliveTimeout = true →
      KeepAliveServiced ctx ctx.TryStartTransmission) ∧
    (∀ r, ctx.pPriState.OnTimeout ctx = some r → r.2 = PriState.Idle →
      r.1.keepAliveTimeout = true →
      ∃ c, ctx.OnResponseTimeout = some c ∧ KeepAliveServiced r.1 c) ∧
    (∀ success r, ctx.txMode = LinkTransmitMode.Primary →
      ctx.drained.pPriState.OnTransmitResult ctx.drained success = some r →
      r.2 = PriState.Idle → r.1.keepAliveTimeout = true →
      ∃ c, ctx.OnTransmitResult success = some (c, true) ∧ KeepAliveServiced r.1 c) ∧
    (∀ now header userdata m, ctx.isOnline = true →
      ctx.Validate header.isFromMaster header.src header.dest = true →
      ({ ctx with lastMessageTimestamp := now } : LinkLayer).dispatchFrame header userdata =
        some (Sum.inr m) →
      m.pPriState = PriState.Idle → m.keepAliveTimeout = true →
      ∃ c, ctx.OnFrame now header userdata = some (c, true) ∧ KeepAliveServiced m c) := by
  refine ⟨TryStartTransmission_of_not_idle ctx, keepAliveServiced_pump ctx, ?_, ?_, ?_⟩
  · intro r hr h1 h2
    refine ⟨({ r.1 with pPriState := r.2 } : LinkLayer).TryStartTransmission, ?_, ?_⟩
    · simp only [LinkLayer.OnResponseTimeout, hr]
    · exact keepAliveServiced_congr r.1 { r.1 with pPriState := r.2 } _ rfl rfl rfl
        (keepAliveServiced_pump _ h1 h2)
  · intro success r hm hr h1 h2
    refine ⟨({ r.1 with pPriState := r.2 } : LinkLayer).TryStartTransmission, ?_, ?_⟩
    · unfold LinkLayer.drained at hr
      simp only [LinkLayer.OnTransmitResult, hm, reduceCtorEq, if_false, decide_True, if_true, hr]
    · exact keepAliveServiced_congr r.1 { r.1 with pPriState := r.2 } _ rfl rfl rfl
        (keepAliveServiced_pump _ h1 h2)
  · intro now header userdata m ho hv hd h1 h2
    refine ⟨m.TryStartTransmission, ?_, keepAliveServiced_pump m h1 h2⟩
    unfold LinkLayer.OnFrame
    rw [if_neg (by simp [ho]), if_neg (by simp [hv])]
    simp only [hd]

/-- Witness of C14: the scenario layer whose keep-alive timer expired while it waited
for the answer to confirmed data: the pump leaves the keep-alive pending, and the ACK,
which ends the send, starts it; likewise a failed transmission of confirmed data, and
the final response timeout of a layer without retries. -/
theorem keep_alive_deferred_then_serviced_witness :
    scenarioKeepAliveDeferred.pPriState = PriState.ConfDataWait ∧
    scenarioKeepAliveDeferred.keepAliveTimeout = true ∧
    scenarioKeepAliveDeferred.TryStartTransmission = scenarioKeepAliveDeferred ∧
    KeepAliveServiced { scenarioOnline with keepAliveTimeout := true }
      ({ scenarioOnline with keepAliveTimeout := true } : LinkLayer).TryStartTransmission ∧
    (∃ c, scenarioKeepAliveNoRetry.OnResponseTimeout = some c ∧
      c.pPriState = PriState.RequestLinkStatusTransmitWait) ∧
    (∃ c, scenarioKeepAliveOnWire.OnTransmitResult false = some (c, true) ∧
      c.pPriState = PriState.RequestLinkStatusTransmitWait) ∧
    (∃ c, scenarioKeepAliveDeferred.OnFrame 70001 (scenarioHeader LinkFunction.SEC_ACK false) [] =
        some (c, true) ∧
      c.pPriState = PriState.RequestLinkStatusTransmitWait ∧ c.keepAliveTimeout = false) := by
  obtain ⟨a1, -, -, -, a5⟩ := keep_alive_deferred_then_serviced scenarioKeepAliveDeferred
  obtain ⟨-, b2, -, -, -⟩ :=
    keep_alive_deferred_then_serviced { scenarioOnline with keepAliveTimeout := true }
  obtain ⟨-, -, c3, -, -⟩ := keep_alive_deferred_then_serviced scenarioKeepAliveNoRetry
  obtain ⟨-, -, -, d4, -⟩ := keep_alive_deferred_then_serviced scenarioKeepAliveOnWire
  obtain ⟨c1, e1, f1⟩ := c3 _ rfl rfl rfl
  obtain ⟨c2, e2, f2⟩ := d4 false _ rfl rfl rfl rfl
  obtain ⟨c3, e3, f3⟩ := a5 70001 (scenarioHeader LinkFunction.SEC_ACK false) [] _ rfl rfl rfl
    rfl rfl
  exact ⟨rfl, rfl, a1 (by decide), b2 rfl rfl, ⟨c1, e1, f1.1⟩, ⟨c2, e2, f2.1⟩,
    ⟨c3, e3, f3.1, f3.2.1⟩⟩

/-! ## The flag of the reset peer -/

theorem isRemoteReset_TryStartTransmission (ctx : LinkLayer) :
    ctx.TryStartTransmission.isRemoteReset = ctx.isRemoteReset := by
  obtain ⟨config, pSegments, txMode, numRetryRemaining, nextReadFCB, nextWriteFCB, isOnline,
    isRemoteReset, keepAliveTimeout, lastMessageTimestamp, pPriState, pSecState, pendingPriTx,
    pendingSecTx, rspTimeoutTimer, keepAliveTimer, trace⟩ := ctx
  cases pPriState <;> cases keepAliveTimeout <;> cases pSegments <;>
    simp [LinkLayer.TryStartTransmission] <;> (try split_ifs) <;> simp

theorem isRemoteReset_pri_OnTransmitResult (ctx : LinkLayer) (success : Bool)
    (r : LinkLayer × PriState) (hr : ctx.pPriState.OnTransmitResult ctx success = some r) :
    r.1.isRemoteReset = ctx.isRemoteReset := by
  revert r
  obtain ⟨config, pSegments, txMode, numRetryRemaining, nextReadFCB, nextWriteFCB, isOnline,
    isRemoteReset, keepAliveTimeout, lastMessageTimestamp, pPriState, pSecState, pendingPriTx,
    pendingSecTx, rspTimeoutTimer, keepAliveTimer, trace⟩ := ctx
  cases pPriState <;> cases success <;> cases pSegments <;>
    simp <;> (try split_ifs) <;> simp_all

theorem isRemoteReset_pri_OnTimeout (ctx : LinkLayer) (r : LinkLayer × PriState)
    (hr : ctx.pPriState.OnTimeout ctx = some r) : r.1.isRemoteReset = ctx.isRemoteReset := by
  revert r
  obtain ⟨config, pSegments, txMode, numRetryRemaining, nextReadFCB, nextWriteFCB, isOnline,
    isRemoteReset, keepAliveTimeout, lastMessageTimestamp, pPriState, pSecState, pendingPriTx,
    pendingSecTx, rspTimeoutTimer, keepAliveTimer, trace⟩ := ctx
  cases pPriState <;> cases pSegments <;>
    simp <;> (try split_ifs) <;> simp_all

theorem isRemoteReset_dispatchFrame (ctx c : LinkLayer) (header : LinkHeaderFields)
    (userdata : List Nat) (hr : ctx.dispatchFrame header userdata = some (Sum.inr c)) :
    c.isRemoteReset =
      if header.func = LinkFunction.SEC_ACK ∧ ctx.pPriState = PriState.ResetLinkWait then true
      else ctx.isRemoteReset := by
  revert c
  obtain ⟨config, pSegments, txMode, numRetryRemaining, nextReadFCB, nextWriteFCB, isOnline,
    isRemoteReset, keepAliveTimeout, lastMessageTimestamp, pPriState, pSecState, pendingPriTx,
    pendingSecTx, rspTimeoutTimer, keepAliveTimer, trace⟩ := ctx
  obtain ⟨func, isFromMaster, fcb, fcvdfc, dest, src⟩ := header
  cases func
  iterate 5
    cases pSecState <;> simp [LinkLayer.dispatchFrame] <;> (try split_ifs) <;> simp_all
  all_goals
    cases pPriState <;> cases pSegments <;>
    simp [LinkLayer.dispatchFrame] <;> (try split_ifs) <;> simp_all

theorem isRemoteReset_step (ctx ctx' : LinkLayer) (e : Event) (hs : step ctx e = some ctx') :
    ctx'.isRemoteReset =
      if e.isAckInResetLinkWait ctx = true then true
      else if e.goesOffline ctx = true then false
      else ctx.isRemoteReset := by
  cases e with
  | Send segments =>
    simp only [step, Option.some.injEq] at hs
    subst hs
    simp only [Event.isAckInResetLinkWait, Event.isAccepted, Event.goesOffline, Bool.false_and,
      Bool.false_eq_true, if_false]
    unfold LinkLayer.Send LinkLayer.SetTxSegment
    split_ifs <;> first | rfl | exact isRemoteReset_TryStartTransmission _
  | OnLowerLayerUp now =>
    simp only [step, Option.some.injEq] at hs
    subst hs
    simp only [Event.isAckInResetLinkWait, Event.isAccepted, Event.goesOffline, Bool.false_and,
      Bool.false_eq_true, if_false]
    unfold LinkLayer.OnLowerLayerUp
    split_ifs <;> rfl
  | OnLowerLayerDown =>
    simp only [step, Option.some.injEq] at hs
    subst hs
    simp only [Event.isAckInResetLinkWait, Event.isAccepted, Event.goesOffline, Bool.false_and,
      Bool.false_eq_true, if_false]
    unfold LinkLayer.OnLowerLayerDown
    by_cases ho : ctx.isOnline = true <;> simp [ho]
  | OnTransmitResult success =>
    simp only [step, LinkLayer.OnTransmitResult] at hs
    simp only [Event.isAckInResetLinkWait, Event.isAccepted, Event.goesOffline, Bool.false_and,
      Bool.false_eq_true, if_false]
    have e1 : ((({ ctx with txMode := LinkTransmitMode.Idle }).TryPendingTx
        false).1.TryPendingTx true).1.isRemoteReset = ctx.isRemoteReset := by simp
    generalize ((({ ctx with txMode := LinkTransmitMode.Idle }).TryPendingTx false).1.TryPendingTx
      true).1 = c at e1 hs
    split_ifs at hs with h1 h2
    · simp only [Option.map_some', Option.some.injEq] at hs; subst hs; rfl
    · split at hs
      · simp at hs
      · next r hr =>
        simp only [Option.map_some', Option.some.injEq] at hs
        subst hs
        rw [isRemoteReset_TryStartTransmission]
        exact (isRemoteReset_pri_OnTransmitResult c success r hr).trans e1
    · simp only [Option.map_some', Option.some.injEq] at hs
      subst hs
      rw [isRemoteReset_TryStartTransmission]
      simpa using e1
  | OnFrame now header userdata =>
    simp only [step, LinkLayer.OnFrame] at hs
    simp only [Event.isAckInResetLinkWait, Event.isAccepted, Event.goesOffline,
      Bool.false_eq_true, if_false]
    split_ifs at hs with h1 h2
    · simp only [Option.map_some', Option.some.injEq] at hs; subst hs
      simp only [Bool.not_eq_true'] at h1
      simp [h1]
    · simp only [Option.map_some', Option.some.injEq] at hs; subst hs
      simp only [Bool.not_eq_true'] at h2
      simp [h2]
    · simp only [Bool.not_eq_true', Bool.not_eq_false] at h1 h2
      split at hs
      · simp at hs
      · next c hc =>
        simp only [Option.map_some', Option.some.injEq] at hs
        subst hs
        obtain ⟨hc1, hc2⟩ := dispatchFrame_inl _ c header userdata hc
        rw [hc1]
        simp [hc2]
      · next c hc =>
        simp only [Option.map_some', Option.some.injEq] at hs
        subst hs
        rw [isRemoteReset_TryStartTransmission,
          isRemoteReset_dispatchFrame _ c header userdata hc]
        simp [h1, h2]
  | OnResponseTimeout =>
    simp only [step, LinkLayer.OnResponseTimeout] at hs
    simp only [Event.isAckInResetLinkWait, Event.isAccepted, Event.goesOffline, Bool.false_and,
      Bool.false_eq_true, if_false]
    split at hs
    · simp at hs
    · next r hr =>
      simp only [Option.some.injEq] at hs
      subst hs
      rw [isRemoteReset_TryStartTransmission]
      exact isRemoteReset_pri_OnTimeout { ctx with rspTimeoutTimer := false } r hr
  | OnKeepAliveTimeout now =>
    simp only [step, Option.some.injEq] at hs
    subst hs
    simp only [Event.isAckInResetLinkWait, Event.isAccepted, Event.goesOffline, Bool.false_and,
      Bool.false_eq_true, if_false]
    unfold LinkLayer.OnKeepAliveTimeout
    rw [isRemoteReset_TryStartTransmission]
    simp only [LinkLayer.StartKeepAliveTimer, LinkLayer.emit]
    split_ifs <;> rfl

/-! ## C17, event by event -/

/-- C17, amended: every event on a reachable context is defined, and afterwards
`isRemoteReset` is true if the event is an ACK let through in ResetLinkWait, false if
the event is `OnLowerLayerDown` on an online layer, and what it was before for every
other event, a NACK in ConfDataWait with either receive-buffer-full bit included. -/
theorem remote_reset_changes (ctx : LinkLayer) (e : Event) (h : Reachable ctx) :
    ∃ ctx', step ctx e = some ctx' ∧
      ctx'.isRemoteReset =
        if e.isAckInResetLinkWait ctx = true then true
        else if e.goesOffline ctx = true then false
        else ctx.isRemoteReset := by
  obtain ⟨ctx', hs⟩ := isSome_step ctx e (wellFormed_of_reachable ctx h)
  exact ⟨ctx', hs, isRemoteReset_step ctx ctx' e hs⟩

/-- Witness of C17, amended: the scenario layer waiting for the answer to
RESET_LINK_STATES, where the ACK sets the flag. -/
theorem remote_reset_changes_witness :
    Reachable scenarioResetLinkWait ∧ scenarioResetLinkWait.isRemoteReset = false ∧
    ∃ ctx', step scenarioResetLinkWait
        (Event.OnFrame 5 (scenarioHeader LinkFunction.SEC_ACK false) []) = some ctx' ∧
      ctx'.isRemoteReset = true := by
  have hreach : Reachable scenarioResetLinkWait :=
    ⟨scenarioConfig, 0,
      [Event.OnLowerLayerUp 0, Event.Send ⟨[7], []⟩, Event.OnTransmitResult true], rfl⟩
  obtain ⟨c, hs, hc⟩ := remote_reset_changes scenarioResetLinkWait
    (Event.OnFrame 5 (scenarioHeader LinkFunction.SEC_ACK false) []) hreach
  exact ⟨hreach, rfl, c, hs, hc.trans rfl⟩

/-! ## C21 -/

theorem isSome_pri_OnAck (ctx : LinkLayer) (rxBuffFull : Bool) (h : WellFormed ctx) :
    ∃ r, ctx.pPriState.OnAck ctx rxBuffFull = some r := by
  revert h
  obtain ⟨config, pSegments, txMode, numRetryRemaining, nextReadFCB, nextWriteFCB, isOnline,
    isRemoteReset, keepAliveTimeout, lastMessageTimestamp, pPriState, pSecState, pendingPriTx,
    pendingSecTx, rspTimeoutTimer, keepAliveTimer, trace⟩ := ctx
  cases pPriState <;> cases pSegments <;> simp [WellFormed] <;> (try split_ifs) <;> simp

/-- C22: in every reachable context, if the primary state is one of the five states of a
send then `pSegments` is non-null; the handlers that dereference it, for a transmit
result, an ACK and a timeout, are defined on the context, and so is every event. -/
theorem segments_never_null (ctx : LinkLayer) (h : Reachable ctx) :
    (ctx.pPriState ∈ [PriState.SendUnconfirmedTransmitWait, PriState.LinkResetTransmitWait,
        PriState.ResetLinkWait, PriState.ConfUserDataTransmitWait, PriState.ConfDataWait] →
      ctx.pSegments ≠ none) ∧
    (∀ success, ∃ r, ctx.pPriState.OnTransmitResult ctx success = some r) ∧
    (∀ rxBuffFull, ∃ r, ctx.pPriState.OnAck ctx rxBuffFull = some r) ∧
    (∃ r, ctx.pPriState.OnTimeout ctx = some r) ∧
    ∀ e, ∃ ctx', step ctx e = some ctx' := by
  have hwf := wellFormed_of_reachable ctx h
  refine ⟨?_, fun s => isSome_pri_OnTransmitResult ctx s hwf,
    fun b => isSome_pri_OnAck ctx b hwf, isSome_pri_OnTimeout ctx hwf,
    fun e => isSome_step ctx e hwf⟩
  revert hwf
  cases hp : ctx.pPriState <;> simp [WellFormed, hp]
  · intro h1 _; exact h1
  · intro h1 _; exact h1

/-- Witness of C22: the scenario layer waiting for the answer to RESET_LINK_STATES holds
the segments of its send, and the ACK, whose handler reads them, is defined. -/
theorem segments_never_null_witness :
    Reachable scenarioResetLinkWait ∧
    scenarioResetLinkWait.pPriState = PriState.ResetLinkWait ∧
    scenarioResetLinkWait.pSegments ≠ none ∧
    ∃ ctx', step scenarioResetLinkWait
      (Event.OnFrame 5 (scenarioHeader LinkFunction.SEC_ACK false) []) = some ctx' := by
  have hreach : Reachable scenarioResetLinkWait :=
    ⟨scenarioConfig, 0,
      [Event.OnLowerLayerUp 0, Event.Send ⟨[7], []⟩, Event.OnTransmitResult true], rfl⟩
  obtain ⟨h1, -, -, -, h5⟩ := segments_never_null scenarioResetLinkWait hreach
  exact ⟨hreach, rfl, h1 (by decide), h5 _⟩

/-! ## The primary machine and the arbiter -/

theorem inStep_of_fields (ctx ctx' : LinkLayer) (h : InStep ctx)
    (h1 : ctx'.txMode = ctx.txMode) (h2 : ctx'.pendingPriTx = ctx.pendingPriTx)
    (h3 : ctx'.pPriState = ctx.pPriState) : InStep ctx' := by
  unfold InStep at h ⊢
  rw [h1, h2, h3]
  exact h

theorem inStep_TryStartTransmission (ctx : LinkLayer) (h : InStep ctx) :
    InStep ctx.TryStartTransmission := by
  revert h
  obtain ⟨config, pSegments, txMode, numRetryRemaining, nextReadFCB, nextWriteFCB, isOnline,
    isRemoteReset, keepAliveTimeout, lastMessageTimestamp, pPriState, pSecState, pendingPriTx,
    pendingSecTx, rspTimeoutTimer, keepAliveTimer, trace⟩ := ctx
  cases pPriState <;> cases keepAliveTimeout <;> cases pSegments <;> cases txMode <;>
    simp [InStep, PriState.isTransmitWait, LinkLayer.TryStartTransmission] <;>
    (try split_ifs) <;> simp_all [PriState.isTransmitWait]

theorem inStep_pri_OnTransmitResult (ctx : LinkLayer) (success : Bool)
    (r : LinkLayer × PriState) (h1 : ctx.txMode ≠ LinkTransmitMode.Primary)
    (h2 : ctx.pendingPriTx = none)
    (hr : ctx.pPriState.OnTransmitResult ctx success = some r) :
    InStep { r.1 with pPriState := r.2 } := by
  revert r h1 h2
  obtain ⟨config, pSegments, txMode, numRetryRemaining, nextReadFCB, nextWriteFCB, isOnline,
    isRemoteReset, keepAliveTimeout, lastMessageTimestamp, pPriState, pSecState, pendingPriTx,
    pendingSecTx, rspTimeoutTimer, keepAliveTimer, trace⟩ := ctx
  cases pPriState <;> cases success <;> cases pSegments <;> cases txMode <;>
    simp [InStep, PriState.isTransmitWait] <;>
    (try split_ifs) <;> simp_all [PriState.isTransmitWait]

theorem inStep_pri_OnTimeout (ctx : LinkLayer) (r : LinkLayer × PriState) (h : InStep ctx)
    (hr : ctx.pPriState.OnTimeout ctx = some r) : InStep { r.1 with pPriState := r.2 } := by
  revert r h
  obtain ⟨config, pSegments, txMode, numRetryRemaining, nextReadFCB, nextWriteFCB, isOnline,
    isRemoteReset, keepAliveTimeout, lastMessageTimestamp, pPriState, pSecState, pendingPriTx,
    pendingSecTx, rspTimeoutTimer, keepAliveTimer, trace⟩ := ctx
  cases pPriState <;> cases pSegments <;> cases txMode <;>
    simp [InStep, PriState.isTransmitWait] <;>
    (try split_ifs) <;> simp_all [PriState.isTransmitWait]

theorem inStep_dispatchFrame (ctx c : LinkLayer) (header : LinkHeaderFields)
    (userdata : List Nat) (h : InStep ctx)
    (hr : ctx.dispatchFrame header userdata = some (Sum.inr c)) : InStep c := by
  revert c h
  obtain ⟨config, pSegments, txMode, numRetryRemaining, nextReadFCB, nextWriteFCB, isOnline,
    isRemoteReset, keepAliveTimeout, lastMessageTimestamp, pPriState, pSecState, pendingPriTx,
    pendingSecTx, rspTimeoutTimer, keepAliveTimer, trace⟩ := ctx
  obtain ⟨func, isFromMaster, fcb, fcvdfc, dest, src⟩ := header
  cases func
  iterate 5
    cases pSecState <;> cases txMode <;>
      simp [InStep, LinkLayer.dispatchFrame] <;> (try split_ifs) <;> simp_all
  all_goals
    cases pPriState <;> cases pSegments <;>
    simp [InStep, PriState.isTransmitWait, LinkLayer.dispatchFrame] <;>
    (try split_ifs) <;> simp_all [PriState.isTransmitWait] <;>
    (try (intros; exact Classical.em _))
theorem queuedPrimary_ite (c : Prop) [Decidable c] (l1 l2 : List Action) :
    queuedPrimary (if c then l1 else l2) = if c then queuedPrimary l1 else queuedPrimary l2 := by
  split_ifs <;> rfl

theorem queues_TryStartTransmission (ctx : LinkLayer) :
    (queuedPrimary (newActions ctx ctx.TryStartTransmission)).length ≤ 1 := by
  obtain ⟨config, pSegments, txMode, numRetryRemaining, nextReadFCB, nextWriteFCB, isOnline,
    isRemoteReset, keepAliveTimeout, lastMessageTimestamp, pPriState, pSecState, pendingPriTx,
    pendingSecTx, rspTimeoutTimer, keepAliveTimer, trace⟩ := ctx
  cases pPriState <;> cases keepAliveTimeout <;> cases pSegments <;> cases txMode <;>
    simp [LinkLayer.TryStartTransmission, newActions, queuedPrimary] <;>
    (try split_ifs) <;> simp [newActions, queuedPrimary]

theorem queues_pri_OnTransmitResult (ctx : LinkLayer) (success : Bool)
    (r : LinkLayer × PriState) (hr : ctx.pPriState.OnTransmitResult ctx success = some r) :
    QueuesAtMostOne ctx { r.1 with pPriState := r.2 } := by
  revert r
  obtain ⟨config, pSegments, txMode, numRetryRemaining, nextReadFCB, nextWriteFCB, isOnline,
    isRemoteReset, keepAliveTimeout, lastMessageTimestamp, pPriState, pSecState, pendingPriTx,
    pendingSecTx, rspTimeoutTimer, keepAliveTimer, trace⟩ := ctx
  cases pPriState <;> cases success <;> cases pSegments <;> cases txMode <;>
    simp [QueuesAtMostOne, newActions, queuedPrimary] <;>
    (try split_ifs) <;> simp_all [newActions, queuedPrimary]

theorem queues_pri_OnTimeout (ctx : LinkLayer) (r : LinkLayer × PriState)
    (hr : ctx.pPriState.OnTimeout ctx = some r) :
    QueuesAtMostOne ctx { r.1 with pPriState := r.2 } ∧
    (ctx.pPriState.isTransmitWait = true →
      r.2 = ctx.pPriState ∧ queuedPrimary (newActions ctx r.1) = []) := by
  revert r
  obtain ⟨config, pSegments, txMode, numRetryRemaining, nextReadFCB, nextWriteFCB, isOnline,
    isRemoteReset, keepAliveTimeout, lastMessageTimestamp, pPriState, pSecState, pendingPriTx,
    pendingSecTx, rspTimeoutTimer, keepAliveTimer, trace⟩ := ctx
  cases pPriState <;> cases pSegments <;> cases txMode <;>
    simp [QueuesAtMostOne, PriState.isTransmitWait, newActions, queuedPrimary] <;>
    (try split_ifs) <;> simp_all [newActions, queuedPrimary]

theorem queues_dispatchFrame (ctx c : LinkLayer) (header : LinkHeaderFields)
    (userdata : List Nat) (hr : ctx.dispatchFrame header userdata = some (Sum.inr c)) :
    QueuesAtMostOne ctx c ∧
    (ctx.pPriState.isTransmitWait = true →
      c.pPriState = ctx.pPriState ∧ queuedPrimary (newActions ctx c) = []) := by
  revert c
  obtain ⟨config, pSegments, txMode, numRetryRemaining, nextReadFCB, nextWriteFCB, isOnline,
    isRemoteReset, keepAliveTimeout, lastMessageTimestamp, pPriState, pSecState, pendingPriTx,
    pendingSecTx, rspTimeoutTimer, keepAliveTimer, trace⟩ := ctx
  obtain ⟨func, isFromMaster, fcb, fcvdfc, dest, src⟩ := header
  cases func
  iterate 5
    cases pSecState <;>
      simp [QueuesAtMostOne, LinkLayer.dispatchFrame, newActions, queuedPrimary,
        queuedPrimary_append, queuedPrimary_ite] <;>
      (try split_ifs) <;>
      simp_all [newActions, queuedPrimary, queuedPrimary_append, queuedPrimary_ite]
  all_goals
    cases pPriState <;> cases pSegments <;>
    simp [QueuesAtMostOne, PriState.isTransmitWait, LinkLayer.dispatchFrame, newActions,
      queuedPrimary, queuedPrimary_append, queuedPrimary_ite] <;>
    (try split_ifs) <;>
    simp_all [newActions, queuedPrimary, queuedPrimary_append, queuedPrimary_ite]

theorem newActions_trans (a b c : LinkLayer) (h1 : a.trace <+: b.trace)
    (h2 : b.trace <+: c.trace) :
    newActions a c = newActions a b ++ newActions b c := by
  obtain ⟨l1, e1⟩ := h1
  obtain ⟨l2, e2⟩ := h2
  simp [newActions, ← e2, ← e1]

theorem queuesAtMostOne_extend (a b m : LinkLayer) (h1 : a.trace <+: b.trace)
    (h2 : b.trace <+: m.trace) (h0 : queuedPrimary (newActions a b) = [])
    (h : QueuesAtMostOne b m) : QueuesAtMostOne a m := by
  unfold QueuesAtMostOne at h ⊢
  rw [newActions_trans a b m h1 h2, queuedPrimary_append, h0, List.nil_append]
  exact h

theorem queues_pump (c m : LinkLayer) (hp : c.trace <+: m.trace) (h : QueuesAtMostOne c m) :
    (queuedPrimary (newActions c m.TryStartTransmission)).length ≤ 1 := by
  by_cases hm : m.pPriState = PriState.Idle
  · have h0 : queuedPrimary (newActions c m) = [] := by
      rcases h with h | ⟨h, -⟩
      · exact h
      · exact absurd hm h
    rw [newActions_trans c m _ hp (trace_TryStartTransmission m), queuedPrimary_append, h0,
      List.nil_append]
    exact queues_TryStartTransmission m
  · rw [TryStartTransmission_of_not_idle m hm]
    rcases h with h | ⟨-, h⟩
    · simp [h]
    · omega

theorem isTransmitWait_ne_idle (s : PriState) (h : s.isTransmitWait = true) :
    s ≠ PriState.Idle := by
  cases s <;> simp [PriState.isTransmitWait] at h ⊢

theorem drain_after_primary (ctx : LinkLayer) (h2 : ctx.pendingPriTx = none) :
    ctx.drained.txMode ≠ LinkTransmitMode.Primary ∧ ctx.drained.pendingPriTx = none := by
  cases h1 : ctx.pendingSecTx <;> simp [LinkLayer.drained, LinkLayer.TryPendingTx, h1, h2]

theorem drain_after_secondary (ctx : LinkLayer) (h : InStep ctx)
    (hm : ctx.txMode = LinkTransmitMode.Secondary) : InStep ctx.drained := by
  revert h hm
  obtain ⟨config, pSegments, txMode, numRetryRemaining, nextReadFCB, nextWriteFCB, isOnline,
    isRemoteReset, keepAliveTimeout, lastMessageTimestamp, pPriState, pSecState, pendingPriTx,
    pendingSecTx, rspTimeoutTimer, keepAliveTimer, trace⟩ := ctx
  cases txMode <;> cases pendingSecTx <;> cases pendingPriTx <;>
    simp [InStep, LinkLayer.drained, LinkLayer.TryPendingTx]

theorem queues_drain (ctx : LinkLayer) :
    ctx.trace <+: ctx.drained.trace ∧ queuedPrimary (newActions ctx ctx.drained) = [] ∧
    ctx.drained.pPriState = ctx.pPriState := by
  cases h1 : ctx.pendingSecTx <;> cases h2 : ctx.pendingPriTx <;>
    simp [LinkLayer.drained, LinkLayer.TryPendingTx, h1, h2, newActions, queuedPrimary]

theorem inStep_step (ctx ctx' : LinkLayer) (e : Event) (h : InStep ctx)
    (hs : step ctx e = some ctx') : InStep ctx' := by
  cases e with
  | Send segments =>
    simp only [step, Option.some.injEq] at hs
    subst hs
    unfold LinkLayer.Send LinkLayer.SetTxSegment
    split_ifs with h1 h2 <;> try (first | exact h | simp at *)
    exact inStep_TryStartTransmission _ (inStep_of_fields ctx _ h rfl rfl rfl)
  | OnLowerLayerUp now =>
    simp only [step, Option.some.injEq] at hs
    subst hs
    unfold LinkLayer.OnLowerLayerUp
    split_ifs
    · exact h
    · exact inStep_of_fields ctx _ h rfl rfl rfl
  | OnLowerLayerDown =>
    simp only [step, Option.some.injEq] at hs
    subst hs
    unfold LinkLayer.OnLowerLayerDown
    split_ifs
    · exact h
    · simp [InStep, PriState.isTransmitWait]
  | OnTransmitResult success =>
    simp only [step, LinkLayer.OnTransmitResult] at hs
    by_cases h1 : ctx.txMode = LinkTransmitMode.Idle
    · simp only [h1, if_true, Option.map_some', Option.some.injEq] at hs
      subst hs
      exact h
    · simp only [h1, if_false] at hs
      by_cases h2 : ctx.txMode = LinkTransmitMode.Primary
      · have hd := drain_after_primary ctx (h.2 h2)
        unfold LinkLayer.drained at hd
        generalize ((({ ctx with txMode := LinkTransmitMode.Idle }).TryPendingTx
          false).1.TryPendingTx true).1 = c at hd hs
        simp only [h2, decide_True, if_true] at hs
        split at hs
        · simp at hs
        · next r hr =>
          simp only [Option.map_some', Option.some.injEq] at hs
          subst hs
          exact inStep_TryStartTransmission _
            (inStep_pri_OnTransmitResult c success r hd.1 hd.2 hr)
      · have hsec : ctx.txMode = LinkTransmitMode.Secondary := by
          cases hm : ctx.txMode <;> simp_all
        have hd := drain_after_secondary ctx h hsec
        unfold LinkLayer.drained at hd
        generalize ((({ ctx with txMode := LinkTransmitMode.Idle }).TryPendingTx
          false).1.TryPendingTx true).1 = c at hd hs
        simp only [h2, decide_False, Bool.false_eq_true, if_false, Option.map_some',
          Option.some.injEq] at hs
        subst hs
        exact inStep_TryStartTransmission _ (inStep_of_fields c _ hd rfl rfl rfl)
  | OnFrame now header userdata =>
    simp only [step, LinkLayer.OnFrame] at hs
    split_ifs at hs with h1 h2
    · simp only [Option.map_some', Option.some.injEq] at hs; subst hs; exact h
    · simp only [Option.map_some', Option.some.injEq] at hs; subst hs; exact h
    · have h0 : InStep { ctx with lastMessageTimestamp := now } :=
        inStep_of_fields ctx _ h rfl rfl rfl
      split at hs
      · simp at hs
      · next c hc =>
        simp only [Option.map_some', Option.some.injEq] at hs
        subst hs
        rw [(dispatchFrame_inl _ c header userdata hc).1]
        exact h0
      · next c hc =>
        simp only [Option.map_some', Option.some.injEq] at hs
        subst hs
        exact inStep_TryStartTransmission _ (inStep_dispatchFrame _ c header userdata h0 hc)
  | OnResponseTimeout =>
    simp only [step, LinkLayer.OnResponseTimeout] at hs
    have h0 : InStep { ctx with rspTimeoutTimer := false } :=
      inStep_of_fields ctx _ h rfl rfl rfl
    split at hs
    · simp at hs
    · next r hr =>
      simp only [Option.some.injEq] at hs
      subst hs
      exact inStep_TryStartTransmission _
        (inStep_pri_OnTimeout { ctx with rspTimeoutTimer := false } r h0 hr)
  | OnKeepAliveTimeout now =>
    simp only [step, Option.some.injEq] at hs
    subst hs
    unfold LinkLayer.OnKeepAliveTimeout
    apply inStep_TryStartTransmission
    apply inStep_of_fields ctx _ h <;> simp only [LinkLayer.StartKeepAliveTimer, LinkLayer.emit] <;>
      split_ifs <;> rfl

theorem inStep_run (es : List Event) (ctx ctx' : LinkLayer) (h : InStep ctx)
    (hr : run ctx es = some ctx') : InStep ctx' := by
  induction es generalizing ctx with
  | nil => simp only [run, Option.some.injEq] at hr; subst hr; exact h
  | cons e es ih =>
    simp only [run] at hr
    split at hr
    · simp at hr
    · next c hc => exact ih c (inStep_step ctx c e h hc) hr

theorem inStep_of_reachable (ctx : LinkLayer) (h : Reachable ctx) : InStep ctx := by
  obtain ⟨config, now, es, hr⟩ := h
  refine inStep_run es _ ctx ?_ hr
  simp [InStep, LinkLayer.new, PriState.isTransmitWait]

theorem queues_pump_tw (ctx m : LinkLayer) (htw : ctx.pPriState.isTransmitWait = true)
    (h1 : m.pPriState = ctx.pPriState) (h2 : queuedPrimary (newActions ctx m) = []) :
    queuedPrimary (newActions ctx m.TryStartTransmission) = [] := by
  have hne : m.pPriState ≠ PriState.Idle := by
    rw [h1]; exact isTransmitWait_ne_idle _ htw
  rw [TryStartTransmission_of_not_idle m hne]
  exact h2

theorem queuesAtMostOne_of_trace (ctx m : LinkLayer) (h : m.trace = ctx.trace) :
    QueuesAtMostOne ctx m ∧ queuedPrimary (newActions ctx m) = [] := by
  simp [QueuesAtMostOne, newActions, h, queuedPrimary]

theorem queues_step (ctx ctx' : LinkLayer) (e : Event) (hs : step ctx e = some ctx') :
    (queuedPrimary (newActions ctx ctx')).length ≤ 1 ∧
    (ctx.pPriState.isTransmitWait = true → e.isPrimaryCompletion ctx = false →
      queuedPrimary (newActions ctx ctx') = []) := by
  have hrefl : (queuedPrimary (newActions ctx ctx)).length ≤ 1 ∧
      (ctx.pPriState.isTransmitWait = true → queuedPrimary (newActions ctx ctx) = []) := by
    simp [newActions, queuedPrimary]
  cases e with
  | Send segments =>
    simp only [step, Option.some.injEq] at hs
    subst hs
    unfold LinkLayer.Send LinkLayer.SetTxSegment
    split_ifs with h1 h2 <;> try (first | exact ⟨hrefl.1, fun a _ => hrefl.2 a⟩ | simp at *)
    have hm := queuesAtMostOne_of_trace ctx { ctx with pSegments := some segments } rfl
    exact ⟨queues_pump ctx _ List.prefix_rfl hm.1,
      fun htw _ => queues_pump_tw ctx _ htw rfl hm.2⟩
  | OnLowerLayerUp now =>
    simp only [step, Option.some.injEq] at hs
    subst hs
    unfold LinkLayer.OnLowerLayerUp
    split_ifs
    · exact ⟨hrefl.1, fun a _ => hrefl.2 a⟩
    · simp [newActions, queuedPrimary]
  | OnLowerLayerDown =>
    simp only [step, Option.some.injEq] at hs
    subst hs
    unfold LinkLayer.OnLowerLayerDown
    split_ifs
    · exact ⟨hrefl.1, fun a _ => hrefl.2 a⟩
    · simp [newActions, queuedPrimary]
  | OnTransmitResult success =>
    simp only [step, LinkLayer.OnTransmitResult] at hs
    simp only [Event.isPrimaryCompletion, decide_eq_false_iff_not]
    by_cases h1 : ctx.txMode = LinkTransmitMode.Idle
    · simp only [h1, if_true, Option.map_some', Option.some.injEq] at hs
      subst hs
      exact ⟨hrefl.1, fun a _ => hrefl.2 a⟩
    · simp only [h1, if_false] at hs
      obtain ⟨d1, d2, d3⟩ := queues_drain ctx
      unfold LinkLayer.drained at d1 d2 d3
      generalize ((({ ctx with txMode := LinkTransmitMode.Idle }).TryPendingTx
        false).1.TryPendingTx true).1 = c at d1 d2 d3 hs
      by_cases h2 : ctx.txMode = LinkTransmitMode.Primary
      · simp only [h2, decide_True, if_true] at hs
        split at hs
        · simp at hs
        · next r hr =>
          simp only [Option.map_some', Option.some.injEq] at hs
          subst hs
          have hp : c.trace <+: ({ r.1 with pPriState := r.2 } : LinkLayer).trace :=
            trace_pri_OnTransmitResult c success r hr
          refine ⟨queues_pump ctx _ (d1.trans hp)
            (queuesAtMostOne_extend ctx c _ d1 hp d2
              (queues_pri_OnTransmitResult c success r hr)), fun _ hn => absurd h2 hn⟩
      · simp only [h2, decide_False, Bool.false_eq_true, if_false, Option.map_some',
          Option.some.injEq] at hs
        subst hs
        have hq : queuedPrimary (newActions ctx
            ({ (c.pSecState.OnTransmitResult c success).1 with
              pSecState := (c.pSecState.OnTransmitResult c success).2 } : LinkLayer)) = [] := d2
        exact ⟨queues_pump ctx _ d1 (Or.inl hq),
          fun htw _ => queues_pump_tw ctx _ htw d3 hq⟩
  | OnFrame now header userdata =>
    simp only [step, LinkLayer.OnFrame] at hs
    split_ifs at hs with h1 h2
    · simp only [Option.map_some', Option.some.injEq] at hs; subst hs
      exact ⟨hrefl.1, fun a _ => hrefl.2 a⟩
    · simp only [Option.map_some', Option.some.injEq] at hs; subst hs
      exact ⟨hrefl.1, fun a _ => hrefl.2 a⟩
    · split at hs
      · simp at hs
      · next c hc =>
        simp only [Option.map_some', Option.some.injEq] at hs
        subst hs
        rw [(dispatchFrame_inl _ c header userdata hc).1]
        exact ⟨hrefl.1, fun a _ => hrefl.2 a⟩
      · next c hc =>
        simp only [Option.map_some', Option.some.injEq] at hs
        subst hs
        obtain ⟨q1, q2⟩ := queues_dispatchFrame { ctx with lastMessageTimestamp := now } c
          header userdata hc
        have hp : ctx.trace <+: c.trace :=
          trace_dispatchFrame { ctx with lastMessageTimestamp := now } c header userdata hc
        exact ⟨queues_pump ctx _ hp q1,
          fun htw _ => queues_pump_tw ctx _ htw (q2 htw).1 (q2 htw).2⟩
  | OnResponseTimeout =>
    simp only [step, LinkLayer.OnResponseTimeout] at hs
    split at hs
    · simp at hs
    · next r hr =>
      simp only [Option.some.injEq] at hs
      subst hs
      obtain ⟨q1, q2⟩ := queues_pri_OnTimeout { ctx with rspTimeoutTimer := false } r hr
      have hp : ctx.trace <+: ({ r.1 with pPriState := r.2 } : LinkLayer).trace :=
        trace_pri_OnTimeout { ctx with rspTimeoutTimer := false } r hr
      exact ⟨queues_pump ctx _ hp q1,
        fun htw _ => queues_pump_tw ctx { r.1 with pPriState := r.2 } htw (q2 htw).1 (q2 htw).2⟩
  | OnKeepAliveTimeout now =>
    simp only [step, Option.some.injEq] at hs
    subst hs
    unfold LinkLayer.OnKeepAliveTimeout
    have key : ∀ m : LinkLayer, m.pPriState = ctx.pPriState →
        m.trace = ctx.trace ++ [Action.StartKeepAliveTimer
          (wrapInt64 (m.lastMessageTimestamp + m.config.KeepAliveTimeout))] →
        (queuedPrimary (newActions ctx m.TryStartTransmission)).length ≤ 1 ∧
        (ctx.pPriState.isTransmitWait = true →
          Event.isPrimaryCompletion ctx (Event.OnKeepAliveTimeout now) = false →
          queuedPrimary (newActions ctx m.TryStartTransmission) = []) := by
      intro m hm1 hm2
      have h0 : queuedPrimary (newActions ctx m) = [] := by
        simp [newActions, hm2, queuedPrimary]
      exact ⟨queues_pump ctx m ⟨_, hm2.symm⟩ (Or.inl h0),
        fun htw _ => queues_pump_tw ctx m htw hm1 h0⟩
    dsimp only
    split_ifs
    · exact key _ rfl rfl
    · exact key _ rfl rfl
/-! ## C23 -/

/-- C23: in every reachable context a primary buffer is outstanding, on the wire
(`txMode` Primary) or stored (`pendingPriTx` set), if and only if the primary state is
one of the four transmit-wait states, and it is never both on the wire and stored.  When
`OnTransmitResult` dispatches a primary completion, the primary state is a transmit-wait
state, not one handled by the default `PriStateBase::OnTransmitResult`, and no primary
buffer is outstanding any more.  Every event is defined and queues at most one primary
frame, and none while a primary buffer is outstanding, unless the event is the
completion of that buffer. -/
theorem primary_and_arbiter_in_step (ctx : LinkLayer) (h : Reachable ctx) :
    ((ctx.txMode = LinkTransmitMode.Primary ∨ ctx.pendingPriTx ≠ none) ↔
      ctx.pPriState ∈
        [PriState.SendUnconfirmedTransmitWait, PriState.LinkResetTransmitWait,
          PriState.ConfUserDataTransmitWait, PriState.RequestLinkStatusTransmitWait]) ∧
    ¬ (ctx.txMode = LinkTransmitMode.Primary ∧ ctx.pendingPriTx ≠ none) ∧
    (ctx.txMode = LinkTransmitMode.Primary →
      ctx.drained.pPriState ∈
        [PriState.SendUnconfirmedTransmitWait, PriState.LinkResetTransmitWait,
          PriState.ConfUserDataTransmitWait, PriState.RequestLinkStatusTransmitWait] ∧
      ctx.drained.txMode ≠ LinkTransmitMode.Primary ∧ ctx.drained.pendingPriTx = none) ∧
    ∀ e, ∃ ctx', step ctx e = some ctx' ∧
      (queuedPrimary (newActions ctx ctx')).length ≤ 1 ∧
      ((ctx.txMode = LinkTransmitMode.Primary ∨ ctx.pendingPriTx ≠ none) →
        e.isPrimaryCompletion ctx = false → queuedPrimary (newActions ctx ctx') = []) := by
  have key : ∀ s : PriState, s.isTransmitWait = true ↔
      s ∈ [PriState.SendUnconfirmedTransmitWait, PriState.LinkResetTransmitWait,
        PriState.ConfUserDataTransmitWait, PriState.RequestLinkStatusTransmitWait] := by
    intro s; cases s <;> simp [PriState.isTransmitWait]
  obtain ⟨h1, h2⟩ := inStep_of_reachable ctx h
  refine ⟨h1.trans (key _), fun hc => hc.2 (h2 hc.1), fun hp => ?_, fun e => ?_⟩
  · obtain ⟨d1, d2⟩ := drain_after_primary ctx (h2 hp)
    refine ⟨?_, d1, d2⟩
    rw [(queues_drain ctx).2.2]
    exact (key _).mp (h1.mp (Or.inl hp))
  · obtain ⟨ctx', hs⟩ := isSome_step ctx e (wellFormed_of_reachable ctx h)
    obtain ⟨q1, q2⟩ := queues_step ctx ctx' e hs
    exact ⟨ctx', hs, q1, fun ho hn => q2 (h1.mp ho) hn⟩

/-- Witness of C23: the scenario layer with the RESET_LINK_STATES frame of a send on the
wire: the primary state is LinkResetTransmitWait, and a request of the peer for the link
status, answered meanwhile, queues no primary frame. -/
theorem primary_and_arbiter_in_step_witness :
    Reachable (scenarioOnline.Send ⟨[7], []⟩) ∧
    (scenarioOnline.Send ⟨[7], []⟩).txMode = LinkTransmitMode.Primary ∧
    (scenarioOnline.Send ⟨[7], []⟩).pPriState ∈
      [PriState.SendUnconfirmedTransmitWait, PriState.LinkResetTransmitWait,
        PriState.ConfUserDataTransmitWait, PriState.RequestLinkStatusTransmitWait] ∧
    (scenarioOnline.Send ⟨[7], []⟩).drained.txMode ≠ LinkTransmitMode.Primary ∧
    ∃ ctx', step (scenarioOnline.Send ⟨[7], []⟩)
        (Event.OnFrame 3 (scenarioHeader LinkFunction.PRI_REQUEST_LINK_STATUS false) []) =
          some ctx' ∧
      queuedPrimary (newActions (scenarioOnline.Send ⟨[7], []⟩) ctx') = [] := by
  have hreach : Reachable (scenarioOnline.Send ⟨[7], []⟩) :=
    ⟨scenarioConfig, 0, [Event.OnLowerLayerUp 0, Event.Send ⟨[7], []⟩], rfl⟩
  obtain ⟨h1, -, h3, h4⟩ := primary_and_arbiter_in_step (scenarioOnline.Send ⟨[7], []⟩) hreach
  obtain ⟨c, hs, -, hq⟩ :=
    h4 (Event.OnFrame 3 (scenarioHeader LinkFunction.PRI_REQUEST_LINK_STATUS false) [])
  exact ⟨hreach, rfl, h1.mp (Or.inl rfl), (h3 rfl).2.1, c, hs, hq (Or.inl rfl) rfl⟩

end opendnp3
